import Mathlib

/-!
# ARM semihosting: `src/target/arm_semihosting.c`

A shallow embedding of `arm_semihosting` and `do_semihosting`.

* The halted core is the record `Arm` (the fields of `struct arm` that the file touches:
  the cached registers r0, r1, r15, CPSR, the SVC-mode r14, the SPSR, `core_mode`,
  `core_state`, `is_semihosting`, `semihosting_errno`).
* Target memory is a byte map; every call into the target layer (`target_read_memory`,
  `target_write_buffer`, `target_resume`, ...) takes its status from the oracle
  `World.status`, indexed by the number of target-layer calls made so far, so any call
  may fail.
* The host C library is an abstract state machine `Host σ`: every call maps the host
  state to a result and a new host state, and `errno` is read from the host state.
* Every external call is appended to `World.trace`.
* C integer types follow an LP64 host: `int` is 32 bits (`to_int`), `size_t`, `ssize_t`
  and `off_t` are 64 bits, so a `uint32_t` converts to them unchanged.
* The `do { ... } while (1)` loop of SYS_WRITE0 is driven by a fuel argument; running out
  of fuel yields `none`.  No other request consumes fuel.
-/

namespace ArmSemihosting

/-! ## Constants of the headers used by the file -/

/-- Status `ERROR_OK` of the target layer (helper/log.h). -/
def ERROR_OK : Int := 0

/-- Mode number `ARMV4_5_MODE_SVC` of armv4_5.h. -/
def ARMV4_5_MODE_SVC : Nat := 19

/-- Host constant of fcntl.h. -/
def O_RDONLY : Nat := 0

/-- Host constant of fcntl.h. -/
def O_WRONLY : Nat := 1

/-- Host constant of fcntl.h. -/
def O_RDWR : Nat := 2

/-- Host constant of fcntl.h (Linux value). -/
def O_CREAT : Nat := 0x40

/-- Host constant of fcntl.h (Linux value). -/
def O_TRUNC : Nat := 0x200

/-- Host constant of fcntl.h (Linux value). -/
def O_APPEND : Nat := 0x400

/-- Host constant of errno.h. -/
def ENOMEM : Int := 12

/-- Host constant of errno.h. -/
def EINVAL : Int := 22

/-- Host constant of errno.h (Linux value). -/
def ENOTSUP : Int := 95

/-- Host constant of unistd.h. -/
def SEEK_SET : Nat := 0

/-- Host constant of unistd.h. -/
def SEEK_CUR : Nat := 1

/-- Host constant of unistd.h. -/
def SEEK_END : Nat := 2

/-! ## Machine integers -/

/-- Conversion of an integer value to C `int` (32 bits, two's complement). -/
def to_int (x : Int) : Int := (x + 2 ^ 31) % 2 ^ 32 - 2 ^ 31

/-- Conversion of an integer value to `uint32_t`. -/
def to_u32 (x : Int) : Nat := (x % 2 ^ 32).toNat

/-- Read of a 32-bit field of a register buffer: `buf_get_u32(v, 0, 32)`. -/
def buf_get_u32 (value : Nat) : Nat := value % 2 ^ 32

/-- Value stored by `buf_set_u32(v, 0, 32, x)`. -/
def buf_set_u32 (x : Int) : Nat := to_u32 x

/-! ## The core -/

/-- One cached register: `struct reg` restricted to `value` and `dirty`. -/
structure Reg where
  value : Nat
  dirty : Bool
deriving DecidableEq, Repr

/-- Instruction-set state of the core (`enum armv4_5_state`). -/
inductive armv4_5_state where
  | ARMV4_5_STATE_ARM
  | ARMV4_5_STATE_THUMB
  | ARMV4_5_STATE_JAZELLE
deriving DecidableEq, Repr

/-- The fields of `struct arm` used by the file.  `pc` is `reg_list[15]`, `cpsr` is
`reg_list[ARMV4_5_CPSR]`, `lr_svc` is `ARMV4_5_CORE_REG_MODE(cache, ARMV4_5_MODE_SVC, 14)`
and `spsr` is the register `armv4_5->spsr` points to. -/
structure Arm where
  r0 : Reg
  r1 : Reg
  pc : Reg
  cpsr : Reg
  lr_svc : Reg
  spsr : Reg
  core_mode : Nat
  core_state : armv4_5_state
  is_semihosting : Bool
  semihosting_errno : Int
deriving DecidableEq, Repr

/-! ## External calls and their log -/

/-- The three messages the file prints on stderr. -/
inductive StderrMsg where
  | application_exited
  | exception (r1 : Nat)
  | unsupported_call (r0 : Nat)
deriving DecidableEq, Repr

/-- A call into the host C library, with its arguments. -/
inductive HostCall where
  | malloc (size : Nat)
  | free
  | open_ (fn : List Nat) (flags : Nat)
  | dup (fd : Int)
  | close (fd : Int)
  | putchar (c : Nat)
  | getchar
  | write (fd : Int) (data : List Nat)
  | read (fd : Int) (len : Nat)
  | isatty (fd : Int)
  | lseek (fd : Int) (offset : Int) (whence : Nat)
  | remove (fn : List Nat)
  | rename (fn1 fn2 : List Nat)
  | time
  | fprintf_stderr (msg : StderrMsg)
deriving DecidableEq, Repr

/-- One external call.  Target-layer calls carry the status they returned;
`target_resume` and `target_call_event_callbacks` carry the core record they were
handed. -/
inductive Event where
  | read_memory (addr size count : Nat) (status : Int)
  | read_buffer (addr size : Nat) (status : Int)
  | write_memory (addr size count : Nat) (data : List Nat) (status : Int)
  | write_buffer (addr size : Nat) (data : List Nat) (status : Int)
  | host (call : HostCall)
  | resume (core : Arm) (status : Int)
  | halted_event (core : Arm) (status : Int)
deriving DecidableEq, Repr

/-- The host C library as a state machine over host states `σ`.  Every function returns
its C result and the next host state; `errno` reads the host's error indicator. -/
structure Host (σ : Type) where
  errno : σ → Int
  malloc : σ → Nat → Bool × σ
  free : σ → σ
  open_ : σ → List Nat → Nat → Int × σ
  dup : σ → Int → Int × σ
  close : σ → Int → Int × σ
  putchar : σ → Nat → σ
  getchar : σ → Int × σ
  write : σ → Int → List Nat → Int × σ
  read : σ → Int → Nat → Int × List Nat × σ
  isatty : σ → Int → Int × σ
  lseek : σ → Int → Int → Nat → Int × σ
  remove : σ → List Nat → Int × σ
  rename : σ → List Nat → List Nat → Int × σ
  time : σ → Int × σ
  fprintf_stderr : σ → StderrMsg → σ

/-- Everything a call of the file can observe or change: the core, the target
(endianness, memory, status oracle and the count of target-layer calls), the host state
and the log of external calls. -/
structure World (σ : Type) where
  arm : Arm
  little_endian : Bool
  mem : Nat → Nat
  status : Nat → Int
  tick : Nat
  host : σ
  trace : List Event

/-! ## Target layer -/

/-- The `n` bytes of target memory from address `addr` (32-bit address space). -/
def read_bytes (mem : Nat → Nat) (addr n : Nat) : List Nat :=
  (List.range n).map (fun i => mem ((addr + i) % 2 ^ 32) % 256)

/-- Target memory after storing `data` from address `addr`. -/
def write_bytes (mem : Nat → Nat) (addr : Nat) (data : List Nat) : Nat → Nat :=
  fun x =>
    if x < 2 ^ 32 ∧ (x + 2 ^ 32 - addr % 2 ^ 32) % 2 ^ 32 < data.length then
      data.getD ((x + 2 ^ 32 - addr % 2 ^ 32) % 2 ^ 32) 0 % 256
    else mem x

/-- Byte `i` of a local buffer. -/
def byte_at (buf : List Nat) (i : Nat) : Nat := buf.getD i 0

/-- The call `target_buffer_get_u32(target, buf + off)`. -/
def target_buffer_get_u32 {σ : Type} (w : World σ) (buf : List Nat) (off : Nat) : Nat :=
  if w.little_endian then
    byte_at buf off + 2 ^ 8 * byte_at buf (off + 1) + 2 ^ 16 * byte_at buf (off + 2)
      + 2 ^ 24 * byte_at buf (off + 3)
  else
    byte_at buf (off + 3) + 2 ^ 8 * byte_at buf (off + 2) + 2 ^ 16 * byte_at buf (off + 1)
      + 2 ^ 24 * byte_at buf off

/-- The call `target_buffer_get_u16(target, buf + off)`. -/
def target_buffer_get_u16 {σ : Type} (w : World σ) (buf : List Nat) (off : Nat) : Nat :=
  if w.little_endian then byte_at buf off + 2 ^ 8 * byte_at buf (off + 1)
  else byte_at buf (off + 1) + 2 ^ 8 * byte_at buf off

/-- The world after one call into the target layer: the call is counted and logged. -/
def target_step {σ : Type} (w : World σ) (ev : Event) : World σ :=
  { w with tick := w.tick + 1, trace := w.trace ++ [ev] }

/-- The call `target_read_memory(target, addr, size, count, buf)`: status, the bytes
stored into `buf`, and the world after the call. -/
def target_read_memory {σ : Type} (w : World σ) (addr size count : Nat) :
    Int × List Nat × World σ :=
  let st := w.status w.tick
  (st, if st = ERROR_OK then read_bytes w.mem addr (size * count) else [],
    target_step w (Event.read_memory addr size count st))

/-- The call `target_read_buffer(target, addr, size, buf)`. -/
def target_read_buffer {σ : Type} (w : World σ) (addr size : Nat) :
    Int × List Nat × World σ :=
  let st := w.status w.tick
  (st, if st = ERROR_OK then read_bytes w.mem addr size else [],
    target_step w (Event.read_buffer addr size st))

/-- The call `target_write_memory(target, addr, size, count, buf)`: the first
`size * count` bytes of `buf` are stored when the call succeeds. -/
def target_write_memory {σ : Type} (w : World σ) (addr size count : Nat) (buf : List Nat) :
    Int × World σ :=
  let st := w.status w.tick
  let data := (List.range (size * count)).map (byte_at buf)
  (st, target_step { w with mem := if st = ERROR_OK then write_bytes w.mem addr data else w.mem }
    (Event.write_memory addr size count data st))

/-- The call `target_write_buffer(target, addr, size, buf)`. -/
def target_write_buffer {σ : Type} (w : World σ) (addr size : Nat) (buf : List Nat) :
    Int × World σ :=
  let st := w.status w.tick
  let data := (List.range size).map (byte_at buf)
  (st, target_step { w with mem := if st = ERROR_OK then write_bytes w.mem addr data else w.mem }
    (Event.write_buffer addr size data st))

/-- The call `target_resume(target, 1, 0, 0, 0)`. -/
def target_resume {σ : Type} (w : World σ) : Int × World σ :=
  let st := w.status w.tick
  (st, target_step w (Event.resume w.arm st))

/-- The call `target_call_event_callbacks(target, TARGET_EVENT_HALTED)`. -/
def target_call_event_callbacks {σ : Type} (w : World σ) : Int × World σ :=
  let st := w.status w.tick
  (st, target_step w (Event.halted_event w.arm st))

/-! ## Host layer -/

/-- Record a host call and install the host state it leaves. -/
def host_step {σ : Type} (w : World σ) (call : HostCall) (h : σ) : World σ :=
  { w with host := h, trace := w.trace ++ [Event.host call] }

/-- The assignment `armv4_5->semihosting_errno = e`. -/
def set_errno {σ : Type} (w : World σ) (e : Int) : World σ :=
  { w with arm := { w.arm with semihosting_errno := e } }

/-- The C function `strcmp` on two NUL-terminated buffers (bytes past the end of a list
read as NUL): zero exactly when the two C strings are equal. -/
def strcmp : List Nat → List Nat → Int
  | [], [] => 0
  | [], b :: _ => if b = 0 then 0 else -1
  | a :: _, [] => if a = 0 then 0 else 1
  | a :: as, b :: bs =>
    if a ≠ b then (a : Int) - (b : Int) else if a = 0 then 0 else strcmp as bs

/-- The string literal `":tt"` with its terminator. -/
def tt_name : List Nat := [58, 116, 116, 0]

/-- The string literal `"foobar"` with its terminator. -/
def foobar : List Nat := [102, 111, 111, 98, 97, 114, 0]

/-! ## `do_semihosting` -/

/-- How control leaves the `switch (r0)` of `do_semihosting`: by a `return retval;`
inside a case, or by reaching the code after the switch with `result` set. -/
inductive Outcome (σ : Type) where
  | ret (retval : Int) (w : World σ)
  | brk (result : Int) (w : World σ)

/-- The idiom `retval = target_read_...(...); if (retval != ERROR_OK) return retval;`
followed by the rest `k` of the case, which receives the buffer read and the world after
the call. -/
def try_read {σ : Type} (rd : Int × List Nat × World σ)
    (k : List Nat → World σ → Outcome σ) : Outcome σ :=
  if rd.1 ≠ ERROR_OK then Outcome.ret rd.1 rd.2.2 else k rd.2.1 rd.2.2

/-- The idiom `retval = target_write_...(...); if (retval != ERROR_OK) return retval;`
followed by the rest `k` of the case. -/
def try_write {σ : Type} (wr : Int × World σ) (k : World σ → Outcome σ) : Outcome σ :=
  if wr.1 ≠ ERROR_OK then Outcome.ret wr.1 wr.2 else k wr.2

/-- The open flags computed from the mode word `m` (SYS_OPEN, the two `if` chains). -/
def open_mode (m : Nat) : Nat :=
  let mode :=
    if m &&& 0x2 ≠ 0 then O_RDWR
    else if m &&& 0xc ≠ 0 then O_WRONLY
    else O_RDONLY
  if m ≥ 8 then mode ||| (O_CREAT ||| O_APPEND)
  else if m ≥ 4 then mode ||| (O_CREAT ||| O_TRUNC)
  else mode

/-- Case 0x01, SYS_OPEN.  The buffer `fn` is modelled by its initialised part: the `l`
bytes read followed by the terminator stored at index `l`. -/
def sys_open {σ : Type} (H : Host σ) (w : World σ) (r1 : Nat) : Outcome σ :=
  try_read (target_read_memory w r1 4 3) fun params w1 =>
    let a := target_buffer_get_u32 w1 params 0
    let m := target_buffer_get_u32 w1 params 4
    let l := target_buffer_get_u32 w1 params 8
    if l ≤ 255 ∧ m ≤ 11 then
      try_read (target_read_memory w1 a 1 l) fun fn w2 =>
        let fn := fn ++ [0]
        let mode := open_mode m
        if strcmp fn tt_name = 0 then
          if mode &&& 3 = 0 then
            let r := H.dup w2.host 0
            Outcome.brk r.1 (set_errno (host_step w2 (HostCall.dup 0) r.2) (H.errno r.2))
          else
            let r := H.dup w2.host 1
            Outcome.brk r.1 (set_errno (host_step w2 (HostCall.dup 1) r.2) (H.errno r.2))
        else
          let r := H.open_ w2.host fn mode
          Outcome.brk r.1
            (set_errno (host_step w2 (HostCall.open_ fn mode) r.2) (H.errno r.2))
    else Outcome.brk (-1) (set_errno w1 EINVAL)

/-- Case 0x02, SYS_CLOSE. -/
def sys_close {σ : Type} (H : Host σ) (w : World σ) (r1 : Nat) : Outcome σ :=
  try_read (target_read_memory w r1 4 1) fun params w1 =>
    let fd := to_int (target_buffer_get_u32 w1 params 0)
    let r := H.close w1.host fd
    Outcome.brk r.1 (set_errno (host_step w1 (HostCall.close fd) r.2) (H.errno r.2))

/-- Case 0x03, SYS_WRITEC. -/
def sys_writec {σ : Type} (H : Host σ) (w : World σ) (r1 : Nat) : Outcome σ :=
  try_read (target_read_memory w r1 1 1) fun buf w1 =>
    let c := byte_at buf 0
    Outcome.brk 0 (host_step w1 (HostCall.putchar c) (H.putchar w1.host c))

/-- Case 0x04, SYS_WRITE0: the `do { ... } while (1)` loop, one iteration per unit of
fuel.  Every iteration reads one byte at `r1`; the source passes `r1` itself to
`target_read_memory` and never changes it. -/
def sys_write0 {σ : Type} (H : Host σ) : Nat → World σ → Nat → Option (Outcome σ)
  | 0, _, _ => none
  | fuel + 1, w, r1 =>
    let rd := target_read_memory w r1 1 1
    if rd.1 ≠ ERROR_OK then some (Outcome.ret rd.1 rd.2.2)
    else
      let w1 := rd.2.2
      let c := byte_at rd.2.1 0
      if c = 0 then some (Outcome.brk 0 w1)
      else sys_write0 H fuel (host_step w1 (HostCall.putchar c) (H.putchar w1.host c)) r1

/-- SYS_WRITE once `buf = malloc(l)` has succeeded: the `else` block of the allocation
test. -/
def sys_write_buf {σ : Type} (H : Host σ) (w2 : World σ) (fd : Int) (a l : Nat) :
    Outcome σ :=
  let rb := target_read_buffer w2 a l
  if rb.1 ≠ ERROR_OK then
    Outcome.ret rb.1 (host_step rb.2.2 HostCall.free (H.free rb.2.2.host))
  else
    let buf := rb.2.1
    let w3 := rb.2.2
    let r := H.write w3.host fd buf
    let result := to_int r.1
    let w4 := set_errno (host_step w3 (HostCall.write fd buf) r.2) (H.errno r.2)
    let result := if result ≥ 0 then to_int ((l : Int) - result) else result
    Outcome.brk result (host_step w4 HostCall.free (H.free w4.host))

/-- Case 0x05, SYS_WRITE. -/
def sys_write {σ : Type} (H : Host σ) (w : World σ) (r1 : Nat) : Outcome σ :=
  try_read (target_read_memory w r1 4 3) fun params w1 =>
    let fd := to_int (target_buffer_get_u32 w1 params 0)
    let a := target_buffer_get_u32 w1 params 4
    let l := target_buffer_get_u32 w1 params 8
    let al := H.malloc w1.host l
    let w2 := host_step w1 (HostCall.malloc l) al.2
    if al.1 = false then Outcome.brk (-1) (set_errno w2 ENOMEM)
    else sys_write_buf H w2 fd a l

/-- SYS_READ once `buf = malloc(l)` has succeeded: the `else` block of the allocation
test.  The host read returns its result and the contents of `buf`. -/
def sys_read_buf {σ : Type} (H : Host σ) (w2 : World σ) (fd : Int) (a l : Nat) :
    Outcome σ :=
  let r := H.read w2.host fd l
  let result := to_int r.1
  let buf := r.2.1
  let w3 := set_errno (host_step w2 (HostCall.read fd l) r.2.2) (H.errno r.2.2)
  if result > 0 then
    let wr := target_write_buffer w3 a result.toNat buf
    if wr.1 ≠ ERROR_OK then
      Outcome.ret wr.1 (host_step wr.2 HostCall.free (H.free wr.2.host))
    else
      let w4 := wr.2
      Outcome.brk (to_int ((l : Int) - result))
        (host_step w4 HostCall.free (H.free w4.host))
  else Outcome.brk result (host_step w3 HostCall.free (H.free w3.host))

/-- Case 0x06, SYS_READ. -/
def sys_read {σ : Type} (H : Host σ) (w : World σ) (r1 : Nat) : Outcome σ :=
  try_read (target_read_memory w r1 4 3) fun params w1 =>
    let fd := to_int (target_buffer_get_u32 w1 params 0)
    let a := target_buffer_get_u32 w1 params 4
    let l := target_buffer_get_u32 w1 params 8
    let al := H.malloc w1.host l
    let w2 := host_step w1 (HostCall.malloc l) al.2
    if al.1 = false then Outcome.brk (-1) (set_errno w2 ENOMEM)
    else sys_read_buf H w2 fd a l

/-- Case 0x07, SYS_READC. -/
def sys_readc {σ : Type} (H : Host σ) (w : World σ) : Outcome σ :=
  let r := H.getchar w.host
  Outcome.brk r.1 (host_step w HostCall.getchar r.2)

/-- Case 0x08, SYS_ISERROR. -/
def sys_iserror {σ : Type} (w : World σ) (r1 : Nat) : Outcome σ :=
  try_read (target_read_memory w r1 4 1) fun params w1 =>
    Outcome.brk (if target_buffer_get_u32 w1 params 0 ≠ 0 then 1 else 0) w1

/-- Case 0x09, SYS_ISTTY. -/
def sys_istty {σ : Type} (H : Host σ) (w : World σ) (r1 : Nat) : Outcome σ :=
  try_read (target_read_memory w r1 4 1) fun params w1 =>
    let fd := to_int (target_buffer_get_u32 w1 params 0)
    let r := H.isatty w1.host fd
    Outcome.brk r.1 (host_step w1 (HostCall.isatty fd) r.2)

/-- Case 0x0a, SYS_SEEK.  `pos` is an `off_t`, `result` an `int`; the comparison
`result == pos` is made on their integer values. -/
def sys_seek {σ : Type} (H : Host σ) (w : World σ) (r1 : Nat) : Outcome σ :=
  try_read (target_read_memory w r1 4 2) fun params w1 =>
    let fd := to_int (target_buffer_get_u32 w1 params 0)
    let pos : Int := target_buffer_get_u32 w1 params 4
    let r := H.lseek w1.host fd pos SEEK_SET
    let result := to_int r.1
    let w2 := set_errno (host_step w1 (HostCall.lseek fd pos SEEK_SET) r.2) (H.errno r.2)
    Outcome.brk (if result = pos then 0 else result) w2

/-- Case 0x0c, SYS_FLEN. -/
def sys_flen {σ : Type} (H : Host σ) (w : World σ) (r1 : Nat) : Outcome σ :=
  try_read (target_read_memory w r1 4 1) fun params w1 =>
    let fd := to_int (target_buffer_get_u32 w1 params 0)
    let rc := H.lseek w1.host fd 0 SEEK_CUR
    let cur := rc.1
    let w2 := host_step w1 (HostCall.lseek fd 0 SEEK_CUR) rc.2
    if cur = -1 then Outcome.brk (-1) (set_errno w2 (H.errno rc.2))
    else
      let re := H.lseek w2.host fd 0 SEEK_END
      let result := to_int re.1
      let w3 := set_errno (host_step w2 (HostCall.lseek fd 0 SEEK_END) re.2) (H.errno re.2)
      let rs := H.lseek w3.host fd cur SEEK_SET
      let w4 := host_step w3 (HostCall.lseek fd cur SEEK_SET) rs.2
      if rs.1 = -1 then Outcome.brk (-1) (set_errno w4 (H.errno rs.2))
      else Outcome.brk result w4

/-- Case 0x0e, SYS_REMOVE. -/
def sys_remove {σ : Type} (H : Host σ) (w : World σ) (r1 : Nat) : Outcome σ :=
  try_read (target_read_memory w r1 4 2) fun params w1 =>
    let a := target_buffer_get_u32 w1 params 0
    let l := target_buffer_get_u32 w1 params 4
    if l ≤ 255 then
      try_read (target_read_memory w1 a 1 l) fun fn w2 =>
        let fn := fn ++ [0]
        let r := H.remove w2.host fn
        Outcome.brk r.1 (set_errno (host_step w2 (HostCall.remove fn) r.2) (H.errno r.2))
    else Outcome.brk (-1) (set_errno w1 EINVAL)

/-- Case 0x0f, SYS_RENAME. -/
def sys_rename {σ : Type} (H : Host σ) (w : World σ) (r1 : Nat) : Outcome σ :=
  try_read (target_read_memory w r1 4 4) fun params w1 =>
    let a1 := target_buffer_get_u32 w1 params 0
    let l1 := target_buffer_get_u32 w1 params 4
    let a2 := target_buffer_get_u32 w1 params 8
    let l2 := target_buffer_get_u32 w1 params 12
    if l1 ≤ 255 ∧ l2 ≤ 255 then
      try_read (target_read_memory w1 a1 1 l1) fun fn1 w2 =>
        try_read (target_read_memory w2 a2 1 l2) fun fn2 w3 =>
          let fn1 := fn1 ++ [0]
          let fn2 := fn2 ++ [0]
          let r := H.rename w3.host fn1 fn2
          Outcome.brk r.1
            (set_errno (host_step w3 (HostCall.rename fn1 fn2) r.2) (H.errno r.2))
    else Outcome.brk (-1) (set_errno w1 EINVAL)

/-- Case 0x11, SYS_TIME. -/
def sys_time {σ : Type} (H : Host σ) (w : World σ) : Outcome σ :=
  let r := H.time w.host
  Outcome.brk (to_int r.1) (host_step w HostCall.time r.2)

/-- Case 0x13, SYS_ERRNO. -/
def sys_errno {σ : Type} (w : World σ) : Outcome σ :=
  Outcome.brk w.arm.semihosting_errno w

/-- Case 0x15, SYS_GET_CMDLINE. -/
def sys_get_cmdline {σ : Type} (w : World σ) (r1 : Nat) : Outcome σ :=
  try_read (target_read_memory w r1 4 2) fun params w1 =>
    let a := target_buffer_get_u32 w1 params 0
    let l := target_buffer_get_u32 w1 params 4
    let s := foobar.length
    if l < s then Outcome.brk (-1) w1
    else try_write (target_write_buffer w1 a s foobar) fun w2 => Outcome.brk 0 w2

/-- Case 0x16, SYS_HEAPINFO. -/
def sys_heapinfo {σ : Type} (w : World σ) (r1 : Nat) : Outcome σ :=
  try_read (target_read_memory w r1 4 1) fun params w1 =>
    let a := target_buffer_get_u32 w1 params 0
    let params := List.replicate (4 * 4) 0
    try_write (target_write_memory w1 a 4 4 params) fun w2 => Outcome.brk 0 w2

/-- Case 0x18, angel_SWIreason_ReportException. -/
def report_exception {σ : Type} (H : Host σ) (w : World σ) (r1 : Nat) : Outcome σ :=
  let msg := if r1 = 0x20026 then StderrMsg.application_exited else StderrMsg.exception r1
  let w1 := host_step w (HostCall.fprintf_stderr msg) (H.fprintf_stderr w.host msg)
  let cb := target_call_event_callbacks w1
  Outcome.ret cb.1 cb.2

/-- The `default:` label, shared with the listed unsupported codes. -/
def unsupported_call {σ : Type} (H : Host σ) (w : World σ) (r0 : Nat) : Outcome σ :=
  let msg := StderrMsg.unsupported_call r0
  let w1 := host_step w (HostCall.fprintf_stderr msg) (H.fprintf_stderr w.host msg)
  Outcome.brk (-1) (set_errno w1 ENOTSUP)

/-- The `switch (r0)` of `do_semihosting`. -/
def do_semihosting_switch {σ : Type} (H : Host σ) (fuel : Nat) (w : World σ)
    (r0 r1 : Nat) : Option (Outcome σ) :=
  if r0 = 0x01 then some (sys_open H w r1)
  else if r0 = 0x02 then some (sys_close H w r1)
  else if r0 = 0x03 then some (sys_writec H w r1)
  else if r0 = 0x04 then sys_write0 H fuel w r1
  else if r0 = 0x05 then some (sys_write H w r1)
  else if r0 = 0x06 then some (sys_read H w r1)
  else if r0 = 0x07 then some (sys_readc H w)
  else if r0 = 0x08 then some (sys_iserror w r1)
  else if r0 = 0x09 then some (sys_istty H w r1)
  else if r0 = 0x0a then some (sys_seek H w r1)
  else if r0 = 0x0c then some (sys_flen H w r1)
  else if r0 = 0x0e then some (sys_remove H w r1)
  else if r0 = 0x0f then some (sys_rename H w r1)
  else if r0 = 0x11 then some (sys_time H w)
  else if r0 = 0x13 then some (sys_errno w)
  else if r0 = 0x15 then some (sys_get_cmdline w r1)
  else if r0 = 0x16 then some (sys_heapinfo w r1)
  else if r0 = 0x18 then some (report_exception H w r1)
  else some (unsupported_call H w r0)

/-- The code after the switch: write back r0, r15 and CPSR, mark them dirty, set
`core_mode` (and `core_state` when bit 5 of the SPSR is set), then `target_resume`. -/
def commit {σ : Type} (w : World σ) (lr spsr : Nat) (result : Int) : Int × World σ :=
  let core : Arm :=
    { w.arm with
      r0 := { value := buf_set_u32 result, dirty := true },
      pc := { value := buf_set_u32 lr, dirty := true },
      cpsr := { value := buf_set_u32 spsr, dirty := true },
      core_mode := spsr &&& 0x1f,
      core_state :=
        if spsr &&& 0x20 ≠ 0 then armv4_5_state.ARMV4_5_STATE_THUMB else w.arm.core_state }
  target_resume { w with arm := core }

/-- The function `do_semihosting`: its return value and the world it leaves, or `none`
when the SYS_WRITE0 loop is still running after `fuel` iterations. -/
def do_semihosting {σ : Type} (H : Host σ) (fuel : Nat) (w : World σ) :
    Option (Int × World σ) :=
  let r0 := buf_get_u32 w.arm.r0.value
  let r1 := buf_get_u32 w.arm.r1.value
  let lr := buf_get_u32 w.arm.lr_svc.value
  let spsr := buf_get_u32 w.arm.spsr.value
  match do_semihosting_switch H fuel w r0 r1 with
  | none => none
  | some (Outcome.ret retval w1) => some (retval, w1)
  | some (Outcome.brk result w1) => some (commit w1 lr spsr result)

/-! ## `arm_semihosting` -/

/-- The function `arm_semihosting`: its return value, the value stored through `retval`
(`none` when nothing is stored) and the world it leaves. -/
def arm_semihosting {σ : Type} (H : Host σ) (fuel : Nat) (w : World σ) :
    Option (Int × Option Int × World σ) :=
  if w.arm.is_semihosting = false ∨ w.arm.core_mode ≠ ARMV4_5_MODE_SVC
      ∨ buf_get_u32 w.arm.pc.value ≠ 0x08 then
    some (0, none, w)
  else
    let lr := buf_get_u32 w.arm.lr_svc.value
    let spsr := buf_get_u32 w.arm.spsr.value
    if spsr &&& (1 <<< 5) ≠ 0 then
      let rd := target_read_memory w ((lr + 2 ^ 32 - 2) % 2 ^ 32) 2 1
      if rd.1 ≠ ERROR_OK then some (1, some rd.1, rd.2.2)
      else if target_buffer_get_u16 rd.2.2 rd.2.1 0 ≠ 0xDFAB then some (0, some rd.1, rd.2.2)
      else (do_semihosting H fuel rd.2.2).map (fun p => (1, some p.1, p.2))
    else
      let rd := target_read_memory w ((lr + 2 ^ 32 - 4) % 2 ^ 32) 4 1
      if rd.1 ≠ ERROR_OK then some (1, some rd.1, rd.2.2)
      else if target_buffer_get_u32 rd.2.2 rd.2.1 0 ≠ 0xEF123456 then
        some (0, some rd.1, rd.2.2)
      else (do_semihosting H fuel rd.2.2).map (fun p => (1, some p.1, p.2))

/-! ## Observations on outcomes and logs -/

/-- The world an outcome carries. -/
def Outcome.world {σ : Type} : Outcome σ → World σ
  | Outcome.ret _ w => w
  | Outcome.brk _ w => w

/-- Whether a logged call is a `target_resume`. -/
def Event.is_resume : Event → Bool
  | Event.resume _ _ => true
  | _ => false

/-- The status of a logged target memory read or write; `none` for every other call. -/
def Event.access_status : Event → Option Int
  | Event.read_memory _ _ _ s => some s
  | Event.read_buffer _ _ s => some s
  | Event.write_memory _ _ _ _ s => some s
  | Event.write_buffer _ _ _ s => some s
  | _ => none

/-- What every case of the switch guarantees about the outcome `out` it reaches from the
world `w` under request code `r0`: the core record changes at most in
`semihosting_errno`; the target's endianness and status oracle are kept; the log grows by
calls none of which is a resume; an outcome that reaches the code after the switch has
seen only successful memory accesses; an early return outside case 0x18 returns the
non-OK status of an access it made, every failed access has the returned status, and the
error slot is the one at entry unless the failed access is the write-back of SYS_READ. -/
def handler_frame {σ : Type} (w : World σ) (r0 : Nat) (out : Outcome σ) : Prop :=
  out.world.arm = { w.arm with semihosting_errno := out.world.arm.semihosting_errno } ∧
  out.world.little_endian = w.little_endian ∧
  out.world.status = w.status ∧
  ∃ new, out.world.trace = w.trace ++ new ∧
    (∀ ev ∈ new, ev.is_resume = false) ∧
    match out with
    | Outcome.brk _ _ => ∀ ev ∈ new, ∀ e, ev.access_status = some e → e = ERROR_OK
    | Outcome.ret rv w1 =>
      (r0 = 0x18 ∨ (rv ≠ ERROR_OK ∧ ∃ ev ∈ new, ev.access_status = some rv)) ∧
      ∀ ev ∈ new, ∀ e, ev.access_status = some e → e ≠ ERROR_OK →
        e = rv ∧ (w1.arm.semihosting_errno = w.arm.semihosting_errno
          ∨ (r0 = 0x06 ∧ ∃ a n d, ev = Event.write_buffer a n d e))

/-! ## Notions used in the statements -/

/-- The C string held by a buffer: its bytes up to the first NUL. -/
def c_string (buf : List Nat) : List Nat := buf.takeWhile (fun b => b ≠ 0)

/-- The open flags as the claim words them: read-write when bit 1 of the mode word is
set, otherwise write-only from 4 up, otherwise read-only; create+append from 8 up,
create+truncate from 4 to 7, nothing more up to 3. -/
def claimed_open_flags (m : Nat) : Nat :=
  (if m.testBit 1 then O_RDWR else if m ≥ 4 then O_WRONLY else O_RDONLY) |||
  (if m ≥ 8 then O_CREAT ||| O_APPEND else if 4 ≤ m ∧ m ≤ 7 then O_CREAT ||| O_TRUNC else 0)

/-- What a rejected request leaves behind (used for open, remove and rename): the call
returns the status of `target_resume`; the log grows by exactly the read of `count`
parameter words at `r1` followed by the resume, which is handed the committed core; r0
holds -1 and is dirty; the error slot holds `EINVAL`; host state and target memory are
untouched. -/
def rejected_with_einval {σ : Type} (H : Host σ) (fuel : Nat) (w : World σ) (count : Nat) :
    Prop :=
  ∃ w1 : World σ,
    do_semihosting H fuel w = some (w.status (w.tick + 1), w1) ∧
    w1.trace = w.trace ++
      [Event.read_memory (buf_get_u32 w.arm.r1.value) 4 count ERROR_OK,
       Event.resume w1.arm (w.status (w.tick + 1))] ∧
    w1.arm.r0 = { value := 0xFFFFFFFF, dirty := true } ∧
    w1.arm.semihosting_errno = EINVAL ∧
    w1.host = w.host ∧
    w1.mem = w.mem

/-! ## Concrete hosts and worlds -/

/-- A host whose state is its errno: every call returns `r` and leaves `e` in errno,
`malloc` succeeds and `read` fills the buffer with the letter `A`. -/
def const_host (r e : Int) : Host Int where
  errno := fun s => s
  malloc := fun s _ => (true, s)
  free := fun s => s
  open_ := fun _ _ _ => (r, e)
  dup := fun _ _ => (r, e)
  close := fun _ _ => (r, e)
  putchar := fun s _ => s
  getchar := fun _ => (r, e)
  write := fun _ _ _ => (r, e)
  read := fun _ _ len => (r, List.replicate len 0x41, e)
  isatty := fun _ _ => (r, e)
  lseek := fun _ _ _ _ => (r, e)
  remove := fun _ _ => (r, e)
  rename := fun _ _ _ => (r, e)
  time := fun _ => (r, e)
  fprintf_stderr := fun s _ => s

/-- A core halted at the SVC vector with semihosting enabled: request code `r0`,
argument `r1`, saved return address `lr` and saved flags `spsr`. -/
def demo_core (r0 r1 lr spsr : Nat) : Arm :=
  { r0 := { value := r0, dirty := false },
    r1 := { value := r1, dirty := false },
    pc := { value := 0x08, dirty := false },
    cpsr := { value := 0xd3, dirty := false },
    lr_svc := { value := lr, dirty := false },
    spsr := { value := spsr, dirty := false },
    core_mode := ARMV4_5_MODE_SVC,
    core_state := armv4_5_state.ARMV4_5_STATE_ARM,
    is_semihosting := true,
    semihosting_errno := 0 }

/-- A little-endian target around `demo_core`, with the given memory and status oracle,
a host state with errno 0 and an empty log. -/
def demo_world (core : Arm) (mem : Nat → Nat) (status : Nat → Int) : World Int :=
  { arm := core, little_endian := true, mem := mem, status := status, tick := 0,
    host := 0, trace := [] }

/-- Memory holding the ARM instruction `svc 0x123456` at address 0x8000, zero elsewhere. -/
def mem_svc_arm : Nat → Nat :=
  write_bytes (fun _ => 0) 0x8000 [0x56, 0x34, 0x12, 0xEF]

/-- Memory holding at 0x1000 the parameter block of an open request: name address
0x2000, mode word 0, length word 256. -/
def mem_open_long : Nat → Nat :=
  write_bytes (fun _ => 0) 0x1000 [0, 0x20, 0, 0, 0, 0, 0, 0, 0, 1, 0, 0]

/-- Memory holding at 0x1000 the parameter block of a read request: handle 3, buffer
address 0x3000, length 4. -/
def mem_read_req : Nat → Nat :=
  write_bytes (fun _ => 0) 0x1000 [3, 0, 0, 0, 0, 0x30, 0, 0, 4, 0, 0, 0]

/-- A status oracle under which only the target-layer call number `n` fails, with
status -4 (`ERROR_FAIL`). -/
def fail_at (n : Nat) : Nat → Int := fun t => if t = n then -4 else 0

/-- Memory holding at 0x1000 the parameter block of a write request: handle 1, buffer
address 0x3000, length 4. -/
def mem_write_req : Nat → Nat :=
  write_bytes (fun _ => 0) 0x1000 [1, 0, 0, 0, 0, 0x30, 0, 0, 4, 0, 0, 0]

/-- Memory holding at 0x1000 the parameter block of a write request: handle 1, buffer
address 0x3000, length 0x80000000. -/
def mem_write_big : Nat → Nat :=
  write_bytes (fun _ => 0) 0x1000 [1, 0, 0, 0, 0, 0x30, 0, 0, 0, 0, 0, 0x80]

/-- Memory holding the string "A" at 0x2000: the byte 0x41 followed by a zero byte. -/
def mem_string_a : Nat → Nat :=
  write_bytes (fun _ => 0) 0x2000 [0x41, 0]

/-- Memory holding at 0x1000 the parameter block of a seek request: handle 3, position
16. -/
def mem_seek_req : Nat → Nat :=
  write_bytes (fun _ => 0) 0x1000 [3, 0, 0, 0, 16, 0, 0, 0]

/-- Memory holding at 0x1000 the parameter block of a seek request: handle 3, position
0x80000000. -/
def mem_seek_big : Nat → Nat :=
  write_bytes (fun _ => 0) 0x1000 [3, 0, 0, 0, 0, 0, 0, 0x80]

/-- Memory holding at 0x1000 the parameter block of a seek request: handle 3, position
0xFFFFFFFF. -/
def mem_seek_ones : Nat → Nat :=
  write_bytes (fun _ => 0) 0x1000 [3, 0, 0, 0, 0xFF, 0xFF, 0xFF, 0xFF]

/-- Memory holding at 0x1000 the parameter block of an open request (name address 0x2000,
mode word 4, length 7) and at 0x2000 the name "out.txt". -/
def mem_open_out : Nat → Nat :=
  write_bytes
    (write_bytes (fun _ => 0) 0x1000 [0, 0x20, 0, 0, 4, 0, 0, 0, 7, 0, 0, 0])
    0x2000 [111, 117, 116, 46, 116, 120, 116]

/-- Memory holding at 0x1000 the parameter block of an open request (name address 0x2000,
mode word 4, length 3) and at 0x2000 the name ":tt". -/
def mem_open_tt : Nat → Nat :=
  write_bytes
    (write_bytes (fun _ => 0) 0x1000 [0, 0x20, 0, 0, 4, 0, 0, 0, 3, 0, 0, 0])
    0x2000 [58, 116, 116]

/-- The request codes that have a case of their own in the switch. -/
def catalog : List Nat :=
  [0x01, 0x02, 0x03, 0x04, 0x05, 0x06, 0x07, 0x08, 0x09, 0x0a, 0x0c, 0x0e, 0x0f, 0x11, 0x13,
   0x15, 0x16, 0x18]

/-- A core like `demo_core` whose recorded instruction-set state is `st`. -/
def demo_core_in (st : armv4_5_state) (r0 r1 lr spsr : Nat) : Arm :=
  { demo_core r0 r1 lr spsr with core_state := st }

/-- A host with one file behind every handle: the state holds the position and length of
the file and errno.  `lseek` follows POSIX (a negative resulting position fails with
EINVAL and leaves the position alone); the other calls return -1 and set EBADF, `malloc`
succeeds. -/
structure HostFile where
  position : Nat
  length : Nat
  err : Int
deriving DecidableEq, Repr

/-- The `lseek` of `file_host`. -/
def file_lseek (s : HostFile) (offset : Int) (whence : Nat) : Int × HostFile :=
  let target : Int :=
    if whence = SEEK_SET then offset
    else if whence = SEEK_CUR then s.position + offset
    else s.length + offset
  if target < 0 ∨ SEEK_END < whence then (-1, { s with err := 22 })
  else (target, { s with position := target.toNat })

/-- The host over `HostFile`. -/
def file_host : Host HostFile where
  errno := fun s => s.err
  malloc := fun s _ => (true, s)
  free := fun s => s
  open_ := fun s _ _ => (-1, { s with err := 9 })
  dup := fun s _ => (-1, { s with err := 9 })
  close := fun s _ => (-1, { s with err := 9 })
  putchar := fun s _ => s
  getchar := fun s => (-1, s)
  write := fun s _ _ => (-1, { s with err := 9 })
  read := fun s _ _ => (-1, [], { s with err := 9 })
  isatty := fun s _ => (0, { s with err := 25 })
  lseek := fun s _ offset whence => file_lseek s offset whence
  remove := fun s _ => (-1, { s with err := 9 })
  rename := fun s _ _ => (-1, { s with err := 9 })
  time := fun s => (0, s)
  fprintf_stderr := fun s _ => s

/-- A little-endian target around `core` whose host is `file_host` in state `file`. -/
def file_world (core : Arm) (mem : Nat → Nat) (file : HostFile) : World HostFile :=
  { arm := core, little_endian := true, mem := mem, status := fun _ => 0, tick := 0,
    host := file, trace := [] }

/-- How many elements of size `size` a `target_read_memory` call of request `r0` may store
into the local buffer it is given: 4 words into `params[16]`; 255 bytes into a file-name
buffer `fn[256]`, which leaves room for the terminator stored after them; one byte into
the `unsigned char c` of cases 0x03 and 0x04. -/
def local_capacity (r0 size : Nat) : Nat :=
  if size = 4 then 4
  else if size = 1 then (if r0 = 0x03 ∨ r0 = 0x04 then 1 else 255)
  else 0

/-- Whether a logged call of request `r0` stays within the local buffer it uses: a
`target_read_memory` stores at most `local_capacity` elements, a `target_write_memory`
(case 0x16, from `params`) takes at most 16 bytes, and a file name handed to the host,
terminator included, is at most 256 bytes long. -/
def Event.fits_local_buffer (r0 : Nat) : Event → Prop
  | Event.read_memory _ size count _ => count ≤ local_capacity r0 size
  | Event.write_memory _ size count _ _ => size * count ≤ 16
  | Event.host (HostCall.open_ fn _) => fn.length ≤ 256
  | Event.host (HostCall.remove fn) => fn.length ≤ 256
  | Event.host (HostCall.rename fn1 fn2) => fn1.length ≤ 256 ∧ fn2.length ≤ 256
  | _ => True

/-- Every call the outcome `out` logged on top of the world `w` stays within its local
buffer. -/
def local_log {σ : Type} (r0 : Nat) (w : World σ) (out : Outcome σ) : Prop :=
  ∃ new, out.world.trace = w.trace ++ new ∧ ∀ ev ∈ new, ev.fits_local_buffer r0

/-- Case 0x01, SYS_OPEN, after its parameter-block read has succeeded: the code that
follows the `retval` test, given the contents of `params`. -/
def sys_open_params {σ : Type} (H : Host σ) (params : List Nat) (w1 : World σ) :
    Outcome σ :=
  let a := target_buffer_get_u32 w1 params 0
  let m := target_buffer_get_u32 w1 params 4
  let l := target_buffer_get_u32 w1 params 8
  if l ≤ 255 ∧ m ≤ 11 then
    try_read (target_read_memory w1 a 1 l) fun fn w2 =>
      let fn := fn ++ [0]
      let mode := open_mode m
      if strcmp fn tt_name = 0 then
        if mode &&& 3 = 0 then
          let r := H.dup w2.host 0
          Outcome.brk r.1 (set_errno (host_step w2 (HostCall.dup 0) r.2) (H.errno r.2))
        else
          let r := H.dup w2.host 1
          Outcome.brk r.1 (set_errno (host_step w2 (HostCall.dup 1) r.2) (H.errno r.2))
      else
        let r := H.open_ w2.host fn mode
        Outcome.brk r.1
          (set_errno (host_step w2 (HostCall.open_ fn mode) r.2) (H.errno r.2))
  else Outcome.brk (-1) (set_errno w1 EINVAL)

/-- Case 0x02, SYS_CLOSE, after its parameter-block read has succeeded: the code that
follows the `retval` test, given the contents of `params`. -/
def sys_close_params {σ : Type} (H : Host σ) (params : List Nat) (w1 : World σ) :
    Outcome σ :=
  let fd := to_int (target_buffer_get_u32 w1 params 0)
  let r := H.close w1.host fd
  Outcome.brk r.1 (set_errno (host_step w1 (HostCall.close fd) r.2) (H.errno r.2))

/-- Case 0x05, SYS_WRITE, after its parameter-block read has succeeded: the code that
follows the `retval` test, given the contents of `params`. -/
def sys_write_params {σ : Type} (H : Host σ) (params : List Nat) (w1 : World σ) :
    Outcome σ :=
  let fd := to_int (target_buffer_get_u32 w1 params 0)
  let a := target_buffer_get_u32 w1 params 4
  let l := target_buffer_get_u32 w1 params 8
  let al := H.malloc w1.host l
  let w2 := host_step w1 (HostCall.malloc l) al.2
  if al.1 = false then Outcome.brk (-1) (set_errno w2 ENOMEM)
  else sys_write_buf H w2 fd a l

/-- Case 0x06, SYS_READ, after its parameter-block read has succeeded: the code that
follows the `retval` test, given the contents of `params`. -/
def sys_read_params {σ : Type} (H : Host σ) (params : List Nat) (w1 : World σ) :
    Outcome σ :=
  let fd := to_int (target_buffer_get_u32 w1 params 0)
  let a := target_buffer_get_u32 w1 params 4
  let l := target_buffer_get_u32 w1 params 8
  let al := H.malloc w1.host l
  let w2 := host_step w1 (HostCall.malloc l) al.2
  if al.1 = false then Outcome.brk (-1) (set_errno w2 ENOMEM)
  else sys_read_buf H w2 fd a l

/-- Case 0x08, SYS_ISERROR, after its parameter-block read has succeeded: the code that
follows the `retval` test, given the contents of `params`. -/
def sys_iserror_params {σ : Type} (params : List Nat) (w1 : World σ) :
    Outcome σ :=
  Outcome.brk (if target_buffer_get_u32 w1 params 0 ≠ 0 then 1 else 0) w1

/-- Case 0x09, SYS_ISTTY, after its parameter-block read has succeeded: the code that
follows the `retval` test, given the contents of `params`. -/
def sys_istty_params {σ : Type} (H : Host σ) (params : List Nat) (w1 : World σ) :
    Outcome σ :=
  let fd := to_int (target_buffer_get_u32 w1 params 0)
  let r := H.isatty w1.host fd
  Outcome.brk r.1 (host_step w1 (HostCall.isatty fd) r.2)

/-- Case 0x0a, SYS_SEEK, after its parameter-block read has succeeded: the code that
follows the `retval` test, given the contents of `params`. -/
def sys_seek_params {σ : Type} (H : Host σ) (params : List Nat) (w1 : World σ) :
    Outcome σ :=
  let fd := to_int (target_buffer_get_u32 w1 params 0)
  let pos : Int := target_buffer_get_u32 w1 params 4
  let r := H.lseek w1.host fd pos SEEK_SET
  let result := to_int r.1
  let w2 := set_errno (host_step w1 (HostCall.lseek fd pos SEEK_SET) r.2) (H.errno r.2)
  Outcome.brk (if result = pos then 0 else result) w2

/-- Case 0x0c, SYS_FLEN, after its parameter-block read has succeeded: the code that
follows the `retval` test, given the contents of `params`. -/
def sys_flen_params {σ : Type} (H : Host σ) (params : List Nat) (w1 : World σ) :
    Outcome σ :=
  let fd := to_int (target_buffer_get_u32 w1 params 0)
  let rc := H.lseek w1.host fd 0 SEEK_CUR
  let cur := rc.1
  let w2 := host_step w1 (HostCall.lseek fd 0 SEEK_CUR) rc.2
  if cur = -1 then Outcome.brk (-1) (set_errno w2 (H.errno rc.2))
  else
    let re := H.lseek w2.host fd 0 SEEK_END
    let result := to_int re.1
    let w3 := set_errno (host_step w2 (HostCall.lseek fd 0 SEEK_END) re.2) (H.errno re.2)
    let rs := H.lseek w3.host fd cur SEEK_SET
    let w4 := host_step w3 (HostCall.lseek fd cur SEEK_SET) rs.2
    if rs.1 = -1 then Outcome.brk (-1) (set_errno w4 (H.errno rs.2))
    else Outcome.brk result w4

/-- Case 0x0e, SYS_REMOVE, after its parameter-block read has succeeded: the code that
follows the `retval` test, given the contents of `params`. -/
def sys_remove_params {σ : Type} (H : Host σ) (params : List Nat) (w1 : World σ) :
    Outcome σ :=
  let a := target_buffer_get_u32 w1 params 0
  let l := target_buffer_get_u32 w1 params 4
  if l ≤ 255 then
    try_read (target_read_memory w1 a 1 l) fun fn w2 =>
      let fn := fn ++ [0]
      let r := H.remove w2.host fn
      Outcome.brk r.1 (set_errno (host_step w2 (HostCall.remove fn) r.2) (H.errno r.2))
  else Outcome.brk (-1) (set_errno w1 EINVAL)

/-- Case 0x0f, SYS_RENAME, after its parameter-block read has succeeded: the code that
follows the `retval` test, given the contents of `params`. -/
def sys_rename_params {σ : Type} (H : Host σ) (params : List Nat) (w1 : World σ) :
    Outcome σ :=
  let a1 := target_buffer_get_u32 w1 params 0
  let l1 := target_buffer_get_u32 w1 params 4
  let a2 := target_buffer_get_u32 w1 params 8
  let l2 := target_buffer_get_u32 w1 params 12
  if l1 ≤ 255 ∧ l2 ≤ 255 then
    try_read (target_read_memory w1 a1 1 l1) fun fn1 w2 =>
      try_read (target_read_memory w2 a2 1 l2) fun fn2 w3 =>
        let fn1 := fn1 ++ [0]
        let fn2 := fn2 ++ [0]
        let r := H.rename w3.host fn1 fn2
        Outcome.brk r.1
          (set_errno (host_step w3 (HostCall.rename fn1 fn2) r.2) (H.errno r.2))
  else Outcome.brk (-1) (set_errno w1 EINVAL)

/-- Case 0x15, SYS_GET_CMDLINE, after its parameter-block read has succeeded: the code that
follows the `retval` test, given the contents of `params`. -/
def sys_get_cmdline_params {σ : Type} (params : List Nat) (w1 : World σ) :
    Outcome σ :=
  let a := target_buffer_get_u32 w1 params 0
  let l := target_buffer_get_u32 w1 params 4
  let s := foobar.length
  if l < s then Outcome.brk (-1) w1
  else try_write (target_write_buffer w1 a s foobar) fun w2 => Outcome.brk 0 w2

/-- Case 0x16, SYS_HEAPINFO, after its parameter-block read has succeeded: the code that
follows the `retval` test, given the contents of `params`. -/
def sys_heapinfo_params {σ : Type} (params : List Nat) (w1 : World σ) :
    Outcome σ :=
  let a := target_buffer_get_u32 w1 params 0
  let params := List.replicate (4 * 4) 0
  try_write (target_write_memory w1 a 4 4 params) fun w2 => Outcome.brk 0 w2

/-- The cases that begin with a read of their parameter block into `params`: the number
of words the read stores and the code that follows it.  The other cases do not use
`params`. -/
def params_case {σ : Type} (H : Host σ) (r0 : Nat) :
    Option (Nat × (List Nat → World σ → Outcome σ)) :=
  if r0 = 0x01 then some (3, sys_open_params H)
  else if r0 = 0x02 then some (1, sys_close_params H)
  else if r0 = 0x05 then some (3, sys_write_params H)
  else if r0 = 0x06 then some (3, sys_read_params H)
  else if r0 = 0x08 then some (1, sys_iserror_params)
  else if r0 = 0x09 then some (1, sys_istty_params H)
  else if r0 = 0x0a then some (2, sys_seek_params H)
  else if r0 = 0x0c then some (1, sys_flen_params H)
  else if r0 = 0x0e then some (2, sys_remove_params H)
  else if r0 = 0x0f then some (4, sys_rename_params H)
  else if r0 = 0x15 then some (2, sys_get_cmdline_params)
  else if r0 = 0x16 then some (1, sys_heapinfo_params)
  else none

/-! ## Theorems -/

/-! ### Building blocks of the frame -/

theorem handler_frame_after {σ : Type} (w w1 : World σ) (r0 : Nat) (out : Outcome σ)
    (ev : Event) (ha : w1.arm = w.arm) (hl : w1.little_endian = w.little_endian)
    (hs : w1.status = w.status) (ht : w1.trace = w.trace ++ [ev])
    (hr : ev.is_resume = false) (he : ∀ e, ev.access_status = some e → e = ERROR_OK)
    (h : handler_frame w1 r0 out) : handler_frame w r0 out := by
  obtain ⟨h1, h2, h3, new, h4, h5, h6⟩ := h
  refine ⟨by rw [h1, ha], by rw [h2, hl], by rw [h3, hs], ev :: new, ?_, ?_, ?_⟩
  · rw [h4, ht, List.append_assoc, List.singleton_append]
  · intro x hx
    rcases List.mem_cons.mp hx with rfl | hx
    · exact hr
    · exact h5 x hx
  · cases out with
    | brk v w2 =>
      intro x hx e hxe
      rcases List.mem_cons.mp hx with rfl | hx
      · exact he e hxe
      · exact h6 x hx e hxe
    | ret rv w2 =>
      obtain ⟨h7, h8⟩ := h6
      refine ⟨?_, ?_⟩
      · rcases h7 with h7 | ⟨h7, x, hx, hxe⟩
        · exact Or.inl h7
        · exact Or.inr ⟨h7, x, List.mem_cons_of_mem _ hx, hxe⟩
      · intro x hx e hxe hne
        rcases List.mem_cons.mp hx with rfl | hx
        · exact absurd (he e hxe) hne
        · have := h8 x hx e hxe hne
          rw [ha] at this
          exact this

theorem host_step_frame {σ : Type} (w : World σ) (c : HostCall) (h : σ) (r0 : Nat)
    (out : Outcome σ) (hf : handler_frame (host_step w c h) r0 out) :
    handler_frame w r0 out :=
  handler_frame_after w (host_step w c h) r0 out (Event.host c) rfl rfl rfl rfl rfl
    (fun _ he => nomatch he) hf

theorem brk_frame_of {σ : Type} (w w1 : World σ) (r0 : Nat) (v : Int) (new : List Event)
    (ha : w1.arm = { w.arm with semihosting_errno := w1.arm.semihosting_errno })
    (hl : w1.little_endian = w.little_endian) (hs : w1.status = w.status)
    (ht : w1.trace = w.trace ++ new)
    (hn : ∀ ev ∈ new, ev.is_resume = false ∧ ev.access_status = none) :
    handler_frame w r0 (Outcome.brk v w1) :=
  ⟨ha, hl, hs, new, ht, fun ev hev => (hn ev hev).1,
    fun ev hev e he => by rw [(hn ev hev).2] at he; exact nomatch he⟩

theorem ret_frame_of {σ : Type} (w w1 : World σ) (r0 : Nat) (rv : Int) (new : List Event)
    (ha : w1.arm = w.arm) (hl : w1.little_endian = w.little_endian)
    (hs : w1.status = w.status) (ht : w1.trace = w.trace ++ new) (hne : rv ≠ ERROR_OK)
    (hn : ∀ ev ∈ new, ev.is_resume = false
      ∧ (ev.access_status = none ∨ ev.access_status = some rv))
    (hex : ∃ ev ∈ new, ev.access_status = some rv) :
    handler_frame w r0 (Outcome.ret rv w1) := by
  refine ⟨?_, hl, hs, new, ht, fun ev hev => (hn ev hev).1, Or.inr ⟨hne, hex⟩, ?_⟩
  · show w1.arm = { w.arm with semihosting_errno := w1.arm.semihosting_errno }
    rw [ha]
  · intro ev hev e he _
    rcases (hn ev hev).2 with h | h
    · rw [h] at he; exact nomatch he
    · rw [h] at he
      refine ⟨(Option.some.inj he).symm, Or.inl ?_⟩
      show w1.arm.semihosting_errno = _
      rw [ha]

theorem try_read_frame {σ : Type} (w : World σ) (addr size count r0 : Nat)
    (k : List Nat → World σ → Outcome σ)
    (hk : w.status w.tick = ERROR_OK →
      handler_frame (target_read_memory w addr size count).2.2 r0
        (k (read_bytes w.mem addr (size * count)) (target_read_memory w addr size count).2.2)) :
    handler_frame w r0 (try_read (target_read_memory w addr size count) k) := by
  unfold try_read
  by_cases hst : w.status w.tick = ERROR_OK
  · have h1 : ¬ ((target_read_memory w addr size count).1 ≠ ERROR_OK) := not_not.mpr hst
    rw [if_neg h1]
    have h2 : (target_read_memory w addr size count).2.1
        = read_bytes w.mem addr (size * count) := if_pos hst
    rw [h2]
    exact handler_frame_after w (target_read_memory w addr size count).2.2 r0 _
      (Event.read_memory addr size count (w.status w.tick)) rfl rfl rfl rfl rfl
      (fun e he => by rw [← Option.some.inj he]; exact hst) (hk hst)
  · have h1 : (target_read_memory w addr size count).1 ≠ ERROR_OK := hst
    rw [if_pos h1]
    exact ret_frame_of w (target_read_memory w addr size count).2.2 r0 _
      [Event.read_memory addr size count (w.status w.tick)] rfl rfl rfl rfl hst
      (fun ev hev => by rw [List.mem_singleton.mp hev]; exact ⟨rfl, Or.inr rfl⟩)
      ⟨_, List.mem_singleton.mpr rfl, rfl⟩

theorem try_write_frame {σ : Type} (w : World σ) (wr : Int × World σ) (ev : Event) (r0 : Nat)
    (k : World σ → Outcome σ)
    (ha : wr.2.arm = w.arm) (hl : wr.2.little_endian = w.little_endian)
    (hs : wr.2.status = w.status) (ht : wr.2.trace = w.trace ++ [ev])
    (hr : ev.is_resume = false) (he : ev.access_status = some wr.1)
    (hk : wr.1 = ERROR_OK → handler_frame wr.2 r0 (k wr.2)) :
    handler_frame w r0 (try_write wr k) := by
  unfold try_write
  by_cases hst : wr.1 = ERROR_OK
  · rw [if_neg (not_not.mpr hst)]
    exact handler_frame_after w wr.2 r0 _ ev ha hl hs ht hr
      (fun e h => by rw [he] at h; rw [← Option.some.inj h]; exact hst) (hk hst)
  · rw [if_pos hst]
    exact ret_frame_of w wr.2 r0 _ [ev] ha hl hs ht hst
      (fun x hx => by rw [List.mem_singleton.mp hx]; exact ⟨hr, Or.inr he⟩)
      ⟨_, List.mem_singleton.mpr rfl, he⟩

theorem brk_host_errno_frame {σ : Type} (w : World σ) (r0 : Nat) (v e : Int) (c : HostCall)
    (h : σ) : handler_frame w r0 (Outcome.brk v (set_errno (host_step w c h) e)) :=
  brk_frame_of w _ r0 v [Event.host c] rfl rfl rfl rfl
    (fun ev hev => by rw [List.mem_singleton.mp hev]; exact ⟨rfl, rfl⟩)

theorem brk_host_frame {σ : Type} (w : World σ) (r0 : Nat) (v : Int) (c : HostCall)
    (h : σ) : handler_frame w r0 (Outcome.brk v (host_step w c h)) :=
  brk_frame_of w _ r0 v [Event.host c] rfl rfl rfl rfl
    (fun ev hev => by rw [List.mem_singleton.mp hev]; exact ⟨rfl, rfl⟩)

theorem brk_errno_frame {σ : Type} (w : World σ) (r0 : Nat) (v e : Int) :
    handler_frame w r0 (Outcome.brk v (set_errno w e)) :=
  brk_frame_of w _ r0 v [] rfl rfl rfl (List.append_nil _).symm
    (fun _ hev => nomatch hev)

theorem brk_self_frame {σ : Type} (w : World σ) (r0 : Nat) (v : Int) :
    handler_frame w r0 (Outcome.brk v w) :=
  brk_frame_of w _ r0 v [] rfl rfl rfl (List.append_nil _).symm
    (fun _ hev => nomatch hev)

theorem ite_frame {σ : Type} (w : World σ) (r0 : Nat) (c : Prop) [Decidable c]
    (a b : Outcome σ) (ha : c → handler_frame w r0 a) (hb : ¬ c → handler_frame w r0 b) :
    handler_frame w r0 (if c then a else b) := by
  by_cases h : c
  · rw [if_pos h]; exact ha h
  · rw [if_neg h]; exact hb h

/-! ### The frame of every case of the switch -/

theorem sys_open_frame {σ : Type} (H : Host σ) (w : World σ) (r1 : Nat) :
    handler_frame w 0x01 (sys_open H w r1) := by
  unfold sys_open
  apply try_read_frame; intro _
  refine ite_frame _ _ _ _ _ (fun _ => ?_) (fun _ => brk_errno_frame _ _ _ _)
  apply try_read_frame; intro _
  refine ite_frame _ _ _ _ _ (fun _ => ?_) (fun _ => brk_host_errno_frame _ _ _ _ _ _)
  exact ite_frame _ _ _ _ _ (fun _ => brk_host_errno_frame _ _ _ _ _ _)
    (fun _ => brk_host_errno_frame _ _ _ _ _ _)

theorem sys_close_frame {σ : Type} (H : Host σ) (w : World σ) (r1 : Nat) :
    handler_frame w 0x02 (sys_close H w r1) := by
  unfold sys_close
  apply try_read_frame; intro _
  exact brk_host_errno_frame _ _ _ _ _ _

theorem sys_writec_frame {σ : Type} (H : Host σ) (w : World σ) (r1 : Nat) :
    handler_frame w 0x03 (sys_writec H w r1) := by
  unfold sys_writec
  apply try_read_frame; intro _
  exact brk_host_frame _ _ _ _ _

theorem sys_write0_frame {σ : Type} (H : Host σ) :
    ∀ (fuel : Nat) (w : World σ) (r1 : Nat) (out : Outcome σ),
      sys_write0 H fuel w r1 = some out → handler_frame w 0x04 out := by
  intro fuel
  induction fuel with
  | zero => intro w r1 out h; exact nomatch h
  | succ n ih =>
    intro w r1 out h
    unfold sys_write0 at h
    by_cases hst : w.status w.tick = ERROR_OK
    · have h1 : ¬ ((target_read_memory w r1 1 1).1 ≠ ERROR_OK) := not_not.mpr hst
      rw [if_neg h1] at h
      refine handler_frame_after w (target_read_memory w r1 1 1).2.2 _ _
        (Event.read_memory r1 1 1 (w.status w.tick)) rfl rfl rfl rfl rfl
        (fun e he => by rw [← Option.some.inj he]; exact hst) ?_
      dsimp only at h
      split_ifs at h with hc
      · rw [Option.some.injEq] at h
        subst h
        exact brk_self_frame _ _ _
      · exact host_step_frame _ _ _ _ _ (ih _ _ _ h)
    · have h1 : (target_read_memory w r1 1 1).1 ≠ ERROR_OK := hst
      rw [if_pos h1, Option.some.injEq] at h
      subst h
      exact ret_frame_of w (target_read_memory w r1 1 1).2.2 _ _
        [Event.read_memory r1 1 1 (w.status w.tick)] rfl rfl rfl rfl hst
        (fun ev hev => by rw [List.mem_singleton.mp hev]; exact ⟨rfl, Or.inr rfl⟩)
        ⟨_, List.mem_singleton.mpr rfl, rfl⟩

theorem sys_write_buf_frame {σ : Type} (H : Host σ) (w : World σ) (fd : Int) (a l : Nat) :
    handler_frame w 0x05 (sys_write_buf H w fd a l) := by
  unfold sys_write_buf
  refine ite_frame _ _ _ _ _ (fun hf => ?_) (fun hs => ?_)
  · exact ret_frame_of _ _ _ _ [Event.read_buffer _ _ _, Event.host HostCall.free]
      rfl rfl rfl (List.append_assoc _ _ _) hf
      (fun ev hev => by
        rcases List.mem_cons.mp hev with rfl | hev
        · exact ⟨rfl, Or.inr rfl⟩
        · rw [List.mem_singleton.mp hev]; exact ⟨rfl, Or.inl rfl⟩)
      ⟨_, List.mem_cons_self _ _, rfl⟩
  · refine handler_frame_after w (target_read_buffer w a l).2.2 _ _
      (Event.read_buffer a l (w.status w.tick)) rfl rfl rfl rfl rfl
      (fun e he => by rw [← Option.some.inj he]; exact not_not.mp hs) ?_
    exact brk_frame_of _ _ _ _ [Event.host _, Event.host HostCall.free]
      rfl rfl rfl (List.append_assoc _ _ _)
      (fun ev hev => by
        rcases List.mem_cons.mp hev with rfl | hev
        · exact ⟨rfl, rfl⟩
        · rw [List.mem_singleton.mp hev]; exact ⟨rfl, rfl⟩)

theorem sys_write_frame {σ : Type} (H : Host σ) (w : World σ) (r1 : Nat) :
    handler_frame w 0x05 (sys_write H w r1) := by
  unfold sys_write
  apply try_read_frame; intro _
  dsimp only
  apply host_step_frame
  exact ite_frame _ _ _ _ _ (fun _ => brk_errno_frame _ _ _ _)
    (fun _ => sys_write_buf_frame _ _ _ _ _)

theorem sys_read_buf_frame {σ : Type} (H : Host σ) (w : World σ) (fd : Int) (a l : Nat) :
    handler_frame w 0x06 (sys_read_buf H w fd a l) := by
  unfold sys_read_buf
  refine ite_frame _ _ _ _ _ (fun _ => ?_) (fun _ => ?_)
  · refine ite_frame _ _ _ _ _ (fun hf => ?_) (fun hs => ?_)
    · have hf2 : w.status w.tick ≠ ERROR_OK := hf
      simp [handler_frame, Outcome.world, host_step, target_write_buffer, target_step,
        set_errno, Event.is_resume, Event.access_status, hf2]
    · have hs2 : w.status w.tick = ERROR_OK := not_not.mp hs
      simp [handler_frame, Outcome.world, host_step, target_write_buffer, target_step,
        set_errno, Event.is_resume, Event.access_status, hs2]
  · exact brk_frame_of _ _ _ _ [Event.host _, Event.host HostCall.free]
      rfl rfl rfl (List.append_assoc _ _ _)
      (fun ev hev => by
        rcases List.mem_cons.mp hev with rfl | hev
        · exact ⟨rfl, rfl⟩
        · rw [List.mem_singleton.mp hev]; exact ⟨rfl, rfl⟩)

theorem sys_read_frame {σ : Type} (H : Host σ) (w : World σ) (r1 : Nat) :
    handler_frame w 0x06 (sys_read H w r1) := by
  unfold sys_read
  apply try_read_frame; intro _
  dsimp only
  apply host_step_frame
  exact ite_frame _ _ _ _ _ (fun _ => brk_errno_frame _ _ _ _)
    (fun _ => sys_read_buf_frame _ _ _ _ _)

theorem sys_readc_frame {σ : Type} (H : Host σ) (w : World σ) :
    handler_frame w 0x07 (sys_readc H w) :=
  brk_host_frame _ _ _ _ _

theorem sys_iserror_frame {σ : Type} (w : World σ) (r1 : Nat) :
    handler_frame w 0x08 (sys_iserror w r1) := by
  unfold sys_iserror
  apply try_read_frame; intro _
  exact brk_self_frame _ _ _

theorem sys_istty_frame {σ : Type} (H : Host σ) (w : World σ) (r1 : Nat) :
    handler_frame w 0x09 (sys_istty H w r1) := by
  unfold sys_istty
  apply try_read_frame; intro _
  exact brk_host_frame _ _ _ _ _

theorem sys_seek_frame {σ : Type} (H : Host σ) (w : World σ) (r1 : Nat) :
    handler_frame w 0x0a (sys_seek H w r1) := by
  unfold sys_seek
  apply try_read_frame; intro _
  exact brk_host_errno_frame _ _ _ _ _ _

theorem sys_flen_frame {σ : Type} (H : Host σ) (w : World σ) (r1 : Nat) :
    handler_frame w 0x0c (sys_flen H w r1) := by
  unfold sys_flen
  apply try_read_frame; intro _
  dsimp only
  refine ite_frame _ _ _ _ _ (fun _ => brk_host_errno_frame _ _ _ _ _ _) (fun _ => ?_)
  apply host_step_frame
  refine ite_frame _ _ _ _ _ (fun _ => ?_) (fun _ => ?_)
  · exact brk_frame_of _ _ _ _ [Event.host _, Event.host _]
      rfl rfl rfl (List.append_assoc _ _ _)
      (fun ev hev => by
        rcases List.mem_cons.mp hev with rfl | hev
        · exact ⟨rfl, rfl⟩
        · rw [List.mem_singleton.mp hev]; exact ⟨rfl, rfl⟩)
  · exact brk_frame_of _ _ _ _ [Event.host _, Event.host _]
      rfl rfl rfl (List.append_assoc _ _ _)
      (fun ev hev => by
        rcases List.mem_cons.mp hev with rfl | hev
        · exact ⟨rfl, rfl⟩
        · rw [List.mem_singleton.mp hev]; exact ⟨rfl, rfl⟩)

theorem sys_remove_frame {σ : Type} (H : Host σ) (w : World σ) (r1 : Nat) :
    handler_frame w 0x0e (sys_remove H w r1) := by
  unfold sys_remove
  apply try_read_frame; intro _
  refine ite_frame _ _ _ _ _ (fun _ => ?_) (fun _ => brk_errno_frame _ _ _ _)
  apply try_read_frame; intro _
  exact brk_host_errno_frame _ _ _ _ _ _

theorem sys_rename_frame {σ : Type} (H : Host σ) (w : World σ) (r1 : Nat) :
    handler_frame w 0x0f (sys_rename H w r1) := by
  unfold sys_rename
  apply try_read_frame; intro _
  refine ite_frame _ _ _ _ _ (fun _ => ?_) (fun _ => brk_errno_frame _ _ _ _)
  apply try_read_frame; intro _
  apply try_read_frame; intro _
  exact brk_host_errno_frame _ _ _ _ _ _

theorem sys_time_frame {σ : Type} (H : Host σ) (w : World σ) :
    handler_frame w 0x11 (sys_time H w) :=
  brk_host_frame _ _ _ _ _

theorem sys_errno_frame {σ : Type} (w : World σ) :
    handler_frame w 0x13 (sys_errno w) :=
  brk_self_frame _ _ _

theorem sys_get_cmdline_frame {σ : Type} (w : World σ) (r1 : Nat) :
    handler_frame w 0x15 (sys_get_cmdline w r1) := by
  unfold sys_get_cmdline
  apply try_read_frame; intro _
  refine ite_frame _ _ _ _ _ (fun _ => brk_self_frame _ _ _) (fun _ => ?_)
  exact try_write_frame _ _ (Event.write_buffer _ _ _ _) _ _ rfl rfl rfl rfl rfl rfl
    (fun _ => brk_self_frame _ _ _)

theorem sys_heapinfo_frame {σ : Type} (w : World σ) (r1 : Nat) :
    handler_frame w 0x16 (sys_heapinfo w r1) := by
  unfold sys_heapinfo
  apply try_read_frame; intro _
  exact try_write_frame _ _ (Event.write_memory _ _ _ _ _) _ _ rfl rfl rfl rfl rfl rfl
    (fun _ => brk_self_frame _ _ _)

theorem report_exception_frame {σ : Type} (H : Host σ) (w : World σ) (r1 : Nat) :
    handler_frame w 0x18 (report_exception H w r1) := by
  unfold report_exception
  refine ⟨rfl, rfl, rfl, [Event.host _, Event.halted_event _ _], List.append_assoc _ _ _,
    ?_, Or.inl rfl, ?_⟩
  · intro ev hev
    rcases List.mem_cons.mp hev with rfl | hev
    · rfl
    · rw [List.mem_singleton.mp hev]; rfl
  · intro ev hev e he
    rcases List.mem_cons.mp hev with rfl | hev
    · exact nomatch he
    · rw [List.mem_singleton.mp hev] at he; exact nomatch he

theorem unsupported_call_frame {σ : Type} (H : Host σ) (w : World σ) (r0 : Nat) :
    handler_frame w r0 (unsupported_call H w r0) :=
  brk_host_errno_frame _ _ _ _ _ _

theorem do_semihosting_switch_frame {σ : Type} (H : Host σ) (fuel : Nat) (w : World σ)
    (r0 r1 : Nat) (out : Outcome σ)
    (h : do_semihosting_switch H fuel w r0 r1 = some out) : handler_frame w r0 out := by
  unfold do_semihosting_switch at h
  by_cases h0x01 : r0 = 0x01
  · rw [if_pos h0x01, Option.some.injEq] at h; subst h; subst h0x01; exact sys_open_frame H w r1
  rw [if_neg h0x01] at h
  by_cases h0x02 : r0 = 0x02
  · rw [if_pos h0x02, Option.some.injEq] at h; subst h; subst h0x02; exact sys_close_frame H w r1
  rw [if_neg h0x02] at h
  by_cases h0x03 : r0 = 0x03
  · rw [if_pos h0x03, Option.some.injEq] at h; subst h; subst h0x03; exact sys_writec_frame H w r1
  rw [if_neg h0x03] at h
  by_cases h0x04 : r0 = 0x04
  · rw [if_pos h0x04] at h; subst h0x04; exact sys_write0_frame H fuel w r1 out h
  rw [if_neg h0x04] at h
  by_cases h0x05 : r0 = 0x05
  · rw [if_pos h0x05, Option.some.injEq] at h; subst h; subst h0x05; exact sys_write_frame H w r1
  rw [if_neg h0x05] at h
  by_cases h0x06 : r0 = 0x06
  · rw [if_pos h0x06, Option.some.injEq] at h; subst h; subst h0x06; exact sys_read_frame H w r1
  rw [if_neg h0x06] at h
  by_cases h0x07 : r0 = 0x07
  · rw [if_pos h0x07, Option.some.injEq] at h; subst h; subst h0x07; exact sys_readc_frame H w
  rw [if_neg h0x07] at h
  by_cases h0x08 : r0 = 0x08
  · rw [if_pos h0x08, Option.some.injEq] at h; subst h; subst h0x08; exact sys_iserror_frame w r1
  rw [if_neg h0x08] at h
  by_cases h0x09 : r0 = 0x09
  · rw [if_pos h0x09, Option.some.injEq] at h; subst h; subst h0x09; exact sys_istty_frame H w r1
  rw [if_neg h0x09] at h
  by_cases h0x0a : r0 = 0x0a
  · rw [if_pos h0x0a, Option.some.injEq] at h; subst h; subst h0x0a; exact sys_seek_frame H w r1
  rw [if_neg h0x0a] at h
  by_cases h0x0c : r0 = 0x0c
  · rw [if_pos h0x0c, Option.some.injEq] at h; subst h; subst h0x0c; exact sys_flen_frame H w r1
  rw [if_neg h0x0c] at h
  by_cases h0x0e : r0 = 0x0e
  · rw [if_pos h0x0e, Option.some.injEq] at h; subst h; subst h0x0e; exact sys_remove_frame H w r1
  rw [if_neg h0x0e] at h
  by_cases h0x0f : r0 = 0x0f
  · rw [if_pos h0x0f, Option.some.injEq] at h; subst h; subst h0x0f; exact sys_rename_frame H w r1
  rw [if_neg h0x0f] at h
  by_cases h0x11 : r0 = 0x11
  · rw [if_pos h0x11, Option.some.injEq] at h; subst h; subst h0x11; exact sys_time_frame H w
  rw [if_neg h0x11] at h
  by_cases h0x13 : r0 = 0x13
  · rw [if_pos h0x13, Option.some.injEq] at h; subst h; subst h0x13; exact sys_errno_frame w
  rw [if_neg h0x13] at h
  by_cases h0x15 : r0 = 0x15
  · rw [if_pos h0x15, Option.some.injEq] at h; subst h; subst h0x15; exact sys_get_cmdline_frame w r1
  rw [if_neg h0x15] at h
  by_cases h0x16 : r0 = 0x16
  · rw [if_pos h0x16, Option.some.injEq] at h; subst h; subst h0x16; exact sys_heapinfo_frame w r1
  rw [if_neg h0x16] at h
  by_cases h0x18 : r0 = 0x18
  · rw [if_pos h0x18, Option.some.injEq] at h; subst h; subst h0x18; exact report_exception_frame H w r1
  rw [if_neg h0x18] at h
  rw [Option.some.injEq] at h; subst h; exact unsupported_call_frame H w r0

theorem do_semihosting_switch_isSome {σ : Type} (H : Host σ) (fuel : Nat) (w : World σ)
    (r0 r1 : Nat) (h4 : r0 ≠ 0x04) :
    ∃ out, do_semihosting_switch H fuel w r0 r1 = some out := by
  unfold do_semihosting_switch
  by_cases h0x01 : r0 = 0x01
  · rw [if_pos h0x01]; exact ⟨_, rfl⟩
  rw [if_neg h0x01]
  by_cases h0x02 : r0 = 0x02
  · rw [if_pos h0x02]; exact ⟨_, rfl⟩
  rw [if_neg h0x02]
  by_cases h0x03 : r0 = 0x03
  · rw [if_pos h0x03]; exact ⟨_, rfl⟩
  rw [if_neg h0x03]
  rw [if_neg h4]
  by_cases h0x05 : r0 = 0x05
  · rw [if_pos h0x05]; exact ⟨_, rfl⟩
  rw [if_neg h0x05]
  by_cases h0x06 : r0 = 0x06
  · rw [if_pos h0x06]; exact ⟨_, rfl⟩
  rw [if_neg h0x06]
  by_cases h0x07 : r0 = 0x07
  · rw [if_pos h0x07]; exact ⟨_, rfl⟩
  rw [if_neg h0x07]
  by_cases h0x08 : r0 = 0x08
  · rw [if_pos h0x08]; exact ⟨_, rfl⟩
  rw [if_neg h0x08]
  by_cases h0x09 : r0 = 0x09
  · rw [if_pos h0x09]; exact ⟨_, rfl⟩
  rw [if_neg h0x09]
  by_cases h0x0a : r0 = 0x0a
  · rw [if_pos h0x0a]; exact ⟨_, rfl⟩
  rw [if_neg h0x0a]
  by_cases h0x0c : r0 = 0x0c
  · rw [if_pos h0x0c]; exact ⟨_, rfl⟩
  rw [if_neg h0x0c]
  by_cases h0x0e : r0 = 0x0e
  · rw [if_pos h0x0e]; exact ⟨_, rfl⟩
  rw [if_neg h0x0e]
  by_cases h0x0f : r0 = 0x0f
  · rw [if_pos h0x0f]; exact ⟨_, rfl⟩
  rw [if_neg h0x0f]
  by_cases h0x11 : r0 = 0x11
  · rw [if_pos h0x11]; exact ⟨_, rfl⟩
  rw [if_neg h0x11]
  by_cases h0x13 : r0 = 0x13
  · rw [if_pos h0x13]; exact ⟨_, rfl⟩
  rw [if_neg h0x13]
  by_cases h0x15 : r0 = 0x15
  · rw [if_pos h0x15]; exact ⟨_, rfl⟩
  rw [if_neg h0x15]
  by_cases h0x16 : r0 = 0x16
  · rw [if_pos h0x16]; exact ⟨_, rfl⟩
  rw [if_neg h0x16]
  by_cases h0x18 : r0 = 0x18
  · rw [if_pos h0x18]; exact ⟨_, rfl⟩
  rw [if_neg h0x18]
  exact ⟨_, rfl⟩

/-! ### Trap matching -/

theorem and_bit5_ne_zero_iff (n : Nat) : (n &&& (1 <<< 5) ≠ 0) ↔ n.testBit 5 = true := by
  have h : (1 <<< 5 : Nat) = 2 ^ 5 := by decide
  rw [h, Nat.and_two_pow]
  cases n.testBit 5 <;> simp

/-- C1: with semihosting enabled, the core in SVC mode, r15 equal to 0x08 and the read of
the trapping instruction succeeding, `arm_semihosting` hands the request to
`do_semihosting` (returning 1 and storing its status through `retval`) exactly when
either bit 5 of the SPSR is clear and the word at `lr - 4` is 0xEF123456, or bit 5 is set
and the half-word at `lr - 2` is 0xDFAB.  In the other two cases it returns 0 and the
world differs from the one at entry only by the logged instruction read: no register,
memory cell, error slot or host state changes and nothing is resumed. -/
theorem arm_semihosting_dispatch_iff {σ : Type} (H : Host σ) (fuel : Nat) (w : World σ)
    (hen : w.arm.is_semihosting = true)
    (hmode : w.arm.core_mode = ARMV4_5_MODE_SVC)
    (hpc : buf_get_u32 w.arm.pc.value = 0x08)
    (hrd : w.status w.tick = ERROR_OK) :
    let lr := buf_get_u32 w.arm.lr_svc.value
    let spsr := buf_get_u32 w.arm.spsr.value
    let a4 := (lr + 2 ^ 32 - 4) % 2 ^ 32
    let a2 := (lr + 2 ^ 32 - 2) % 2 ^ 32
    let w4 : World σ := target_step w (Event.read_memory a4 4 1 ERROR_OK)
    let w2 : World σ := target_step w (Event.read_memory a2 2 1 ERROR_OK)
    let insn32 := target_buffer_get_u32 w (read_bytes w.mem a4 4) 0
    let insn16 := target_buffer_get_u16 w (read_bytes w.mem a2 2) 0
    (spsr.testBit 5 = false ∧ insn32 = 0xEF123456 →
      arm_semihosting H fuel w
        = (do_semihosting H fuel w4).map (fun p => (1, some p.1, p.2))) ∧
    (spsr.testBit 5 = true ∧ insn16 = 0xDFAB →
      arm_semihosting H fuel w
        = (do_semihosting H fuel w2).map (fun p => (1, some p.1, p.2))) ∧
    (spsr.testBit 5 = false ∧ insn32 ≠ 0xEF123456 →
      arm_semihosting H fuel w = some (0, some ERROR_OK, w4)) ∧
    (spsr.testBit 5 = true ∧ insn16 ≠ 0xDFAB →
      arm_semihosting H fuel w = some (0, some ERROR_OK, w2)) := by
  intro lr spsr a4 a2 w4 w2 insn32 insn16
  have hb := and_bit5_ne_zero_iff spsr
  have hpre : ¬ (w.arm.is_semihosting = false ∨ w.arm.core_mode ≠ ARMV4_5_MODE_SVC
      ∨ buf_get_u32 w.arm.pc.value ≠ 0x08) := by
    simp [hen, hmode, hpc]
  have hok : ¬ (ERROR_OK ≠ ERROR_OK) := by simp
  refine ⟨?_, ?_, ?_, ?_⟩
  · rintro ⟨h5, hi⟩
    have hn : ¬ (spsr &&& (1 <<< 5) ≠ 0) := by rw [hb, h5]; simp
    unfold arm_semihosting
    rw [if_neg hpre]
    simp only [target_read_memory, hrd]
    rw [if_neg hn, if_neg hok]
    change (if insn32 ≠ 0xEF123456 then some (0, some ERROR_OK, w4) else _) = _
    rw [if_neg (by simpa using hi)]
  · rintro ⟨h5, hi⟩
    have hn : spsr &&& (1 <<< 5) ≠ 0 := by rw [hb, h5]
    unfold arm_semihosting
    rw [if_neg hpre]
    simp only [target_read_memory, hrd]
    rw [if_pos hn, if_neg hok]
    change (if insn16 ≠ 0xDFAB then some (0, some ERROR_OK, w2) else _) = _
    rw [if_neg (by simpa using hi)]
  · rintro ⟨h5, hi⟩
    have hn : ¬ (spsr &&& (1 <<< 5) ≠ 0) := by rw [hb, h5]; simp
    unfold arm_semihosting
    rw [if_neg hpre]
    simp only [target_read_memory, hrd]
    rw [if_neg hn, if_neg hok]
    change (if insn32 ≠ 0xEF123456 then some (0, some ERROR_OK, w4) else _) = _
    rw [if_pos hi]
  · rintro ⟨h5, hi⟩
    have hn : spsr &&& (1 <<< 5) ≠ 0 := by rw [hb, h5]
    unfold arm_semihosting
    rw [if_neg hpre]
    simp only [target_read_memory, hrd]
    rw [if_pos hn, if_neg hok]
    change (if insn16 ≠ 0xDFAB then some (0, some ERROR_OK, w2) else _) = _
    rw [if_pos hi]

/-- Instance of C1: an ARM-state trap (`svc 0x123456` at 0x8000, saved return address
0x8004) is handed to `do_semihosting`. -/
theorem arm_semihosting_dispatch_iff_witness :
    (buf_get_u32 (demo_core 0x13 0 0x8004 0x10).spsr.value).testBit 5 = false ∧
    arm_semihosting (const_host 0 0) 0
        (demo_world (demo_core 0x13 0 0x8004 0x10) mem_svc_arm (fun _ => 0))
      = (do_semihosting (const_host 0 0) 0
          (target_step (demo_world (demo_core 0x13 0 0x8004 0x10) mem_svc_arm (fun _ => 0))
            (Event.read_memory 0x8000 4 1 ERROR_OK))).map
          (fun p => (1, some p.1, p.2)) :=
  ⟨by decide,
   (arm_semihosting_dispatch_iff (const_host 0 0) 0
      (demo_world (demo_core 0x13 0 0x8004 0x10) mem_svc_arm (fun _ => 0))
      rfl rfl rfl rfl).1 ⟨by decide, by decide⟩⟩

/-! ### Requests rejected for their length or mode -/

theorem try_read_ok {σ : Type} (w : World σ) (addr size count : Nat)
    (k : List Nat → World σ → Outcome σ) (h : w.status w.tick = ERROR_OK) :
    try_read (target_read_memory w addr size count) k
      = k (read_bytes w.mem addr (size * count))
          (target_step w (Event.read_memory addr size count ERROR_OK)) := by
  unfold try_read target_read_memory
  simp only [h, ne_eq, not_true_eq_false, if_false, if_true]

theorem try_read_fail {σ : Type} (w : World σ) (addr size count : Nat)
    (k : List Nat → World σ → Outcome σ) (h : w.status w.tick ≠ ERROR_OK) :
    try_read (target_read_memory w addr size count) k
      = Outcome.ret (w.status w.tick)
          (target_step w (Event.read_memory addr size count (w.status w.tick))) := by
  unfold try_read target_read_memory
  simp only [h, ne_eq, not_false_eq_true, if_true]

theorem target_buffer_get_u32_step {σ : Type} (w : World σ) (ev : Event) (buf : List Nat)
    (off : Nat) :
    target_buffer_get_u32 (target_step w ev) buf off = target_buffer_get_u32 w buf off := rfl

theorem do_semihosting_of_brk {σ : Type} (H : Host σ) (fuel : Nat) (w w1 : World σ)
    (v : Int)
    (h : do_semihosting_switch H fuel w (buf_get_u32 w.arm.r0.value)
      (buf_get_u32 w.arm.r1.value) = some (Outcome.brk v w1)) :
    do_semihosting H fuel w
      = some (commit w1 (buf_get_u32 w.arm.lr_svc.value) (buf_get_u32 w.arm.spsr.value) v) := by
  unfold do_semihosting
  simp only [h]

theorem do_semihosting_of_ret {σ : Type} (H : Host σ) (fuel : Nat) (w w1 : World σ)
    (rv : Int)
    (h : do_semihosting_switch H fuel w (buf_get_u32 w.arm.r0.value)
      (buf_get_u32 w.arm.r1.value) = some (Outcome.ret rv w1)) :
    do_semihosting H fuel w = some (rv, w1) := by
  unfold do_semihosting
  simp only [h]

theorem rejected_of_switch {σ : Type} (H : Host σ) (fuel : Nat) (w : World σ) (count : Nat)
    (h : do_semihosting_switch H fuel w (buf_get_u32 w.arm.r0.value)
      (buf_get_u32 w.arm.r1.value)
      = some (Outcome.brk (-1) (set_errno (target_step w
          (Event.read_memory (buf_get_u32 w.arm.r1.value) 4 count ERROR_OK)) EINVAL))) :
    rejected_with_einval H fuel w count := by
  refine ⟨(commit (set_errno (target_step w
      (Event.read_memory (buf_get_u32 w.arm.r1.value) 4 count ERROR_OK)) EINVAL)
      (buf_get_u32 w.arm.lr_svc.value) (buf_get_u32 w.arm.spsr.value) (-1)).2,
    ?_, ?_, ?_, ?_, ?_, ?_⟩
  · rw [do_semihosting_of_brk H fuel w _ _ h]
    rfl
  · show (w.trace ++ _) ++ _ = _
    rw [List.append_assoc]
    rfl
  · rfl
  · rfl
  · rfl
  · rfl

/-- C2: when the parameter block is read successfully, an open request (0x01) whose
length word exceeds 255 or whose mode word exceeds 11, a remove request (0x0e) whose
length word exceeds 255 and a rename request (0x0f) with either length word above 255 are
rejected: the only target access is the read of the parameter block, no host call is
made, r0 receives -1, the error slot receives EINVAL and the core is resumed by the
commit code. -/
theorem oversized_request_rejected {σ : Type} (H : Host σ) (fuel : Nat) (w : World σ)
    (hrd : w.status w.tick = ERROR_OK) :
    let r0 := buf_get_u32 w.arm.r0.value
    let r1 := buf_get_u32 w.arm.r1.value
    (r0 = 0x01 →
      (target_buffer_get_u32 w (read_bytes w.mem r1 (4 * 3)) 8 > 255
        ∨ target_buffer_get_u32 w (read_bytes w.mem r1 (4 * 3)) 4 > 11) →
      rejected_with_einval H fuel w 3) ∧
    (r0 = 0x0e →
      target_buffer_get_u32 w (read_bytes w.mem r1 (4 * 2)) 4 > 255 →
      rejected_with_einval H fuel w 2) ∧
    (r0 = 0x0f →
      (target_buffer_get_u32 w (read_bytes w.mem r1 (4 * 4)) 4 > 255
        ∨ target_buffer_get_u32 w (read_bytes w.mem r1 (4 * 4)) 12 > 255) →
      rejected_with_einval H fuel w 4) := by
  intro r0 r1
  refine ⟨?_, ?_, ?_⟩
  · intro h0 hbad
    apply rejected_of_switch
    have h0' : buf_get_u32 w.arm.r0.value = 0x01 := h0
    rw [h0']
    show some (sys_open H w r1) = _
    unfold sys_open
    rw [try_read_ok _ _ _ _ _ hrd]
    simp only [target_buffer_get_u32_step]
    rw [if_neg (by omega)]
  · intro h0 hbad
    apply rejected_of_switch
    have h0' : buf_get_u32 w.arm.r0.value = 0x0e := h0
    rw [h0']
    show some (sys_remove H w r1) = _
    unfold sys_remove
    rw [try_read_ok _ _ _ _ _ hrd]
    simp only [target_buffer_get_u32_step]
    rw [if_neg (by omega)]
  · intro h0 hbad
    apply rejected_of_switch
    have h0' : buf_get_u32 w.arm.r0.value = 0x0f := h0
    rw [h0']
    show some (sys_rename H w r1) = _
    unfold sys_rename
    rw [try_read_ok _ _ _ _ _ hrd]
    simp only [target_buffer_get_u32_step]
    rw [if_neg (by omega)]

/-- Instance of C2: an open request with length word 256 is rejected. -/
theorem oversized_request_rejected_witness :
    rejected_with_einval (const_host 0 0) 0
      (demo_world (demo_core 0x01 0x1000 0x8004 0x10) mem_open_long (fun _ => 0)) 3 :=
  (oversized_request_rejected (const_host 0 0) 0
    (demo_world (demo_core 0x01 0x1000 0x8004 0x10) mem_open_long (fun _ => 0)) rfl).1
    rfl (Or.inl (by decide))

/-! ### Failing target accesses -/

theorem sys_write0_returns {σ : Type} (H : Host σ) :
    ∀ (n : Nat) (w : World σ) (r1 fuel : Nat), w.status (w.tick + n) ≠ ERROR_OK → n < fuel →
      ∃ out, sys_write0 H fuel w r1 = some out := by
  intro n
  induction n with
  | zero =>
    intro w r1 fuel hf hlt
    obtain ⟨f, rfl⟩ : ∃ f, fuel = f + 1 := ⟨fuel - 1, by omega⟩
    unfold sys_write0
    have h1 : (target_read_memory w r1 1 1).1 ≠ ERROR_OK := hf
    rw [if_pos h1]
    exact ⟨_, rfl⟩
  | succ n ih =>
    intro w r1 fuel hf hlt
    obtain ⟨f, rfl⟩ : ∃ f, fuel = f + 1 := ⟨fuel - 1, by omega⟩
    unfold sys_write0
    by_cases h1 : (target_read_memory w r1 1 1).1 ≠ ERROR_OK
    · rw [if_pos h1]
      exact ⟨_, rfl⟩
    · rw [if_neg h1]
      dsimp only
      by_cases hc : byte_at (target_read_memory w r1 1 1).2.1 0 = 0
      · rw [if_pos hc]
        exact ⟨_, rfl⟩
      · rw [if_neg hc]
        apply ih
        · show w.status (w.tick + 1 + n) ≠ ERROR_OK
          rw [Nat.add_assoc, Nat.add_comm 1 n]
          exact hf
        · omega

theorem do_semihosting_returns_of_switch {σ : Type} (H : Host σ) (fuel : Nat) (w : World σ)
    (h : ∃ out, do_semihosting_switch H fuel w (buf_get_u32 w.arm.r0.value)
      (buf_get_u32 w.arm.r1.value) = some out) :
    ∃ res, do_semihosting H fuel w = some res := by
  obtain ⟨out, h⟩ := h
  cases out with
  | ret rv w1 => exact ⟨_, do_semihosting_of_ret H fuel w w1 rv h⟩
  | brk v w1 => exact ⟨_, do_semihosting_of_brk H fuel w w1 v h⟩

theorem do_semihosting_returns {σ : Type} (H : Host σ) (fuel : Nat) (w : World σ)
    (h4 : buf_get_u32 w.arm.r0.value ≠ 0x04) :
    ∃ res, do_semihosting H fuel w = some res :=
  do_semihosting_returns_of_switch H fuel w (do_semihosting_switch_isSome H fuel w _ _ h4)

theorem do_semihosting_returns_of_failure {σ : Type} (H : Host σ) (fuel : Nat) (w : World σ)
    (n : Nat) (hf : w.status (w.tick + n) ≠ ERROR_OK) (hlt : n < fuel) :
    ∃ res, do_semihosting H fuel w = some res := by
  by_cases h4 : buf_get_u32 w.arm.r0.value = 0x04
  · apply do_semihosting_returns_of_switch
    rw [h4]
    exact sys_write0_returns H n w _ fuel hf hlt
  · exact do_semihosting_returns H fuel w h4

theorem commit_trace {σ : Type} (w : World σ) (lr spsr : Nat) (v : Int) :
    (commit w lr spsr v).2.trace
      = w.trace ++ [Event.resume (commit w lr spsr v).2.arm (w.status w.tick)] := rfl

theorem commit_status {σ : Type} (w : World σ) (lr spsr : Nat) (v : Int) :
    (commit w lr spsr v).1 = w.status w.tick := rfl

/-- C3 (amended): a call of `do_semihosting` in which a target memory read or write
fails returns (always when the request is not SYS_WRITE0, and for SYS_WRITE0 as soon as
the fuel exceeds the index of a failing access); it returns the failing status itself,
requests no resume and leaves every field of the core record but the error slot as it
was; the error slot is the one at entry unless the failing access is the write-back of
the bytes of a read request (0x06), which comes after the slot was set from the host
read. -/
theorem access_failure_propagates {σ : Type} (H : Host σ) (w : World σ) :
    (buf_get_u32 w.arm.r0.value ≠ 0x04 → ∀ fuel, ∃ res, do_semihosting H fuel w = some res) ∧
    (∀ n, w.status (w.tick + n) ≠ ERROR_OK → ∀ fuel, n < fuel →
      ∃ res, do_semihosting H fuel w = some res) ∧
    ∀ fuel rv w1, do_semihosting H fuel w = some (rv, w1) →
      ∀ new, w1.trace = w.trace ++ new →
        ∀ ev ∈ new, ∀ e, ev.access_status = some e → e ≠ ERROR_OK →
          rv = e ∧
          (∀ x ∈ new, x.is_resume = false) ∧
          w1.arm = { w.arm with semihosting_errno := w1.arm.semihosting_errno } ∧
          (w1.arm.semihosting_errno = w.arm.semihosting_errno
            ∨ (buf_get_u32 w.arm.r0.value = 0x06 ∧ ∃ a n d, ev = Event.write_buffer a n d e)) := by
  refine ⟨fun h4 fuel => do_semihosting_returns H fuel w h4,
    fun n hf fuel hlt => do_semihosting_returns_of_failure H fuel w n hf hlt, ?_⟩
  intro fuel rv w1 hdo new hnew ev hev e he hne
  cases hsw : do_semihosting_switch H fuel w (buf_get_u32 w.arm.r0.value)
      (buf_get_u32 w.arm.r1.value) with
  | none =>
    unfold do_semihosting at hdo
    simp only [hsw] at hdo
    exact nomatch hdo
  | some out =>
    have hfr := do_semihosting_switch_frame H fuel w _ _ out hsw
    cases out with
    | ret rv2 w2 =>
      rw [do_semihosting_of_ret H fuel w w2 rv2 hsw] at hdo
      obtain ⟨rfl, rfl⟩ := Prod.mk.inj (Option.some.inj hdo)
      obtain ⟨ha, _, _, new2, ht, hr, _, hall⟩ := hfr
      have hnn : new2 = new := List.append_cancel_left (ht.symm.trans hnew)
      subst hnn
      obtain ⟨h1, h2⟩ := hall ev hev e he hne
      exact ⟨h1.symm, hr, ha, h2⟩
    | brk v w2 =>
      rw [do_semihosting_of_brk H fuel w w2 v hsw] at hdo
      have hw1 : (commit w2 (buf_get_u32 w.arm.lr_svc.value) (buf_get_u32 w.arm.spsr.value)
          v).2 = w1 := congrArg Prod.snd (Option.some.inj hdo)
      obtain ⟨_, _, _, new2, ht, _, hall⟩ := hfr
      have ht' : w2.trace = w.trace ++ new2 := ht
      have hall' : ∀ ev ∈ new2, ∀ (e : Int), ev.access_status = some e → e = ERROR_OK := hall
      have ht2 : w1.trace = w.trace ++ (new2 ++ [Event.resume w1.arm (w2.status w2.tick)]) := by
        rw [← hw1, commit_trace, ht', List.append_assoc]
      have hnn := List.append_cancel_left (ht2.symm.trans hnew)
      subst hnn
      rcases List.mem_append.mp hev with hev | hev
      · exact absurd (hall' ev hev e he) hne
      · rw [List.mem_singleton.mp hev] at he
        exact nomatch he

/-- Instance of C3: a read request whose parameter read fails with status -4 returns -4
and leaves the core record as it was. -/
theorem access_failure_propagates_witness :
    ∃ w1, do_semihosting (const_host 4 5) 0
        (demo_world (demo_core 0x06 0x1000 0x8004 0x10) mem_read_req (fail_at 0))
        = some (-4, w1) ∧
      (∀ x ∈ [Event.read_memory 0x1000 4 3 (-4)], x.is_resume = false) ∧
      w1.arm = demo_core 0x06 0x1000 0x8004 0x10 :=
  ⟨_, rfl,
   ((access_failure_propagates (const_host 4 5)
      (demo_world (demo_core 0x06 0x1000 0x8004 0x10) mem_read_req (fail_at 0))).2.2
      0 (-4) _ rfl [Event.read_memory 0x1000 4 3 (-4)] rfl
      (Event.read_memory 0x1000 4 3 (-4)) (List.mem_singleton.mpr rfl) (-4) rfl
      (by decide)).2.1,
   ((access_failure_propagates (const_host 4 5)
      (demo_world (demo_core 0x06 0x1000 0x8004 0x10) mem_read_req (fail_at 0))).2.2
      0 (-4) _ rfl [Event.read_memory 0x1000 4 3 (-4)] rfl
      (Event.read_memory 0x1000 4 3 (-4)) (List.mem_singleton.mpr rfl) (-4) rfl
      (by decide)).2.2.1⟩

/-- C3 (counterexample): a read request whose parameter read succeeds, whose host read
returns 4 bytes and leaves errno 5, and whose write-back to the target fails with status
-4.  The call returns -4 without resuming, but the error slot, 0 at entry, is 5
afterwards. -/
theorem access_failure_slot_changed :
    (demo_world (demo_core 0x06 0x1000 0x8004 0x10) mem_read_req
      (fail_at 1)).arm.semihosting_errno = 0 ∧
    (do_semihosting (const_host 4 5) 0
      (demo_world (demo_core 0x06 0x1000 0x8004 0x10) mem_read_req (fail_at 1))).map
        (fun p => (p.1, p.2.arm.semihosting_errno, p.2.trace))
      = some (-4, 5,
          [Event.read_memory 0x1000 4 3 0,
           Event.host (HostCall.malloc 4),
           Event.host (HostCall.read 3 4),
           Event.write_buffer 0x3000 4 [0x41, 0x41, 0x41, 0x41] (-4),
           Event.host HostCall.free]) := by
  decide

/-! ### Commit and resume -/

theorem buf_set_get_u32 (x : Nat) : buf_set_u32 (buf_get_u32 x : Nat) = buf_get_u32 x := by
  unfold buf_set_u32 to_u32 buf_get_u32
  have h : ((x % 2 ^ 32 : Nat) : Int) % 2 ^ 32 = ((x % 2 ^ 32 : Nat) : Int) := by
    apply Int.emod_eq_of_lt
    · exact Int.natCast_nonneg _
    · have := Nat.mod_lt x (show 0 < 2 ^ 32 by norm_num)
      exact_mod_cast this
  rw [h]
  exact Int.toNat_natCast _

/-- C4: every request other than SYS_WRITE0 returns, and whenever `do_semihosting`
returns from a request other than 0x18 with all its target memory accesses successful,
the switch was left with a result `v` and afterwards r0 holds `v`, r15 holds the saved
return address, CPSR holds the saved flags, all three dirty, `core_mode` is
`spsr & 0x1f`, the calls logged end with the single resume, which is handed the core
record with these writes, and the value returned is the status of that resume. -/
theorem commit_after_request {σ : Type} (H : Host σ) (w : World σ) :
    (buf_get_u32 w.arm.r0.value ≠ 0x04 → ∀ fuel, ∃ res, do_semihosting H fuel w = some res) ∧
    ∀ fuel rv w1, do_semihosting H fuel w = some (rv, w1) →
      buf_get_u32 w.arm.r0.value ≠ 0x18 →
      ∀ new, w1.trace = w.trace ++ new →
        (∀ ev ∈ new, ∀ e, ev.access_status = some e → e = ERROR_OK) →
        ∃ v w2 pre,
          do_semihosting_switch H fuel w (buf_get_u32 w.arm.r0.value)
            (buf_get_u32 w.arm.r1.value) = some (Outcome.brk v w2) ∧
          w1.arm.r0 = { value := to_u32 v, dirty := true } ∧
          w1.arm.pc = { value := buf_get_u32 w.arm.lr_svc.value, dirty := true } ∧
          w1.arm.cpsr = { value := buf_get_u32 w.arm.spsr.value, dirty := true } ∧
          w1.arm.core_mode = buf_get_u32 w.arm.spsr.value &&& 0x1f ∧
          new = pre ++ [Event.resume w1.arm rv] ∧
          (∀ ev ∈ pre, ev.is_resume = false) := by
  refine ⟨fun h4 fuel => do_semihosting_returns H fuel w h4, ?_⟩
  intro fuel rv w1 hdo h18 new hnew hok
  cases hsw : do_semihosting_switch H fuel w (buf_get_u32 w.arm.r0.value)
      (buf_get_u32 w.arm.r1.value) with
  | none =>
    unfold do_semihosting at hdo
    simp only [hsw] at hdo
    exact nomatch hdo
  | some out =>
    have hfr := do_semihosting_switch_frame H fuel w _ _ out hsw
    cases out with
    | ret rv2 w2 =>
      rw [do_semihosting_of_ret H fuel w w2 rv2 hsw] at hdo
      obtain ⟨rfl, rfl⟩ := Prod.mk.inj (Option.some.inj hdo)
      obtain ⟨_, _, _, new2, ht, _, hex, _⟩ := hfr
      have hnn : new2 = new := List.append_cancel_left (ht.symm.trans hnew)
      subst hnn
      rcases hex with h | ⟨hne, ev, hev, he⟩
      · exact absurd h h18
      · exact absurd (hok ev hev _ he) hne
    | brk v w2 =>
      rw [do_semihosting_of_brk H fuel w w2 v hsw] at hdo
      have hw1 : (commit w2 (buf_get_u32 w.arm.lr_svc.value) (buf_get_u32 w.arm.spsr.value)
          v).2 = w1 := congrArg Prod.snd (Option.some.inj hdo)
      have hrv : w2.status w2.tick = rv := congrArg Prod.fst (Option.some.inj hdo)
      obtain ⟨_, _, _, new2, ht, hr, _⟩ := hfr
      have ht' : w2.trace = w.trace ++ new2 := ht
      have ht2 : w1.trace = w.trace ++ (new2 ++ [Event.resume w1.arm rv]) := by
        rw [← hrv, ← hw1, commit_trace, ht', List.append_assoc]
      have hnn := List.append_cancel_left (ht2.symm.trans hnew)
      refine ⟨v, w2, new2, rfl, ?_, ?_, ?_, ?_, hnn.symm, hr⟩
      · rw [← hw1]; rfl
      · rw [← hw1]
        show ({ value := buf_set_u32 _, dirty := true } : Reg) = _
        rw [buf_set_get_u32]
      · rw [← hw1]
        show ({ value := buf_set_u32 _, dirty := true } : Reg) = _
        rw [buf_set_get_u32]
      · rw [← hw1]; rfl

/-- Instance of C4: an errno request (0x13) with saved return address 0x8004 and saved
flags 0x10. -/
theorem commit_after_request_witness :
    ∃ w1 v w2,
      do_semihosting (const_host 0 0) 0
        (demo_world (demo_core 0x13 0 0x8004 0x10) mem_svc_arm (fun _ => 0)) = some (0, w1) ∧
      do_semihosting_switch (const_host 0 0) 0
        (demo_world (demo_core 0x13 0 0x8004 0x10) mem_svc_arm (fun _ => 0)) 0x13 0
        = some (Outcome.brk v w2) ∧
      w1.arm.r0 = { value := to_u32 v, dirty := true } ∧
      w1.arm.pc = { value := 0x8004, dirty := true } ∧
      w1.arm.cpsr = { value := 0x10, dirty := true } ∧
      w1.arm.core_mode = 0x10 :=
  have h := (commit_after_request (const_host 0 0)
    (demo_world (demo_core 0x13 0 0x8004 0x10) mem_svc_arm (fun _ => 0))).2 0 0 _ rfl
    (by decide) [Event.resume _ 0] rfl
    (fun ev hev e he => by rw [List.mem_singleton.mp hev] at he; exact nomatch he)
  match h with
  | ⟨v, w2, _, h1, h2, h3, h4, h5, _, _⟩ => ⟨_, v, w2, rfl, h1, h2, h3, h4, h5⟩

/-! ### Machine arithmetic -/

theorem to_int_of_range (x : Int) (h1 : -2 ^ 31 ≤ x) (h2 : x < 2 ^ 31) : to_int x = x := by
  unfold to_int
  omega

theorem to_u32_to_int (x : Int) : to_u32 (to_int x) = to_u32 x := by
  unfold to_u32 to_int
  congr 1
  omega

theorem to_u32_of_range (x : Int) (h1 : 0 ≤ x) (h2 : x < 2 ^ 32) : (to_u32 x : Int) = x := by
  unfold to_u32
  omega

theorem byte_at_read_bytes_lt (mem : Nat → Nat) (addr n i : Nat) :
    byte_at (read_bytes mem addr n) i < 256 := by
  unfold byte_at read_bytes
  rw [List.getD_eq_getElem?_getD]
  by_cases h : i < n
  · simp [h]
    omega
  · have hlen : (List.map (fun i => mem ((addr + i) % 2 ^ 32) % 256) (List.range n)).length ≤ i := by
      simp; omega
    rw [List.getElem?_eq_none hlen]
    decide

theorem target_buffer_get_u32_lt {σ : Type} (w : World σ) (mem : Nat → Nat) (addr n off : Nat) :
    target_buffer_get_u32 w (read_bytes mem addr n) off < 2 ^ 32 := by
  unfold target_buffer_get_u32
  have h0 := byte_at_read_bytes_lt mem addr n off
  have h1 := byte_at_read_bytes_lt mem addr n (off + 1)
  have h2 := byte_at_read_bytes_lt mem addr n (off + 2)
  have h3 := byte_at_read_bytes_lt mem addr n (off + 3)
  split_ifs <;> omega

/-! ### SYS_READ and SYS_WRITE -/

/-- C5 (the code at the failing input): a read request for 4 bytes on a host whose read
returns 0 (end of file).  The parameter word `len` is 4, the call completes with resume
status 0, nothing is written to the target, and r0 holds 0 where `len - 0 = 4` is
expected. -/
theorem read_at_eof_reports_zero :
    target_buffer_get_u32
      (demo_world (demo_core 0x06 0x1000 0x8004 0x10) mem_read_req (fun _ => 0))
      (read_bytes mem_read_req 0x1000 (4 * 3)) 8 = 4 ∧
    (do_semihosting (const_host 0 0) 0
      (demo_world (demo_core 0x06 0x1000 0x8004 0x10) mem_read_req (fun _ => 0))).map
        (fun p => (p.1, p.2.arm.r0.value,
          p.2.trace.filter (fun ev => decide (ev.access_status ≠ none))))
      = some (0, 0, [Event.read_memory 0x1000 4 3 0]) := by
  decide

theorem write_request_effect {σ : Type} (H : Host σ) (fuel : Nat) (w : World σ)
    (hr0 : buf_get_u32 w.arm.r0.value = 0x05)
    (hrd : w.status w.tick = ERROR_OK)
    (hal : (H.malloc w.host (target_buffer_get_u32 w
      (read_bytes w.mem (buf_get_u32 w.arm.r1.value) (4 * 3)) 8)).1 = true)
    (hrb : w.status (w.tick + 1) = ERROR_OK) :
    let r1 := buf_get_u32 w.arm.r1.value
    let params := read_bytes w.mem r1 (4 * 3)
    let fd := to_int (target_buffer_get_u32 w params 0)
    let a := target_buffer_get_u32 w params 4
    let l := target_buffer_get_u32 w params 8
    let data := read_bytes w.mem a l
    let wr := H.write (H.malloc w.host l).2 fd data
    ∃ w1, do_semihosting H fuel w = some (w.status (w.tick + 2), w1) ∧
      w1.trace = w.trace ++
        [Event.read_memory r1 4 3 ERROR_OK, Event.host (HostCall.malloc l),
         Event.read_buffer a l ERROR_OK, Event.host (HostCall.write fd data),
         Event.host HostCall.free, Event.resume w1.arm (w.status (w.tick + 2))] ∧
      w1.arm.semihosting_errno = H.errno wr.2 ∧
      w1.arm.r0.value
        = to_u32 (if to_int wr.1 ≥ 0 then to_int ((l : Int) - to_int wr.1) else to_int wr.1) := by
  intro r1 params fd a l data wr
  have hsw : do_semihosting_switch H fuel w (buf_get_u32 w.arm.r0.value)
      (buf_get_u32 w.arm.r1.value)
      = some (Outcome.brk
          (if to_int wr.1 ≥ 0 then to_int ((l : Int) - to_int wr.1) else to_int wr.1)
          (host_step (set_errno (host_step
            (target_step (host_step (target_step w (Event.read_memory r1 4 3 ERROR_OK))
              (HostCall.malloc l) (H.malloc w.host l).2) (Event.read_buffer a l ERROR_OK))
            (HostCall.write fd data) wr.2) (H.errno wr.2)) HostCall.free (H.free wr.2))) := by
    rw [hr0]
    show some (sys_write H w r1) = _
    unfold sys_write
    rw [try_read_ok _ _ _ _ _ hrd]
    have hal2 : ¬ ((H.malloc w.host l).1 = false) := by rw [hal]; decide
    have hrb2 : ¬ (w.status (w.tick + 1) ≠ ERROR_OK) := not_not.mpr hrb
    show some (if (H.malloc w.host l).1 = false then _ else _) = _
    rw [if_neg hal2]
    unfold sys_write_buf
    show some (if w.status (w.tick + 1) ≠ ERROR_OK then _ else _) = _
    rw [if_neg hrb2]
    simp only [target_read_buffer, host_step, target_step, hrb, if_true]
    rfl
  rw [do_semihosting_of_brk H fuel w _ _ hsw]
  refine ⟨_, rfl, ?_, rfl, rfl⟩
  simp only [commit, target_resume, target_step, host_step, set_errno, List.append_assoc,
    List.singleton_append, List.cons_append, List.nil_append]

/-- C6 (amended): a write request whose parameter read, allocation and buffer read
succeed hands the host exactly the `len` target bytes from `addr` on, sets the error slot
from the host write and resumes; with `k` the value returned by the host write, r0 holds
`len - k` when `0 ≤ k ≤ len` and `k < 2^31` (so 0 when all bytes were accepted), and
0xFFFFFFFF when `k = -1`. -/
theorem write_result {σ : Type} (H : Host σ) (fuel : Nat) (w : World σ)
    (hr0 : buf_get_u32 w.arm.r0.value = 0x05)
    (hrd : w.status w.tick = ERROR_OK)
    (hal : (H.malloc w.host (target_buffer_get_u32 w
      (read_bytes w.mem (buf_get_u32 w.arm.r1.value) (4 * 3)) 8)).1 = true)
    (hrb : w.status (w.tick + 1) = ERROR_OK) :
    let r1 := buf_get_u32 w.arm.r1.value
    let params := read_bytes w.mem r1 (4 * 3)
    let fd := to_int (target_buffer_get_u32 w params 0)
    let a := target_buffer_get_u32 w params 4
    let l := target_buffer_get_u32 w params 8
    let data := (List.range l).map (fun i => w.mem ((a + i) % 2 ^ 32) % 256)
    let k := (H.write (H.malloc w.host l).2 fd data).1
    ∃ w1, do_semihosting H fuel w = some (w.status (w.tick + 2), w1) ∧
      w1.trace = w.trace ++
        [Event.read_memory r1 4 3 ERROR_OK, Event.host (HostCall.malloc l),
         Event.read_buffer a l ERROR_OK, Event.host (HostCall.write fd data),
         Event.host HostCall.free, Event.resume w1.arm (w.status (w.tick + 2))] ∧
      w1.arm.semihosting_errno = H.errno (H.write (H.malloc w.host l).2 fd data).2 ∧
      (0 ≤ k → k ≤ l → k < 2 ^ 31 → (w1.arm.r0.value : Int) = l - k) ∧
      (k = -1 → w1.arm.r0.value = 0xFFFFFFFF) := by
  intro r1 params fd a l data k
  obtain ⟨w1, h1, h2, h3, h4⟩ := write_request_effect H fuel w hr0 hrd hal hrb
  have hl : l < 2 ^ 32 := target_buffer_get_u32_lt w w.mem r1 (4 * 3) 8
  refine ⟨w1, h1, h2, h3, ?_, ?_⟩
  · intro hk0 hkl hk31
    have hk : to_int k = k := to_int_of_range k (by omega) hk31
    rw [h4]
    show (to_u32 (if to_int k ≥ 0 then to_int ((l : Int) - to_int k) else to_int k) : Int) = _
    rw [hk, if_pos hk0, to_u32_to_int]
    exact to_u32_of_range _ (by omega) (by omega)
  · intro hk
    rw [h4]
    show to_u32 (if to_int k ≥ 0 then to_int ((l : Int) - to_int k) else to_int k) = _
    rw [hk]
    rfl

/-- Instance of C6: a write request for 4 bytes on a host that accepts all 4 leaves 0 in
r0. -/
theorem write_result_witness :
    ∃ w1, do_semihosting (const_host 4 0) 0
        (demo_world (demo_core 0x05 0x1000 0x8004 0x10) mem_write_req (fun _ => 0))
        = some (0, w1) ∧
      (w1.arm.r0.value : Int) = 4 - 4 :=
  match write_result (const_host 4 0) 0
    (demo_world (demo_core 0x05 0x1000 0x8004 0x10) mem_write_req (fun _ => 0))
    rfl rfl rfl rfl with
  | ⟨w1, h1, _, _, h4, _⟩ => ⟨w1, h1, h4 (by decide) (by decide) (by decide)⟩

/-- C6 (counterexample): a write request whose length word is 0x80000000, on a host whose
write accepts all 0x80000000 bytes.  The value returned by the host equals `len`, yet r0
holds 0x80000000 instead of 0: the `int result` that receives the host's `ssize_t` is
negative, so `result = l - result` is skipped. -/
theorem write_all_accepted_large :
    target_buffer_get_u32
      (demo_world (demo_core 0x05 0x1000 0x8004 0x10) mem_write_big (fun _ => 0))
      (read_bytes mem_write_big 0x1000 (4 * 3)) 8 = 0x80000000 ∧
    ∃ w1, do_semihosting (const_host 0x80000000 0) 0
        (demo_world (demo_core 0x05 0x1000 0x8004 0x10) mem_write_big (fun _ => 0))
        = some (0, w1) ∧
      w1.arm.r0.value = 0x80000000 :=
  ⟨by decide,
   match write_request_effect (const_host 0x80000000 0) 0
     (demo_world (demo_core 0x05 0x1000 0x8004 0x10) mem_write_big (fun _ => 0))
     rfl rfl rfl rfl with
   | ⟨w1, h1, _, _, h4⟩ => ⟨w1, h1, h4.trans (by decide)⟩⟩

/-! ### SYS_WRITE0 -/

theorem sys_write0_stuck {σ : Type} (H : Host σ) (r1 : Nat) :
    ∀ (fuel : Nat) (w : World σ), (∀ t, w.status t = ERROR_OK) →
      w.mem (r1 % 2 ^ 32) % 256 ≠ 0 → sys_write0 H fuel w r1 = none := by
  intro fuel
  induction fuel with
  | zero => intro w _ _; rfl
  | succ n ih =>
    intro w hst hb
    unfold sys_write0
    have h1 : ¬ ((target_read_memory w r1 1 1).1 ≠ ERROR_OK) := not_not.mpr (hst _)
    rw [if_neg h1]
    have h2 : (target_read_memory w r1 1 1).2.1 = read_bytes w.mem r1 (1 * 1) :=
      if_pos (hst _)
    have h3 : byte_at (target_read_memory w r1 1 1).2.1 0 = w.mem (r1 % 2 ^ 32) % 256 := by
      rw [h2]; rfl
    dsimp only
    rw [if_neg (by rw [h3]; exact hb)]
    exact ih _ hst hb

/-- C7 (the code at the failing input): a write0 request for the string "A" (byte 0x41 at
r1 = 0x2000, zero byte at 0x2001) with every target read succeeding.  The byte at 0x2001
is never read: each iteration reads address r1 again, so the loop is still running after
any number of iterations. -/
theorem write0_never_returns (fuel : Nat) :
    do_semihosting (const_host 0 0) fuel
      (demo_world (demo_core 0x04 0x2000 0x8004 0x10) mem_string_a (fun _ => 0)) = none := by
  have h := sys_write0_stuck (const_host 0 0) 0x2000 fuel
    (demo_world (demo_core 0x04 0x2000 0x8004 0x10) mem_string_a (fun _ => 0))
    (fun _ => rfl) (by decide)
  unfold do_semihosting
  have hsw : do_semihosting_switch (const_host 0 0) fuel
      (demo_world (demo_core 0x04 0x2000 0x8004 0x10) mem_string_a (fun _ => 0))
      (buf_get_u32 (demo_world (demo_core 0x04 0x2000 0x8004 0x10) mem_string_a
        (fun _ => 0)).arm.r0.value)
      (buf_get_u32 (demo_world (demo_core 0x04 0x2000 0x8004 0x10) mem_string_a
        (fun _ => 0)).arm.r1.value) = none := h
  simp only [hsw]

/-! ### SYS_SEEK -/

theorem seek_request_effect {σ : Type} (H : Host σ) (fuel : Nat) (w : World σ)
    (hr0 : buf_get_u32 w.arm.r0.value = 0x0a)
    (hrd : w.status w.tick = ERROR_OK) :
    let r1 := buf_get_u32 w.arm.r1.value
    let params := read_bytes w.mem r1 (4 * 2)
    let fd := to_int (target_buffer_get_u32 w params 0)
    let pos : Int := target_buffer_get_u32 w params 4
    let r := H.lseek w.host fd pos SEEK_SET
    ∃ w1, do_semihosting H fuel w = some (w.status (w.tick + 1), w1) ∧
      w1.trace = w.trace ++
        [Event.read_memory r1 4 2 ERROR_OK, Event.host (HostCall.lseek fd pos SEEK_SET),
         Event.resume w1.arm (w.status (w.tick + 1))] ∧
      w1.arm.semihosting_errno = H.errno r.2 ∧
      w1.arm.r0.value = to_u32 (if to_int r.1 = pos then 0 else to_int r.1) := by
  intro r1 params fd pos r
  have hsw : do_semihosting_switch H fuel w (buf_get_u32 w.arm.r0.value)
      (buf_get_u32 w.arm.r1.value)
      = some (Outcome.brk (if to_int r.1 = pos then 0 else to_int r.1)
          (set_errno (host_step (target_step w (Event.read_memory r1 4 2 ERROR_OK))
            (HostCall.lseek fd pos SEEK_SET) r.2) (H.errno r.2))) := by
    rw [hr0]
    show some (sys_seek H w r1) = _
    unfold sys_seek
    rw [try_read_ok _ _ _ _ _ hrd]
    rfl
  rw [do_semihosting_of_brk H fuel w _ _ hsw]
  refine ⟨_, rfl, ?_, rfl, rfl⟩
  simp only [commit, target_resume, target_step, host_step, set_errno, List.append_assoc,
    List.singleton_append, List.cons_append, List.nil_append]

theorem to_u32_to_int_eq_zero (x : Int) : to_u32 (to_int x) = 0 ↔ to_int x = 0 := by
  unfold to_u32 to_int
  omega

theorem to_u32_to_int_eq_ones (x : Int) :
    to_u32 (to_int x) = 0xFFFFFFFF ↔ to_int x = -1 := by
  unfold to_u32 to_int
  omega

/-- C8 (amended): a seek request whose parameter read succeeds calls the host's absolute
seek with the requested position `P`, sets the error slot from it and resumes.  With `R`
the value the host seek returns: r0 holds 0 when `R = P` and `P < 2^31`; r0 holds
0xFFFFFFFF when `R = -1`; and in general r0 is 0 exactly when `R`, converted to `int`,
equals `P` or is 0, otherwise r0 holds that converted value.  r0 holds 0xFFFFFFFF (the
result -1) exactly when `R` converted to `int` is -1: when the seek failed, and also
when it succeeded with an offset whose low 32 bits are all set, such as
`R = P = 0xFFFFFFFF`. -/
theorem seek_result {σ : Type} (H : Host σ) (fuel : Nat) (w : World σ)
    (hr0 : buf_get_u32 w.arm.r0.value = 0x0a)
    (hrd : w.status w.tick = ERROR_OK) :
    let r1 := buf_get_u32 w.arm.r1.value
    let params := read_bytes w.mem r1 (4 * 2)
    let fd := to_int (target_buffer_get_u32 w params 0)
    let P : Int := target_buffer_get_u32 w params 4
    let R := (H.lseek w.host fd P SEEK_SET).1
    ∃ w1, do_semihosting H fuel w = some (w.status (w.tick + 1), w1) ∧
      w1.trace = w.trace ++
        [Event.read_memory r1 4 2 ERROR_OK, Event.host (HostCall.lseek fd P SEEK_SET),
         Event.resume w1.arm (w.status (w.tick + 1))] ∧
      w1.arm.semihosting_errno = H.errno (H.lseek w.host fd P SEEK_SET).2 ∧
      (R = P → P < 2 ^ 31 → w1.arm.r0.value = 0) ∧
      (R = -1 → w1.arm.r0.value = 0xFFFFFFFF) ∧
      (w1.arm.r0.value = 0 ↔ (to_int R = P ∨ to_int R = 0)) ∧
      (to_int R ≠ P → w1.arm.r0.value = to_u32 R) ∧
      (w1.arm.r0.value = 0xFFFFFFFF ↔ to_int R = -1) ∧
      (R = 0xFFFFFFFF → w1.arm.r0.value = 0xFFFFFFFF) := by
  intro r1 params fd P R
  obtain ⟨w1, h1, h2, h3, h4⟩ := seek_request_effect H fuel w hr0 hrd
  have h4' : w1.arm.r0.value = to_u32 (if to_int R = P then 0 else to_int R) := h4
  have hP : (0 : Int) ≤ P := Int.natCast_nonneg _
  have hones : w1.arm.r0.value = 0xFFFFFFFF ↔ to_int R = -1 := by
    rw [h4']
    by_cases hc : to_int R = P
    · rw [if_pos hc]
      refine ⟨fun h => absurd h (by decide), fun h => ?_⟩
      rw [h] at hc
      omega
    · rw [if_neg hc]
      exact to_u32_to_int_eq_ones R
  refine ⟨w1, h1, h2, h3, ?_, ?_, ?_, ?_, hones, fun hR => hones.mpr (by rw [hR]; rfl)⟩
  · intro hRP hP31
    have hR : to_int R = P := by rw [hRP]; exact to_int_of_range P (by omega) hP31
    rw [h4', if_pos hR]
    rfl
  · intro hR
    have hne : ¬ (to_int R = P) := by
      rw [hR]
      have : to_int (-1) = -1 := rfl
      omega
    rw [h4', if_neg hne, hR]
    rfl
  · rw [h4']
    by_cases hc : to_int R = P
    · rw [if_pos hc]
      exact ⟨fun _ => Or.inl hc, fun _ => rfl⟩
    · rw [if_neg hc, to_u32_to_int_eq_zero]
      exact ⟨fun h => Or.inr h, fun h => h.resolve_left hc⟩
  · intro hc
    rw [h4', if_neg hc, to_u32_to_int]

/-- Instance of C8: a seek request to position 16 on a host whose seek returns 16 leaves
0 in r0; a seek request to position 0xFFFFFFFF on a host whose seek succeeds and returns
0xFFFFFFFF leaves 0xFFFFFFFF in r0. -/
theorem seek_result_witness :
    (∃ w1, do_semihosting (const_host 16 0) 0
        (demo_world (demo_core 0x0a 0x1000 0x8004 0x10) mem_seek_req (fun _ => 0))
        = some (0, w1) ∧
      w1.arm.r0.value = 0) ∧
    target_buffer_get_u32
      (demo_world (demo_core 0x0a 0x1000 0x8004 0x10) mem_seek_ones (fun _ => 0))
      (read_bytes mem_seek_ones 0x1000 (4 * 2)) 4 = 0xFFFFFFFF ∧
    ∃ w1, do_semihosting (const_host 0xFFFFFFFF 0) 0
        (demo_world (demo_core 0x0a 0x1000 0x8004 0x10) mem_seek_ones (fun _ => 0))
        = some (0, w1) ∧
      w1.trace = [Event.read_memory 0x1000 4 2 0,
        Event.host (HostCall.lseek 3 0xFFFFFFFF SEEK_SET), Event.resume w1.arm 0] ∧
      w1.arm.r0.value = 0xFFFFFFFF :=
  ⟨match seek_result (const_host 16 0) 0
      (demo_world (demo_core 0x0a 0x1000 0x8004 0x10) mem_seek_req (fun _ => 0)) rfl rfl with
    | ⟨w1, h1, _, _, h4, _, _, _, _, _⟩ => ⟨w1, h1, h4 (by decide) (by decide)⟩,
   by decide,
   match seek_result (const_host 0xFFFFFFFF 0) 0
      (demo_world (demo_core 0x0a 0x1000 0x8004 0x10) mem_seek_ones (fun _ => 0)) rfl rfl with
    | ⟨w1, h1, h2, _, _, _, _, _, _, h9⟩ => ⟨w1, h1, h2.trans rfl, h9 rfl⟩⟩

/-- C8 (counterexample): a seek request to position 0x80000000 on a host whose absolute
seek succeeds and returns 0x80000000.  The resulting position equals the requested one,
yet r0 holds 0x80000000 instead of 0: `result` is an `int`, so `result == pos` compares
-0x80000000 with 0x80000000. -/
theorem seek_large_position :
    target_buffer_get_u32
      (demo_world (demo_core 0x0a 0x1000 0x8004 0x10) mem_seek_big (fun _ => 0))
      (read_bytes mem_seek_big 0x1000 (4 * 2)) 4 = 0x80000000 ∧
    ∃ w1, do_semihosting (const_host 0x80000000 0) 0
        (demo_world (demo_core 0x0a 0x1000 0x8004 0x10) mem_seek_big (fun _ => 0))
        = some (0, w1) ∧
      w1.trace = [Event.read_memory 0x1000 4 2 0,
        Event.host (HostCall.lseek 3 0x80000000 SEEK_SET), Event.resume w1.arm 0] ∧
      w1.arm.r0.value = 0x80000000 :=
  ⟨by decide,
   match seek_request_effect (const_host 0x80000000 0) 0
     (demo_world (demo_core 0x0a 0x1000 0x8004 0x10) mem_seek_big (fun _ => 0)) rfl rfl with
   | ⟨w1, h1, h2, _, h4⟩ => ⟨w1, h1, h2.trans rfl, h4.trans (by decide)⟩⟩

/-! ### SYS_OPEN -/

theorem strcmp_eq_zero_iff : ∀ (a b : List Nat), strcmp a b = 0 ↔ c_string a = c_string b := by
  intro a
  induction a with
  | nil =>
    intro b
    cases b with
    | nil => simp [strcmp, c_string]
    | cons y ys =>
      by_cases hy : y = 0
      · simp [strcmp, c_string, hy]
      · simp [strcmp, c_string, hy]
  | cons x xs ih =>
    intro b
    cases b with
    | nil =>
      by_cases hx : x = 0
      · simp [strcmp, c_string, hx]
      · simp [strcmp, c_string, hx]
    | cons y ys =>
      by_cases hxy : x = y
      · subst hxy
        by_cases hx : x = 0
        · simp [strcmp, c_string, hx]
        · have := ih ys
          simp [strcmp, c_string, hx] at this ⊢
          exact this
      · have hsub : (x : Int) - (y : Int) ≠ 0 := by omega
        by_cases hx : x = 0
        · have hy : y ≠ 0 := fun h => hxy (hx.trans h.symm)
          simp [strcmp, c_string, hx, hy, hxy]
          omega
        · by_cases hy : y = 0
          · simp [strcmp, c_string, hx, hy, hxy]
          · simp [strcmp, c_string, hx, hy, hxy, hsub]

theorem open_mode_eq_claimed : ∀ m, m ≤ 11 → open_mode m = claimed_open_flags m := by
  decide

theorem open_mode_read_only_iff : ∀ m, m ≤ 11 → (open_mode m &&& 3 = 0 ↔ m ≤ 1) := by
  decide

theorem sys_open_valid {σ : Type} (H : Host σ) (w : World σ) (r1 : Nat)
    (hrd : w.status w.tick = ERROR_OK)
    (hl : target_buffer_get_u32 w (read_bytes w.mem r1 (4 * 3)) 8 ≤ 255)
    (hm : target_buffer_get_u32 w (read_bytes w.mem r1 (4 * 3)) 4 ≤ 11)
    (hrf : w.status (w.tick + 1) = ERROR_OK) :
    let params := read_bytes w.mem r1 (4 * 3)
    let a := target_buffer_get_u32 w params 0
    let m := target_buffer_get_u32 w params 4
    let l := target_buffer_get_u32 w params 8
    let fn := read_bytes w.mem a (1 * l) ++ [0]
    let w2 := target_step (target_step w (Event.read_memory r1 4 3 ERROR_OK))
      (Event.read_memory a 1 l ERROR_OK)
    sys_open H w r1 =
      if strcmp fn tt_name = 0 then
        if open_mode m &&& 3 = 0 then
          Outcome.brk (H.dup w.host 0).1
            (set_errno (host_step w2 (HostCall.dup 0) (H.dup w.host 0).2)
              (H.errno (H.dup w.host 0).2))
        else
          Outcome.brk (H.dup w.host 1).1
            (set_errno (host_step w2 (HostCall.dup 1) (H.dup w.host 1).2)
              (H.errno (H.dup w.host 1).2))
      else
        Outcome.brk (H.open_ w.host fn (open_mode m)).1
          (set_errno (host_step w2 (HostCall.open_ fn (open_mode m))
            (H.open_ w.host fn (open_mode m)).2) (H.errno (H.open_ w.host fn (open_mode m)).2)) := by
  intro params a m l fn w2
  unfold sys_open
  rw [try_read_ok _ _ _ _ _ hrd]
  simp only [target_buffer_get_u32_step]
  rw [if_pos ⟨hl, hm⟩]
  have hrf2 : (target_step w (Event.read_memory r1 4 3 ERROR_OK)).status
      (target_step w (Event.read_memory r1 4 3 ERROR_OK)).tick = ERROR_OK := hrf
  rw [try_read_ok _ _ _ _ _ hrf2]
  rfl

/-- C9: an open request whose parameter and name reads succeed, with length word at most
255, mode word `m` at most 11 and a name whose C string is not ":tt", calls the host's
open with the `len` bytes read at `addr` followed by a terminator and with the flags the
claim describes (for `m = 4`: write-only, create, truncate); r0 receives the value the
host returns (0xFFFFFFFF when it returns -1), the error slot the host's errno, and the
core is resumed. -/
theorem open_file_result {σ : Type} (H : Host σ) (fuel : Nat) (w : World σ)
    (hr0 : buf_get_u32 w.arm.r0.value = 0x01)
    (hrd : w.status w.tick = ERROR_OK)
    (hl : target_buffer_get_u32 w
      (read_bytes w.mem (buf_get_u32 w.arm.r1.value) (4 * 3)) 8 ≤ 255)
    (hm : target_buffer_get_u32 w
      (read_bytes w.mem (buf_get_u32 w.arm.r1.value) (4 * 3)) 4 ≤ 11)
    (hrf : w.status (w.tick + 1) = ERROR_OK)
    (hname : c_string
      ((List.range (target_buffer_get_u32 w
          (read_bytes w.mem (buf_get_u32 w.arm.r1.value) (4 * 3)) 8)).map
        (fun i => w.mem ((target_buffer_get_u32 w
          (read_bytes w.mem (buf_get_u32 w.arm.r1.value) (4 * 3)) 0 + i) % 2 ^ 32) % 256)
        ++ [0]) ≠ [58, 116, 116]) :
    let r1 := buf_get_u32 w.arm.r1.value
    let params := read_bytes w.mem r1 (4 * 3)
    let a := target_buffer_get_u32 w params 0
    let m := target_buffer_get_u32 w params 4
    let l := target_buffer_get_u32 w params 8
    let fn := (List.range l).map (fun i => w.mem ((a + i) % 2 ^ 32) % 256) ++ [0]
    let flags := claimed_open_flags m
    let r := H.open_ w.host fn flags
    claimed_open_flags 4 = O_WRONLY ||| O_CREAT ||| O_TRUNC ∧
    ∃ w1, do_semihosting H fuel w = some (w.status (w.tick + 2), w1) ∧
      w1.trace = w.trace ++
        [Event.read_memory r1 4 3 ERROR_OK, Event.read_memory a 1 l ERROR_OK,
         Event.host (HostCall.open_ fn flags), Event.resume w1.arm (w.status (w.tick + 2))] ∧
      w1.arm.semihosting_errno = H.errno r.2 ∧
      w1.arm.r0.value = to_u32 r.1 ∧
      (r.1 = -1 → w1.arm.r0.value = 0xFFFFFFFF) := by
  intro r1 params a m l fn flags r
  refine ⟨by decide, ?_⟩
  have hfn : read_bytes w.mem a (1 * l) ++ [0] = fn := by
    show read_bytes w.mem a (1 * l) ++ [0] = read_bytes w.mem a l ++ [0]
    rw [Nat.one_mul]
  have hne : ¬ (strcmp fn tt_name = 0) := by
    rw [strcmp_eq_zero_iff]
    exact hname
  have hflags : open_mode m = flags := open_mode_eq_claimed m hm
  have hsw : do_semihosting_switch H fuel w (buf_get_u32 w.arm.r0.value)
      (buf_get_u32 w.arm.r1.value)
      = some (Outcome.brk r.1
          (set_errno (host_step (target_step (target_step w (Event.read_memory r1 4 3 ERROR_OK))
            (Event.read_memory a 1 l ERROR_OK)) (HostCall.open_ fn flags) r.2)
            (H.errno r.2))) := by
    rw [hr0]
    show some (sys_open H w r1) = _
    rw [sys_open_valid H w r1 hrd hl hm hrf]
    rw [hfn, if_neg hne, hflags]
  rw [do_semihosting_of_brk H fuel w _ _ hsw]
  refine ⟨_, rfl, ?_, rfl, rfl, ?_⟩
  · simp only [commit, target_resume, target_step, host_step, set_errno, List.append_assoc,
      List.singleton_append, List.cons_append, List.nil_append]
  · intro h
    show to_u32 r.1 = _
    rw [h]
    rfl

/-- Instance of C9: the request of the spec's example, mode word 4 and name "out.txt", on
a host whose open returns handle 5. -/
theorem open_file_result_witness :
    ∃ w1, do_semihosting (const_host 5 0) 0
        (demo_world (demo_core 0x01 0x1000 0x8004 0x10) mem_open_out (fun _ => 0))
        = some (0, w1) ∧
      w1.trace =
        [Event.read_memory 0x1000 4 3 0, Event.read_memory 0x2000 1 7 0,
         Event.host (HostCall.open_ [111, 117, 116, 46, 116, 120, 116, 0]
           (O_WRONLY ||| O_CREAT ||| O_TRUNC)),
         Event.resume w1.arm 0] ∧
      w1.arm.r0.value = 5 :=
  match (open_file_result (const_host 5 0) 0
    (demo_world (demo_core 0x01 0x1000 0x8004 0x10) mem_open_out (fun _ => 0))
    rfl rfl (by decide) (by decide) rfl (by decide)).2 with
  | ⟨w1, h1, h2, _, h4, _⟩ => ⟨w1, h1, h2.trans rfl, h4.trans (by decide)⟩

/-- C10: an open request whose parameter and name reads succeed, with length word at
most 255, mode word `m` at most 11 and a name whose C string is ":tt", opens no file: the
only host call is `dup(0)` when `m` is 0 or 1 (read-only access) and `dup(1)` for the
modes 2 to 11 (write-only or read-write access); r0 receives the value `dup` returns, the
error slot the host's errno, and the core is resumed. -/
theorem open_tt_result {σ : Type} (H : Host σ) (fuel : Nat) (w : World σ)
    (hr0 : buf_get_u32 w.arm.r0.value = 0x01)
    (hrd : w.status w.tick = ERROR_OK)
    (hl : target_buffer_get_u32 w
      (read_bytes w.mem (buf_get_u32 w.arm.r1.value) (4 * 3)) 8 ≤ 255)
    (hm : target_buffer_get_u32 w
      (read_bytes w.mem (buf_get_u32 w.arm.r1.value) (4 * 3)) 4 ≤ 11)
    (hrf : w.status (w.tick + 1) = ERROR_OK)
    (hname : c_string
      ((List.range (target_buffer_get_u32 w
          (read_bytes w.mem (buf_get_u32 w.arm.r1.value) (4 * 3)) 8)).map
        (fun i => w.mem ((target_buffer_get_u32 w
          (read_bytes w.mem (buf_get_u32 w.arm.r1.value) (4 * 3)) 0 + i) % 2 ^ 32) % 256)
        ++ [0]) = [58, 116, 116]) :
    let r1 := buf_get_u32 w.arm.r1.value
    let params := read_bytes w.mem r1 (4 * 3)
    let a := target_buffer_get_u32 w params 0
    let m := target_buffer_get_u32 w params 4
    let l := target_buffer_get_u32 w params 8
    let std : Int := if m ≤ 1 then 0 else 1
    let r := H.dup w.host std
    ((claimed_open_flags m &&& 3 = O_RDONLY) ↔ m ≤ 1) ∧
    ∃ w1, do_semihosting H fuel w = some (w.status (w.tick + 2), w1) ∧
      w1.trace = w.trace ++
        [Event.read_memory r1 4 3 ERROR_OK, Event.read_memory a 1 l ERROR_OK,
         Event.host (HostCall.dup std), Event.resume w1.arm (w.status (w.tick + 2))] ∧
      w1.arm.semihosting_errno = H.errno r.2 ∧
      w1.arm.r0.value = to_u32 r.1 := by
  intro r1 params a m l std r
  have hro : open_mode m &&& 3 = 0 ↔ m ≤ 1 := open_mode_read_only_iff m hm
  refine ⟨by rw [← open_mode_eq_claimed m hm]; exact hro, ?_⟩
  have hfn : read_bytes w.mem a (1 * l) ++ [0] = read_bytes w.mem a l ++ [0] := by
    rw [Nat.one_mul]
  have heq : strcmp (read_bytes w.mem a l ++ [0]) tt_name = 0 := by
    rw [strcmp_eq_zero_iff]
    exact hname
  have hsw : do_semihosting_switch H fuel w (buf_get_u32 w.arm.r0.value)
      (buf_get_u32 w.arm.r1.value)
      = some (Outcome.brk r.1
          (set_errno (host_step (target_step (target_step w (Event.read_memory r1 4 3 ERROR_OK))
            (Event.read_memory a 1 l ERROR_OK)) (HostCall.dup std) r.2)
            (H.errno r.2))) := by
    rw [hr0]
    show some (sys_open H w r1) = _
    rw [sys_open_valid H w r1 hrd hl hm hrf]
    rw [hfn, if_pos heq]
    by_cases h01 : m ≤ 1
    · have hs : std = 0 := if_pos h01
      have hr : r = H.dup w.host 0 := by
        show H.dup w.host std = _
        rw [hs]
      rw [if_pos (hro.mpr h01), hs, hr]
    · have hs : std = 1 := if_neg h01
      have hr : r = H.dup w.host 1 := by
        show H.dup w.host std = _
        rw [hs]
      rw [if_neg (fun h => h01 (hro.mp h)), hs, hr]
  rw [do_semihosting_of_brk H fuel w _ _ hsw]
  refine ⟨_, rfl, ?_, rfl, rfl⟩
  simp only [commit, target_resume, target_step, host_step, set_errno, List.append_assoc,
    List.singleton_append, List.cons_append, List.nil_append]

/-- Instance of C10: mode word 4 and name ":tt" on a host whose `dup` returns 7: the host
call is `dup(1)`. -/
theorem open_tt_result_witness :
    ∃ w1, do_semihosting (const_host 7 0) 0
        (demo_world (demo_core 0x01 0x1000 0x8004 0x10) mem_open_tt (fun _ => 0))
        = some (0, w1) ∧
      w1.trace =
        [Event.read_memory 0x1000 4 3 0, Event.read_memory 0x2000 1 3 0,
         Event.host (HostCall.dup 1), Event.resume w1.arm 0] ∧
      w1.arm.r0.value = 7 :=
  match (open_tt_result (const_host 7 0) 0
    (demo_world (demo_core 0x01 0x1000 0x8004 0x10) mem_open_tt (fun _ => 0))
    rfl rfl (by decide) (by decide) rfl (by decide)).2 with
  | ⟨w1, h1, h2, _, h4⟩ => ⟨w1, h1, h2.trans rfl, h4.trans (by decide)⟩

/-! ### Unsupported request codes -/

theorem do_semihosting_switch_default {σ : Type} (H : Host σ) (fuel : Nat) (w : World σ)
    (r0 r1 : Nat) (hcat : r0 ∉ catalog) :
    do_semihosting_switch H fuel w r0 r1 = some (unsupported_call H w r0) := by
  have hne : ∀ c, c ∈ catalog → r0 ≠ c := fun c hc h => hcat (h ▸ hc)
  unfold do_semihosting_switch
  rw [if_neg (hne 0x01 (by decide)), if_neg (hne 0x02 (by decide)),
    if_neg (hne 0x03 (by decide)), if_neg (hne 0x04 (by decide)),
    if_neg (hne 0x05 (by decide)), if_neg (hne 0x06 (by decide)),
    if_neg (hne 0x07 (by decide)), if_neg (hne 0x08 (by decide)),
    if_neg (hne 0x09 (by decide)), if_neg (hne 0x0a (by decide)),
    if_neg (hne 0x0c (by decide)), if_neg (hne 0x0e (by decide)),
    if_neg (hne 0x0f (by decide)), if_neg (hne 0x11 (by decide)),
    if_neg (hne 0x13 (by decide)), if_neg (hne 0x15 (by decide)),
    if_neg (hne 0x16 (by decide)), if_neg (hne 0x18 (by decide))]

/-- C13: for every request code outside the catalog (among them 0x00, 0x0b, 0x0d, 0x10,
0x12, 0x17, 0x30, 0x31 and every value above 0x18), `do_semihosting`
makes no target memory access and no host file call: it prints the "unsupported call"
message, sets the error slot to ENOTSUP, commits -1 to r0 and resumes the core. -/
theorem unsupported_code_result {σ : Type} (H : Host σ) (fuel : Nat) (w : World σ)
    (hcat : buf_get_u32 w.arm.r0.value ∉ catalog) :
    (∀ c ∈ [0x00, 0x0b, 0x0d, 0x10, 0x12, 0x17, 0x30, 0x31], c ∉ catalog) ∧
    (∀ c, 0x18 < c → c ∉ catalog) ∧
    ∃ w1, do_semihosting H fuel w = some (w.status w.tick, w1) ∧
      w1.trace = w.trace ++
        [Event.host (HostCall.fprintf_stderr
          (StderrMsg.unsupported_call (buf_get_u32 w.arm.r0.value))),
         Event.resume w1.arm (w.status w.tick)] ∧
      w1.arm.r0 = { value := 0xFFFFFFFF, dirty := true } ∧
      w1.arm.semihosting_errno = ENOTSUP ∧
      w1.mem = w.mem := by
  refine ⟨by decide, ?_, ?_⟩
  · intro c hc hmem
    simp only [catalog, List.mem_cons, List.mem_singleton, List.not_mem_nil, or_false] at hmem
    omega
  · have hsw := do_semihosting_switch_default H fuel w _ (buf_get_u32 w.arm.r1.value) hcat
    rw [do_semihosting_of_brk H fuel w _ _ hsw]
    refine ⟨_, rfl, ?_, rfl, rfl, rfl⟩
    simp only [commit, target_resume, target_step, host_step, set_errno, List.append_assoc,
      List.singleton_append, List.cons_append, List.nil_append]

/-- Instance of C13: request code 0x0b. -/
theorem unsupported_code_result_witness :
    ∃ w1, do_semihosting (const_host 0 0) 0
        (demo_world (demo_core 0x0b 0 0x8004 0x10) mem_svc_arm (fun _ => 0)) = some (0, w1) ∧
      w1.arm.r0 = { value := 0xFFFFFFFF, dirty := true } ∧
      w1.arm.semihosting_errno = ENOTSUP :=
  match (unsupported_code_result (const_host 0 0) 0
    (demo_world (demo_core 0x0b 0 0x8004 0x10) mem_svc_arm (fun _ => 0)) (by decide)).2.2 with
  | ⟨w1, h1, _, h3, h4, _⟩ => ⟨w1, h1, h3, h4⟩

/-! ### Exception reports -/

/-- C16: a report_exception request (0x18), whatever the reason code in r1, prints one
message, broadcasts one halted event and returns the status of that broadcast; it makes
no target memory access, requests no resume, and leaves the core record (r0, r15, CPSR,
`core_mode`, the error slot) and target memory as they were. -/
theorem report_exception_result {σ : Type} (H : Host σ) (fuel : Nat) (w : World σ)
    (hr0 : buf_get_u32 w.arm.r0.value = 0x18) :
    ∃ w1, do_semihosting H fuel w = some (w.status w.tick, w1) ∧
      w1.trace = w.trace ++
        [Event.host (HostCall.fprintf_stderr
          (if buf_get_u32 w.arm.r1.value = 0x20026 then StderrMsg.application_exited
           else StderrMsg.exception (buf_get_u32 w.arm.r1.value))),
         Event.halted_event w.arm (w.status w.tick)] ∧
      w1.arm = w.arm ∧
      w1.mem = w.mem := by
  have hsw : do_semihosting_switch H fuel w (buf_get_u32 w.arm.r0.value)
      (buf_get_u32 w.arm.r1.value)
      = some (Outcome.ret (w.status w.tick)
          (target_call_event_callbacks (host_step w
            (HostCall.fprintf_stderr
              (if buf_get_u32 w.arm.r1.value = 0x20026 then StderrMsg.application_exited
               else StderrMsg.exception (buf_get_u32 w.arm.r1.value)))
            (H.fprintf_stderr w.host
              (if buf_get_u32 w.arm.r1.value = 0x20026 then StderrMsg.application_exited
               else StderrMsg.exception (buf_get_u32 w.arm.r1.value))))).2) := by
    rw [hr0]; rfl
  rw [do_semihosting_of_ret H fuel w _ _ hsw]
  refine ⟨_, rfl, ?_, rfl, rfl⟩
  simp only [target_call_event_callbacks, target_step, host_step, List.append_assoc,
    List.singleton_append, List.cons_append, List.nil_append]

/-- Instance of C16: reason code 0x20026 (application exit). -/
theorem report_exception_result_witness :
    ∃ w1, do_semihosting (const_host 0 0) 0
        (demo_world (demo_core 0x18 0x20026 0x8004 0x10) mem_svc_arm (fun _ => 0))
        = some (0, w1) ∧
      w1.trace = [Event.host (HostCall.fprintf_stderr StderrMsg.application_exited),
        Event.halted_event (demo_core 0x18 0x20026 0x8004 0x10) 0] ∧
      w1.arm = demo_core 0x18 0x20026 0x8004 0x10 :=
  match report_exception_result (const_host 0 0) 0
    (demo_world (demo_core 0x18 0x20026 0x8004 0x10) mem_svc_arm (fun _ => 0)) rfl with
  | ⟨w1, h1, h2, h3, _⟩ => ⟨w1, h1, h2.trans rfl, h3⟩

/-! ### Trap matching: the remaining outcomes -/

/-- C17: with semihosting enabled, the core in SVC mode and r15 equal to 0x08, a failing
read of the trapping instruction makes `arm_semihosting` return 1 with the failing status
stored through `retval`; `do_semihosting` is not entered, and the world differs from the
one at entry only by the logged read: no register, memory cell, error slot or host state
changes and nothing is resumed. -/
theorem trap_read_failure {σ : Type} (H : Host σ) (fuel : Nat) (w : World σ)
    (hen : w.arm.is_semihosting = true)
    (hmode : w.arm.core_mode = ARMV4_5_MODE_SVC)
    (hpc : buf_get_u32 w.arm.pc.value = 0x08)
    (hfail : w.status w.tick ≠ ERROR_OK) :
    let lr := buf_get_u32 w.arm.lr_svc.value
    let spsr := buf_get_u32 w.arm.spsr.value
    (spsr.testBit 5 = false →
      arm_semihosting H fuel w = some (1, some (w.status w.tick),
        target_step w (Event.read_memory ((lr + 2 ^ 32 - 4) % 2 ^ 32) 4 1 (w.status w.tick)))) ∧
    (spsr.testBit 5 = true →
      arm_semihosting H fuel w = some (1, some (w.status w.tick),
        target_step w (Event.read_memory ((lr + 2 ^ 32 - 2) % 2 ^ 32) 2 1 (w.status w.tick)))) := by
  intro lr spsr
  have hb := and_bit5_ne_zero_iff spsr
  have hpre : ¬ (w.arm.is_semihosting = false ∨ w.arm.core_mode ≠ ARMV4_5_MODE_SVC
      ∨ buf_get_u32 w.arm.pc.value ≠ 0x08) := by
    simp [hen, hmode, hpc]
  refine ⟨?_, ?_⟩
  · intro h5
    have hn : ¬ (spsr &&& (1 <<< 5) ≠ 0) := by rw [hb, h5]; simp
    unfold arm_semihosting
    rw [if_neg hpre]
    show (if spsr &&& (1 <<< 5) ≠ 0 then _ else _) = _
    rw [if_neg hn]
    show (if w.status w.tick ≠ ERROR_OK then _ else _) = _
    rw [if_pos hfail]
    rfl
  · intro h5
    have hn : spsr &&& (1 <<< 5) ≠ 0 := by rw [hb, h5]
    unfold arm_semihosting
    rw [if_neg hpre]
    show (if spsr &&& (1 <<< 5) ≠ 0 then _ else _) = _
    rw [if_pos hn]
    show (if w.status w.tick ≠ ERROR_OK then _ else _) = _
    rw [if_pos hfail]
    rfl

/-- Instance of C17: the read of the ARM-state trapping instruction fails with -4. -/
theorem trap_read_failure_witness :
    arm_semihosting (const_host 0 0) 0
        (demo_world (demo_core 0x13 0 0x8004 0x10) mem_svc_arm (fail_at 0))
      = some (1, some (-4),
          target_step (demo_world (demo_core 0x13 0 0x8004 0x10) mem_svc_arm (fail_at 0))
            (Event.read_memory 0x8000 4 1 (-4))) :=
  (trap_read_failure (const_host 0 0) 0
    (demo_world (demo_core 0x13 0 0x8004 0x10) mem_svc_arm (fail_at 0))
    rfl rfl rfl (by decide)).1 (by decide)

/-- C18: when semihosting is disabled, or the core is not in SVC mode, or r15 is not
0x08, `arm_semihosting` returns 0 and nothing else happens: nothing is stored through
`retval` and the world is the one at entry (no target access, no register or error-slot
write, no resume). -/
theorem trap_precondition_fails {σ : Type} (H : Host σ) (fuel : Nat) (w : World σ)
    (hpre : w.arm.is_semihosting = false ∨ w.arm.core_mode ≠ ARMV4_5_MODE_SVC
      ∨ buf_get_u32 w.arm.pc.value ≠ 0x08) :
    arm_semihosting H fuel w = some (0, none, w) := by
  unfold arm_semihosting
  rw [if_pos hpre]

/-- Instance of C18: a core halted in SVC mode at 0x08 with semihosting disabled. -/
theorem trap_precondition_fails_witness :
    arm_semihosting (const_host 0 0) 0
        (demo_world { demo_core 0x13 0 0x8004 0x10 with is_semihosting := false }
          mem_svc_arm (fun _ => 0))
      = some (0, none,
          demo_world { demo_core 0x13 0 0x8004 0x10 with is_semihosting := false }
            mem_svc_arm (fun _ => 0)) :=
  trap_precondition_fails (const_host 0 0) 0
    (demo_world { demo_core 0x13 0 0x8004 0x10 with is_semihosting := false }
      mem_svc_arm (fun _ => 0)) (Or.inl rfl)

/-! ### Instruction-set state after the commit -/

theorem commit_core_state {σ : Type} (w : World σ) (lr spsr : Nat) (v : Int) :
    (commit w lr spsr v).2.arm.core_state
      = if spsr.testBit 5 then armv4_5_state.ARMV4_5_STATE_THUMB else w.arm.core_state := by
  have h32 : (0x20 : Nat) = 1 <<< 5 := by decide
  show (if spsr &&& 0x20 ≠ 0 then armv4_5_state.ARMV4_5_STATE_THUMB else w.arm.core_state) = _
  rw [h32]
  by_cases hb : spsr.testBit 5 = true
  · rw [if_pos ((and_bit5_ne_zero_iff spsr).mpr hb), if_pos hb]
  · rw [if_neg (fun h => hb ((and_bit5_ne_zero_iff spsr).mp h)), if_neg hb]

/-- C19 (the code at the failing input): an errno request entered with `core_state`
recorded as Thumb and saved flags 0x10 (bit 5 clear).  The commit restores CPSR to 0x10
and `core_mode` to 0x10, but `core_state` is still Thumb afterwards: the commit code only
ever assigns `ARMV4_5_STATE_THUMB`. -/
theorem commit_leaves_thumb_state :
    (0x10 : Nat).testBit 5 = false ∧
    (do_semihosting (const_host 0 0) 0
      (demo_world (demo_core_in armv4_5_state.ARMV4_5_STATE_THUMB 0x13 0 0x8004 0x10)
        mem_svc_arm (fun _ => 0))).map
        (fun p => (p.1, p.2.arm.cpsr.value, p.2.arm.core_mode, p.2.arm.core_state))
      = some (0, 0x10, 0x10, armv4_5_state.ARMV4_5_STATE_THUMB) := by
  decide

/-! ### SYS_ERRNO -/

theorem errno_request_effect {σ : Type} (H : Host σ) (fuel : Nat) (w : World σ)
    (hr0 : buf_get_u32 w.arm.r0.value = 0x13) :
    ∃ w1, do_semihosting H fuel w = some (w.status w.tick, w1) ∧
      w1.trace = w.trace ++ [Event.resume w1.arm (w.status w.tick)] ∧
      w1.arm.r0 = { value := to_u32 w.arm.semihosting_errno, dirty := true } ∧
      w1.arm.semihosting_errno = w.arm.semihosting_errno ∧
      w1.mem = w.mem ∧
      w1.host = w.host := by
  have hsw : do_semihosting_switch H fuel w (buf_get_u32 w.arm.r0.value)
      (buf_get_u32 w.arm.r1.value) = some (Outcome.brk w.arm.semihosting_errno w) := by
    rw [hr0]; rfl
  rw [do_semihosting_of_brk H fuel w _ _ hsw]
  exact ⟨_, rfl, rfl, rfl, rfl, rfl, rfl⟩

theorem open_file_effect {σ : Type} (H : Host σ) (fuel : Nat) (w : World σ)
    (hr0 : buf_get_u32 w.arm.r0.value = 0x01)
    (hrd : w.status w.tick = ERROR_OK)
    (hl : target_buffer_get_u32 w
      (read_bytes w.mem (buf_get_u32 w.arm.r1.value) (4 * 3)) 8 ≤ 255)
    (hm : target_buffer_get_u32 w
      (read_bytes w.mem (buf_get_u32 w.arm.r1.value) (4 * 3)) 4 ≤ 11)
    (hrf : w.status (w.tick + 1) = ERROR_OK)
    (hname : strcmp
      (read_bytes w.mem
        (target_buffer_get_u32 w (read_bytes w.mem (buf_get_u32 w.arm.r1.value) (4 * 3)) 0)
        (target_buffer_get_u32 w (read_bytes w.mem (buf_get_u32 w.arm.r1.value) (4 * 3)) 8)
        ++ [0]) tt_name ≠ 0) :
    let r1 := buf_get_u32 w.arm.r1.value
    let params := read_bytes w.mem r1 (4 * 3)
    let a := target_buffer_get_u32 w params 0
    let m := target_buffer_get_u32 w params 4
    let l := target_buffer_get_u32 w params 8
    let fn := read_bytes w.mem a l ++ [0]
    let r := H.open_ w.host fn (open_mode m)
    ∃ w1, do_semihosting H fuel w = some (w.status (w.tick + 2), w1) ∧
      w1.trace = w.trace ++
        [Event.read_memory r1 4 3 ERROR_OK, Event.read_memory a 1 l ERROR_OK,
         Event.host (HostCall.open_ fn (open_mode m)),
         Event.resume w1.arm (w.status (w.tick + 2))] ∧
      w1.arm.semihosting_errno = H.errno r.2 ∧
      w1.arm.r0.value = to_u32 r.1 := by
  intro r1 params a m l fn r
  have hfn : read_bytes w.mem a (1 * l) ++ [0] = fn := by
    show read_bytes w.mem a (1 * l) ++ [0] = read_bytes w.mem a l ++ [0]
    rw [Nat.one_mul]
  have hsw : do_semihosting_switch H fuel w (buf_get_u32 w.arm.r0.value)
      (buf_get_u32 w.arm.r1.value)
      = some (Outcome.brk r.1
          (set_errno (host_step (target_step (target_step w (Event.read_memory r1 4 3 ERROR_OK))
            (Event.read_memory a 1 l ERROR_OK)) (HostCall.open_ fn (open_mode m)) r.2)
            (H.errno r.2))) := by
    rw [hr0]
    show some (sys_open H w r1) = _
    rw [sys_open_valid H w r1 hrd hl hm hrf]
    rw [hfn, if_neg hname]
  rw [do_semihosting_of_brk H fuel w _ _ hsw]
  refine ⟨_, rfl, ?_, rfl, rfl⟩
  simp only [commit, target_resume, target_step, host_step, set_errno, List.append_assoc,
    List.singleton_append, List.cons_append, List.nil_append]

/-- C12: an errno request (0x13) makes no target memory access and no host call, commits
the error slot to r0 and leaves the slot as it was.  Consequently, after an open request
that reaches the host's open and fails there (open returns -1) leaving errno `e`, an
errno request entered with the slot that open request left returns `e` in r0, and so
does a further errno request entered with the slot the first one left. -/
theorem errno_request_result {σ : Type} (H : Host σ) (fuel : Nat) :
    (∀ w : World σ, buf_get_u32 w.arm.r0.value = 0x13 →
      ∃ w1, do_semihosting H fuel w = some (w.status w.tick, w1) ∧
        w1.trace = w.trace ++ [Event.resume w1.arm (w.status w.tick)] ∧
        w1.arm.r0 = { value := to_u32 w.arm.semihosting_errno, dirty := true } ∧
        w1.arm.semihosting_errno = w.arm.semihosting_errno ∧
        w1.mem = w.mem ∧
        w1.host = w.host) ∧
    (∀ wa : World σ,
      let r1 := buf_get_u32 wa.arm.r1.value
      let params := read_bytes wa.mem r1 (4 * 3)
      let a := target_buffer_get_u32 wa params 0
      let m := target_buffer_get_u32 wa params 4
      let l := target_buffer_get_u32 wa params 8
      let fn := read_bytes wa.mem a l ++ [0]
      let r := H.open_ wa.host fn (open_mode m)
      let e := H.errno r.2
      buf_get_u32 wa.arm.r0.value = 0x01 →
      wa.status wa.tick = ERROR_OK → l ≤ 255 → m ≤ 11 →
      wa.status (wa.tick + 1) = ERROR_OK →
      c_string fn ≠ [58, 116, 116] →
      r.1 = -1 →
      ∃ w1, do_semihosting H fuel wa = some (wa.status (wa.tick + 2), w1) ∧
        w1.arm.r0.value = 0xFFFFFFFF ∧
        w1.arm.semihosting_errno = e ∧
        ∀ wb : World σ, wb.arm.semihosting_errno = w1.arm.semihosting_errno →
          buf_get_u32 wb.arm.r0.value = 0x13 →
          ∃ w2, do_semihosting H fuel wb = some (wb.status wb.tick, w2) ∧
            w2.arm.r0.value = to_u32 e ∧
            ∀ wc : World σ, wc.arm.semihosting_errno = w2.arm.semihosting_errno →
              buf_get_u32 wc.arm.r0.value = 0x13 →
              ∃ w3, do_semihosting H fuel wc = some (wc.status wc.tick, w3) ∧
                w3.arm.r0.value = to_u32 e) := by
  refine ⟨fun w hr0 => errno_request_effect H fuel w hr0, ?_⟩
  intro wa r1 params a m l fn r e hr0 hrd hl hm hrf hname hfail
  have hne : strcmp fn tt_name ≠ 0 := by
    rw [Ne, strcmp_eq_zero_iff]
    exact hname
  obtain ⟨w1, h1, _, h3, h4⟩ := open_file_effect H fuel wa hr0 hrd hl hm hrf hne
  have h4' : w1.arm.r0.value = to_u32 r.1 := h4
  refine ⟨w1, h1, ?_, h3, ?_⟩
  · rw [h4', hfail]; rfl
  · intro wb hb hb0
    obtain ⟨w2, g1, _, g3, g4, _, _⟩ := errno_request_effect H fuel wb hb0
    have hbe : wb.arm.semihosting_errno = e := hb.trans h3
    refine ⟨w2, g1, ?_, ?_⟩
    · rw [g3, hbe]
    · intro wc hc hc0
      obtain ⟨w3, k1, _, k3, _, _, _⟩ := errno_request_effect H fuel wc hc0
      refine ⟨w3, k1, ?_⟩
      rw [k3, hc, g4, hbe]

/-- Instance of C12: opening "out.txt" fails on the host with errno 2; the errno request
that follows returns 2. -/
theorem errno_request_result_witness :
    ∃ w1 w2,
      do_semihosting (const_host (-1) 2) 0
        (demo_world (demo_core 0x01 0x1000 0x8004 0x10) mem_open_out (fun _ => 0))
        = some (0, w1) ∧
      w1.arm.semihosting_errno = 2 ∧
      do_semihosting (const_host (-1) 2) 0
        (demo_world { demo_core 0x13 0 0x8004 0x10 with semihosting_errno := 2 }
          mem_open_out (fun _ => 0))
        = some (0, w2) ∧
      w2.arm.r0.value = 2 :=
  match (errno_request_result (const_host (-1) 2) 0).2
    (demo_world (demo_core 0x01 0x1000 0x8004 0x10) mem_open_out (fun _ => 0))
    rfl rfl (by decide) (by decide) rfl (by decide) rfl with
  | ⟨w1, h1, _, h3, hnext⟩ =>
    match hnext
      (demo_world { demo_core 0x13 0 0x8004 0x10 with semihosting_errno := 2 }
        mem_open_out (fun _ => 0)) h3.symm rfl with
    | ⟨w2, g1, g2, _⟩ => ⟨w1, w2, h1, h3, g1, g2⟩

/-! ### SYS_ISTTY and the error slot -/

/-- C11 (the code at the failing input): an istty request for handle 3 on a host whose
`isatty` returns 0 and leaves errno 25.  The host call is made and the host's errno is 25
afterwards, but the error slot still holds its previous value 0: case 0x09 never assigns
`semihosting_errno`. -/
theorem istty_leaves_slot :
    (do_semihosting (const_host 0 25) 0
      (demo_world (demo_core 0x09 0x1000 0x8004 0x10) mem_read_req (fun _ => 0))).map
        (fun p => (p.1, p.2.arm.semihosting_errno, (const_host 0 25).errno p.2.host,
          p.2.trace.filter (fun ev => decide (ev.access_status = none ∧ ev.is_resume = false))))
      = some (0, 0, 25, [Event.host (HostCall.isatty 3)]) := by
  decide

/-! ### SYS_FLEN -/

theorem flen_request_effect {σ : Type} (H : Host σ) (fuel : Nat) (w : World σ)
    (hr0 : buf_get_u32 w.arm.r0.value = 0x0c)
    (hrd : w.status w.tick = ERROR_OK) :
    let r1 := buf_get_u32 w.arm.r1.value
    let fd := to_int (target_buffer_get_u32 w (read_bytes w.mem r1 (4 * 1)) 0)
    let rc := H.lseek w.host fd 0 SEEK_CUR
    let re := H.lseek rc.2 fd 0 SEEK_END
    let rs := H.lseek re.2 fd rc.1 SEEK_SET
    ∃ w1, do_semihosting H fuel w = some (w.status (w.tick + 1), w1) ∧
      w1.trace = w.trace ++
        (if rc.1 = -1 then
          [Event.read_memory r1 4 1 ERROR_OK, Event.host (HostCall.lseek fd 0 SEEK_CUR),
           Event.resume w1.arm (w.status (w.tick + 1))]
        else
          [Event.read_memory r1 4 1 ERROR_OK, Event.host (HostCall.lseek fd 0 SEEK_CUR),
           Event.host (HostCall.lseek fd 0 SEEK_END),
           Event.host (HostCall.lseek fd rc.1 SEEK_SET),
           Event.resume w1.arm (w.status (w.tick + 1))]) ∧
      w1.host = (if rc.1 = -1 then rc.2 else rs.2) ∧
      w1.arm.semihosting_errno
        = (if rc.1 = -1 then H.errno rc.2 else if rs.1 = -1 then H.errno rs.2
           else H.errno re.2) ∧
      w1.arm.r0.value
        = to_u32 (if rc.1 = -1 then -1 else if rs.1 = -1 then -1 else to_int re.1) := by
  intro r1 fd rc re rs
  by_cases hc : rc.1 = -1
  · have hsw : do_semihosting_switch H fuel w (buf_get_u32 w.arm.r0.value)
        (buf_get_u32 w.arm.r1.value)
        = some (Outcome.brk (-1)
            (set_errno (host_step (target_step w (Event.read_memory r1 4 1 ERROR_OK))
              (HostCall.lseek fd 0 SEEK_CUR) rc.2) (H.errno rc.2))) := by
      rw [hr0]
      show some (sys_flen H w r1) = _
      unfold sys_flen
      rw [try_read_ok _ _ _ _ _ hrd]
      show some (if rc.1 = -1 then _ else _) = _
      rw [if_pos hc]
      rfl
    rw [do_semihosting_of_brk H fuel w _ _ hsw]
    simp only [if_pos hc]
    refine ⟨_, rfl, ?_, rfl, rfl, rfl⟩
    simp only [commit, target_resume, target_step, host_step, set_errno, List.append_assoc,
      List.singleton_append, List.cons_append, List.nil_append]
  · by_cases hs : rs.1 = -1
    · have hsw : do_semihosting_switch H fuel w (buf_get_u32 w.arm.r0.value)
          (buf_get_u32 w.arm.r1.value)
          = some (Outcome.brk (-1)
              (set_errno (host_step (set_errno (host_step (host_step
                (target_step w (Event.read_memory r1 4 1 ERROR_OK))
                (HostCall.lseek fd 0 SEEK_CUR) rc.2)
                (HostCall.lseek fd 0 SEEK_END) re.2) (H.errno re.2))
                (HostCall.lseek fd rc.1 SEEK_SET) rs.2) (H.errno rs.2))) := by
        rw [hr0]
        show some (sys_flen H w r1) = _
        unfold sys_flen
        rw [try_read_ok _ _ _ _ _ hrd]
        show some (if rc.1 = -1 then _ else if rs.1 = -1 then _ else _) = _
        rw [if_neg hc, if_pos hs]
        rfl
      rw [do_semihosting_of_brk H fuel w _ _ hsw]
      simp only [if_neg hc, if_pos hs]
      refine ⟨_, rfl, ?_, rfl, rfl, rfl⟩
      simp only [commit, target_resume, target_step, host_step, set_errno, List.append_assoc,
        List.singleton_append, List.cons_append, List.nil_append]
    · have hsw : do_semihosting_switch H fuel w (buf_get_u32 w.arm.r0.value)
          (buf_get_u32 w.arm.r1.value)
          = some (Outcome.brk (to_int re.1)
              (host_step (set_errno (host_step (host_step
                (target_step w (Event.read_memory r1 4 1 ERROR_OK))
                (HostCall.lseek fd 0 SEEK_CUR) rc.2)
                (HostCall.lseek fd 0 SEEK_END) re.2) (H.errno re.2))
                (HostCall.lseek fd rc.1 SEEK_SET) rs.2)) := by
        rw [hr0]
        show some (sys_flen H w r1) = _
        unfold sys_flen
        rw [try_read_ok _ _ _ _ _ hrd]
        show some (if rc.1 = -1 then _ else if rs.1 = -1 then _ else _) = _
        rw [if_neg hc, if_neg hs]
        rfl
      rw [do_semihosting_of_brk H fuel w _ _ hsw]
      simp only [if_neg hc, if_neg hs]
      refine ⟨_, rfl, ?_, rfl, rfl, rfl⟩
      simp only [commit, target_resume, target_step, host_step, set_errno, List.append_assoc,
        List.singleton_append, List.cons_append, List.nil_append]

/-- C14 (amended): a flen request whose parameter read succeeds asks the host for the
current position, seeks to the end and seeks back to the saved position (only the first
call is made when it fails).  r0 holds 0xFFFFFFFF when the first seek fails, when the
seek to the end fails, or when the restoring seek fails; when the first and the
restoring seek succeed r0 holds the low 32 bits of the offset the seek to the end
returned, which is that offset itself (the file length) when it is below 2^32. -/
theorem flen_result {σ : Type} (H : Host σ) (fuel : Nat) (w : World σ)
    (hr0 : buf_get_u32 w.arm.r0.value = 0x0c)
    (hrd : w.status w.tick = ERROR_OK) :
    let r1 := buf_get_u32 w.arm.r1.value
    let fd := to_int (target_buffer_get_u32 w (read_bytes w.mem r1 (4 * 1)) 0)
    let rc := H.lseek w.host fd 0 SEEK_CUR
    let re := H.lseek rc.2 fd 0 SEEK_END
    let rs := H.lseek re.2 fd rc.1 SEEK_SET
    ∃ w1, do_semihosting H fuel w = some (w.status (w.tick + 1), w1) ∧
      w1.trace = w.trace ++
        (if rc.1 = -1 then
          [Event.read_memory r1 4 1 ERROR_OK, Event.host (HostCall.lseek fd 0 SEEK_CUR),
           Event.resume w1.arm (w.status (w.tick + 1))]
        else
          [Event.read_memory r1 4 1 ERROR_OK, Event.host (HostCall.lseek fd 0 SEEK_CUR),
           Event.host (HostCall.lseek fd 0 SEEK_END),
           Event.host (HostCall.lseek fd rc.1 SEEK_SET),
           Event.resume w1.arm (w.status (w.tick + 1))]) ∧
      (rc.1 = -1 → w1.arm.r0.value = 0xFFFFFFFF) ∧
      (rc.1 ≠ -1 → re.1 = -1 → w1.arm.r0.value = 0xFFFFFFFF) ∧
      (rc.1 ≠ -1 → rs.1 = -1 → w1.arm.r0.value = 0xFFFFFFFF) ∧
      (rc.1 ≠ -1 → rs.1 ≠ -1 → w1.arm.r0.value = to_u32 re.1) ∧
      (rc.1 ≠ -1 → rs.1 ≠ -1 → 0 ≤ re.1 → re.1 < 2 ^ 32 → (w1.arm.r0.value : Int) = re.1) := by
  intro r1 fd rc re rs
  obtain ⟨w1, h1, h2, _, _, h5⟩ := flen_request_effect H fuel w hr0 hrd
  have h5' : w1.arm.r0.value
      = to_u32 (if rc.1 = -1 then -1 else if rs.1 = -1 then -1 else to_int re.1) := h5
  have hm1 : to_u32 (-1) = 0xFFFFFFFF := rfl
  refine ⟨w1, h1, h2, ?_, ?_, ?_, ?_, ?_⟩
  · intro hc
    rw [h5', if_pos hc, hm1]
  · intro hc he
    rw [h5', if_neg hc]
    by_cases hs : rs.1 = -1
    · rw [if_pos hs, hm1]
    · rw [if_neg hs, he]; rfl
  · intro hc hs
    rw [h5', if_neg hc, if_pos hs, hm1]
  · intro hc hs
    rw [h5', if_neg hc, if_neg hs, to_u32_to_int]
  · intro hc hs h0 h32
    rw [h5', if_neg hc, if_neg hs, to_u32_to_int]
    exact to_u32_of_range _ h0 h32

/-- Instance of C14: a file of length 100 positioned at 5. -/
theorem flen_result_witness :
    ∃ w1, do_semihosting file_host 0
        (file_world (demo_core 0x0c 0x1000 0x8004 0x10) mem_read_req
          { position := 5, length := 100, err := 0 })
        = some (0, w1) ∧
      (w1.arm.r0.value : Int) = 100 :=
  match flen_result file_host 0
    (file_world (demo_core 0x0c 0x1000 0x8004 0x10) mem_read_req
      { position := 5, length := 100, err := 0 }) rfl rfl with
  | ⟨w1, h1, _, _, _, _, _, h7⟩ =>
    ⟨w1, h1, h7 (by decide) (by decide) (by decide) (by decide)⟩

/-- C14 (counterexample): a flen request on a host whose three seeks all succeed and
whose seek to the end returns 0x100000000 (a file of 4 GiB).  r0 holds 0, not the file
length: the `off_t` returned by `lseek` is stored into the `int result`. -/
theorem flen_large_file :
    ((const_host 0x100000000 0).lseek 0 3 0 SEEK_CUR).1 ≠ -1 ∧
    ((const_host 0x100000000 0).lseek 0 3 0 SEEK_END).1 = 0x100000000 ∧
    ((const_host 0x100000000 0).lseek 0 3 0x100000000 SEEK_SET).1 ≠ -1 ∧
    ∃ w1, do_semihosting (const_host 0x100000000 0) 0
        (demo_world (demo_core 0x0c 0x1000 0x8004 0x10) mem_read_req (fun _ => 0))
        = some (0, w1) ∧
      w1.trace = [Event.read_memory 0x1000 4 1 0, Event.host (HostCall.lseek 3 0 SEEK_CUR),
        Event.host (HostCall.lseek 3 0 SEEK_END),
        Event.host (HostCall.lseek 3 0x100000000 SEEK_SET), Event.resume w1.arm 0] ∧
      w1.arm.r0.value = 0 :=
  ⟨by decide, by decide, by decide,
   match flen_request_effect (const_host 0x100000000 0) 0
     (demo_world (demo_core 0x0c 0x1000 0x8004 0x10) mem_read_req (fun _ => 0)) rfl rfl with
   | ⟨w1, h1, h2, _, _, h5⟩ => ⟨w1, h1, h2.trans rfl, h5.trans (by decide)⟩⟩

theorem file_host_reports_position (s : HostFile) (fd : Int) :
    (file_host.lseek s fd 0 SEEK_CUR).1 = (s.position : Int) := by
  show (file_lseek s 0 SEEK_CUR).1 = _
  unfold file_lseek
  have h1 : ¬ (SEEK_CUR = SEEK_SET) := by decide
  have h2 : ¬ (SEEK_END < SEEK_CUR) := by decide
  simp only [h1, if_false, if_true, h2, or_false, add_zero]
  rw [if_neg (by omega)]

theorem file_host_sets_position (s : HostFile) (fd p : Int)
    (h : (file_host.lseek s fd p SEEK_SET).1 ≠ -1) :
    (((file_host.lseek s fd p SEEK_SET).2.position : Nat) : Int) = p := by
  have h2 : ¬ (SEEK_END < SEEK_SET) := by decide
  have e : file_host.lseek s fd p SEEK_SET
      = if p < 0 then (-1, { s with err := 22 }) else (p, { s with position := p.toNat }) := by
    show file_lseek s p SEEK_SET = _
    unfold file_lseek
    simp only [if_true, h2, or_false]
  rw [e] at h ⊢
  by_cases hp : p < 0
  · rw [if_pos hp] at h
    exact absurd rfl h
  · rw [if_neg hp]
    show ((p.toNat : Nat) : Int) = p
    omega

/-- C15: over any host with a position observer `pos` such that a relative seek by 0
reports the current position and a successful absolute seek leaves the position it was
given, a flen request whose parameter read succeeds and which succeeds (r0 is not -1;
more generally whenever the first and the restoring seek succeed) leaves the position of
the handle where it was before the request. -/
theorem flen_keeps_position {σ : Type} (H : Host σ) (pos : σ → Int → Int)
    (hcur : ∀ s fd, (H.lseek s fd 0 SEEK_CUR).1 = pos s fd)
    (hset : ∀ s fd p, (H.lseek s fd p SEEK_SET).1 ≠ -1 → pos (H.lseek s fd p SEEK_SET).2 fd = p)
    (fuel : Nat) (w : World σ)
    (hr0 : buf_get_u32 w.arm.r0.value = 0x0c)
    (hrd : w.status w.tick = ERROR_OK) :
    let r1 := buf_get_u32 w.arm.r1.value
    let fd := to_int (target_buffer_get_u32 w (read_bytes w.mem r1 (4 * 1)) 0)
    let rc := H.lseek w.host fd 0 SEEK_CUR
    let re := H.lseek rc.2 fd 0 SEEK_END
    let rs := H.lseek re.2 fd rc.1 SEEK_SET
    ∃ w1, do_semihosting H fuel w = some (w.status (w.tick + 1), w1) ∧
      (rc.1 ≠ -1 → rs.1 ≠ -1 → pos w1.host fd = pos w.host fd) ∧
      (w1.arm.r0.value ≠ 0xFFFFFFFF → pos w1.host fd = pos w.host fd) := by
  intro r1 fd rc re rs
  obtain ⟨w1, h1, _, h3, _, h5⟩ := flen_request_effect H fuel w hr0 hrd
  have h3' : w1.host = (if rc.1 = -1 then rc.2 else rs.2) := h3
  have h5' : w1.arm.r0.value
      = to_u32 (if rc.1 = -1 then -1 else if rs.1 = -1 then -1 else to_int re.1) := h5
  have key : rc.1 ≠ -1 → rs.1 ≠ -1 → pos w1.host fd = pos w.host fd := by
    intro hc hs
    rw [h3', if_neg hc]
    have := hset re.2 fd rc.1 hs
    rw [this]
    exact hcur w.host fd
  refine ⟨w1, h1, key, ?_⟩
  intro hne
  have hm1 : to_u32 (-1) = 0xFFFFFFFF := rfl
  by_cases hc : rc.1 = -1
  · rw [h5', if_pos hc, hm1] at hne
    exact absurd rfl hne
  · by_cases hs : rs.1 = -1
    · rw [h5', if_neg hc, if_pos hs, hm1] at hne
      exact absurd rfl hne
    · exact key hc hs

/-- Instance of C15: a file of length 100 positioned at 5 is at position 5 after the
request. -/
theorem flen_keeps_position_witness :
    ∃ w1, do_semihosting file_host 0
        (file_world (demo_core 0x0c 0x1000 0x8004 0x10) mem_read_req
          { position := 5, length := 100, err := 0 })
        = some (0, w1) ∧
      (w1.host.position : Int) = 5 :=
  match flen_keeps_position file_host (fun s _ => (s.position : Int))
    file_host_reports_position file_host_sets_position 0
    (file_world (demo_core 0x0c 0x1000 0x8004 0x10) mem_read_req
      { position := 5, length := 100, err := 0 }) rfl rfl with
  | ⟨w1, h1, h2, _⟩ => ⟨w1, h1, h2 (by decide) (by decide)⟩

/-! ### Local buffers: the calls of every case stay within them -/

theorem target_read_memory_length {σ : Type} (w : World σ) (addr size count : Nat)
    (h : (target_read_memory w addr size count).1 = ERROR_OK) :
    (target_read_memory w addr size count).2.1.length = size * count := by
  have h1 : w.status w.tick = ERROR_OK := h
  show (if w.status w.tick = ERROR_OK then read_bytes w.mem addr (size * count)
    else []).length = size * count
  rw [if_pos h1]
  unfold read_bytes
  rw [List.length_map, List.length_range]

theorem terminated_length (fn : List Nat) (l : Nat) (hlen : fn.length = 1 * l)
    (hl : l ≤ 255) : (fn ++ [0]).length ≤ 256 := by
  rw [List.length_append, hlen, List.length_singleton]
  omega

theorem local_log_of {σ : Type} (r0 : Nat) (w : World σ) (out : Outcome σ) (new : List Event)
    (ht : out.world.trace = w.trace ++ new) (hp : ∀ ev ∈ new, ev.fits_local_buffer r0) :
    local_log r0 w out :=
  ⟨new, ht, hp⟩

theorem local_log_here {σ : Type} (r0 : Nat) (w : World σ) (out : Outcome σ)
    (ht : out.world.trace = w.trace) : local_log r0 w out :=
  ⟨[], by rw [ht, List.append_nil], fun _ hev => nomatch hev⟩

theorem local_log_after {σ : Type} (r0 : Nat) (w w1 : World σ) (out : Outcome σ) (ev : Event)
    (ht : w1.trace = w.trace ++ [ev]) (hp : ev.fits_local_buffer r0)
    (h : local_log r0 w1 out) : local_log r0 w out := by
  obtain ⟨new, h1, h2⟩ := h
  refine ⟨ev :: new, ?_, ?_⟩
  · rw [h1, ht, List.append_assoc, List.singleton_append]
  · intro x hx
    rcases List.mem_cons.mp hx with rfl | hx
    · exact hp
    · exact h2 x hx

theorem pair_fits (r0 : Nat) (e1 e2 : Event) (h1 : e1.fits_local_buffer r0)
    (h2 : e2.fits_local_buffer r0) : ∀ ev ∈ [e1, e2], ev.fits_local_buffer r0 := by
  intro ev hev
  rcases List.mem_cons.mp hev with rfl | hev
  · exact h1
  · rw [List.mem_singleton.mp hev]; exact h2

theorem host_step_log {σ : Type} (w : World σ) (c : HostCall) (h : σ) (r0 : Nat)
    (out : Outcome σ) (hp : (Event.host c).fits_local_buffer r0)
    (hf : local_log r0 (host_step w c h) out) : local_log r0 w out :=
  local_log_after r0 w (host_step w c h) out (Event.host c) rfl hp hf

theorem ite_log {σ : Type} (w : World σ) (r0 : Nat) (c : Prop) [Decidable c]
    (a b : Outcome σ) (ha : c → local_log r0 w a) (hb : ¬ c → local_log r0 w b) :
    local_log r0 w (if c then a else b) := by
  by_cases h : c
  · rw [if_pos h]; exact ha h
  · rw [if_neg h]; exact hb h

theorem try_read_log {σ : Type} (w : World σ) (addr size count r0 : Nat)
    (k : List Nat → World σ → Outcome σ)
    (hc : count ≤ local_capacity r0 size)
    (hk : ∀ buf, buf.length = size * count →
      local_log r0 (target_read_memory w addr size count).2.2
        (k buf (target_read_memory w addr size count).2.2)) :
    local_log r0 w (try_read (target_read_memory w addr size count) k) := by
  unfold try_read
  by_cases hst : (target_read_memory w addr size count).1 ≠ ERROR_OK
  · rw [if_pos hst]
    exact local_log_of r0 w _ [Event.read_memory addr size count (w.status w.tick)] rfl
      (fun ev hev => by rw [List.mem_singleton.mp hev]; exact hc)
  · rw [if_neg hst]
    exact local_log_after r0 w (target_read_memory w addr size count).2.2 _
      (Event.read_memory addr size count (w.status w.tick)) rfl hc
      (hk _ (target_read_memory_length w addr size count (not_not.mp hst)))

theorem try_write_log {σ : Type} (w : World σ) (wr : Int × World σ) (ev : Event) (r0 : Nat)
    (k : World σ → Outcome σ) (ht : wr.2.trace = w.trace ++ [ev])
    (hp : ev.fits_local_buffer r0) (hk : local_log r0 wr.2 (k wr.2)) :
    local_log r0 w (try_write wr k) := by
  unfold try_write
  by_cases hst : wr.1 ≠ ERROR_OK
  · rw [if_pos hst]
    exact local_log_of r0 w _ [ev] ht
      (fun x hx => by rw [List.mem_singleton.mp hx]; exact hp)
  · rw [if_neg hst]
    exact local_log_after r0 w wr.2 _ ev ht hp hk

theorem brk_host_errno_log {σ : Type} (w : World σ) (r0 : Nat) (v e : Int) (c : HostCall)
    (h : σ) (hp : (Event.host c).fits_local_buffer r0) :
    local_log r0 w (Outcome.brk v (set_errno (host_step w c h) e)) :=
  host_step_log w c h r0 _ hp (local_log_here r0 _ _ rfl)

theorem brk_host_log {σ : Type} (w : World σ) (r0 : Nat) (v : Int) (c : HostCall)
    (h : σ) (hp : (Event.host c).fits_local_buffer r0) :
    local_log r0 w (Outcome.brk v (host_step w c h)) :=
  host_step_log w c h r0 _ hp (local_log_here r0 _ _ rfl)

theorem brk_errno_log {σ : Type} (w : World σ) (r0 : Nat) (v e : Int) :
    local_log r0 w (Outcome.brk v (set_errno w e)) :=
  local_log_here r0 _ _ rfl

theorem brk_self_log {σ : Type} (w : World σ) (r0 : Nat) (v : Int) :
    local_log r0 w (Outcome.brk v w) :=
  local_log_here r0 _ _ rfl

theorem sys_open_log {σ : Type} (H : Host σ) (w : World σ) (r1 : Nat) :
    local_log 0x01 w (sys_open H w r1) := by
  unfold sys_open
  refine try_read_log _ _ _ _ _ _ (by decide) (fun _ _ => ?_)
  refine ite_log _ _ _ _ _ (fun hl => ?_) (fun _ => brk_errno_log _ _ _ _)
  refine try_read_log _ _ _ _ _ _ hl.1 (fun fn hfn => ?_)
  refine ite_log _ _ _ _ _ (fun _ => ?_)
    (fun _ => brk_host_errno_log _ _ _ _ _ _ (terminated_length fn _ hfn hl.1))
  exact ite_log _ _ _ _ _ (fun _ => brk_host_errno_log _ _ _ _ _ _ (by trivial))
    (fun _ => brk_host_errno_log _ _ _ _ _ _ (by trivial))

theorem sys_close_log {σ : Type} (H : Host σ) (w : World σ) (r1 : Nat) :
    local_log 0x02 w (sys_close H w r1) := by
  unfold sys_close
  exact try_read_log _ _ _ _ _ _ (by decide)
    (fun _ _ => brk_host_errno_log _ _ _ _ _ _ (by trivial))

theorem sys_writec_log {σ : Type} (H : Host σ) (w : World σ) (r1 : Nat) :
    local_log 0x03 w (sys_writec H w r1) := by
  unfold sys_writec
  exact try_read_log _ _ _ _ _ _ (by decide) (fun _ _ => brk_host_log _ _ _ _ _ (by trivial))

theorem sys_write0_log {σ : Type} (H : Host σ) :
    ∀ (fuel : Nat) (w : World σ) (r1 : Nat) (out : Outcome σ),
      sys_write0 H fuel w r1 = some out → local_log 0x04 w out := by
  intro fuel
  induction fuel with
  | zero => intro w r1 out h; exact nomatch h
  | succ n ih =>
    intro w r1 out h
    unfold sys_write0 at h
    by_cases hst : (target_read_memory w r1 1 1).1 ≠ ERROR_OK
    · rw [if_pos hst, Option.some.injEq] at h
      subst h
      exact local_log_of _ w _ [Event.read_memory r1 1 1 (w.status w.tick)] rfl
        (fun ev hev => by
          rw [List.mem_singleton.mp hev]
          show 1 ≤ local_capacity 0x04 1
          decide)
    · rw [if_neg hst] at h
      refine local_log_after _ w (target_read_memory w r1 1 1).2.2 _
        (Event.read_memory r1 1 1 (w.status w.tick)) rfl
        (by show 1 ≤ local_capacity 0x04 1; decide) ?_
      dsimp only at h
      split_ifs at h with hc
      · rw [Option.some.injEq] at h
        subst h
        exact brk_self_log _ _ _
      · exact host_step_log _ _ _ _ _ (by trivial) (ih _ _ _ h)

theorem sys_write_buf_log {σ : Type} (H : Host σ) (w : World σ) (fd : Int) (a l : Nat) :
    local_log 0x05 w (sys_write_buf H w fd a l) := by
  unfold sys_write_buf
  refine ite_log _ _ _ _ _ (fun _ => ?_) (fun _ => ?_)
  · exact local_log_of _ _ _ [Event.read_buffer _ _ _, Event.host HostCall.free]
      (List.append_assoc _ _ _) (pair_fits _ _ _ (by trivial) (by trivial))
  · refine local_log_after _ w (target_read_buffer w a l).2.2 _
      (Event.read_buffer a l (w.status w.tick)) rfl (by trivial) ?_
    exact local_log_of _ _ _ [Event.host (HostCall.write _ _), Event.host HostCall.free]
      (List.append_assoc _ _ _) (pair_fits _ _ _ (by trivial) (by trivial))

theorem sys_write_log {σ : Type} (H : Host σ) (w : World σ) (r1 : Nat) :
    local_log 0x05 w (sys_write H w r1) := by
  unfold sys_write
  refine try_read_log _ _ _ _ _ _ (by decide) (fun _ _ => ?_)
  dsimp only
  apply host_step_log
  case hf =>
    exact ite_log _ _ _ _ _ (fun _ => brk_errno_log _ _ _ _)
      (fun _ => sys_write_buf_log _ _ _ _ _)
  case hp => trivial

theorem sys_read_buf_log {σ : Type} (H : Host σ) (w : World σ) (fd : Int) (a l : Nat) :
    local_log 0x06 w (sys_read_buf H w fd a l) := by
  unfold sys_read_buf
  refine host_step_log w (HostCall.read fd l) (H.read w.host fd l).2.2 _ _ (by trivial) ?_
  refine ite_log _ _ _ _ _ (fun _ => ?_) (fun _ => ?_)
  · refine ite_log _ _ _ _ _ (fun _ => ?_) (fun _ => ?_)
    · exact local_log_of _ _ _ [Event.write_buffer _ _ _ _, Event.host HostCall.free]
        (List.append_assoc _ _ _) (pair_fits _ _ _ (by trivial) (by trivial))
    · exact local_log_of _ _ _ [Event.write_buffer _ _ _ _, Event.host HostCall.free]
        (List.append_assoc _ _ _) (pair_fits _ _ _ (by trivial) (by trivial))
  · exact local_log_of _ _ _ [Event.host HostCall.free] rfl
      (fun ev hev => by rw [List.mem_singleton.mp hev]; trivial)

theorem sys_read_log {σ : Type} (H : Host σ) (w : World σ) (r1 : Nat) :
    local_log 0x06 w (sys_read H w r1) := by
  unfold sys_read
  refine try_read_log _ _ _ _ _ _ (by decide) (fun _ _ => ?_)
  dsimp only
  apply host_step_log
  case hf =>
    exact ite_log _ _ _ _ _ (fun _ => brk_errno_log _ _ _ _)
      (fun _ => sys_read_buf_log _ _ _ _ _)
  case hp => trivial

theorem sys_readc_log {σ : Type} (H : Host σ) (w : World σ) :
    local_log 0x07 w (sys_readc H w) :=
  brk_host_log _ _ _ HostCall.getchar _ (by trivial)

theorem sys_iserror_log {σ : Type} (w : World σ) (r1 : Nat) :
    local_log 0x08 w (sys_iserror w r1) := by
  unfold sys_iserror
  exact try_read_log _ _ _ _ _ _ (by decide) (fun _ _ => brk_self_log _ _ _)

theorem sys_istty_log {σ : Type} (H : Host σ) (w : World σ) (r1 : Nat) :
    local_log 0x09 w (sys_istty H w r1) := by
  unfold sys_istty
  exact try_read_log _ _ _ _ _ _ (by decide) (fun _ _ => brk_host_log _ _ _ _ _ (by trivial))

theorem sys_seek_log {σ : Type} (H : Host σ) (w : World σ) (r1 : Nat) :
    local_log 0x0a w (sys_seek H w r1) := by
  unfold sys_seek
  exact try_read_log _ _ _ _ _ _ (by decide)
    (fun _ _ => brk_host_errno_log _ _ _ _ _ _ (by trivial))

theorem sys_flen_log {σ : Type} (H : Host σ) (w : World σ) (r1 : Nat) :
    local_log 0x0c w (sys_flen H w r1) := by
  unfold sys_flen
  refine try_read_log _ _ _ _ _ _ (by decide) (fun _ _ => ?_)
  dsimp only
  refine ite_log _ _ _ _ _ (fun _ => brk_host_errno_log _ _ _ _ _ _ (by trivial)) (fun _ => ?_)
  apply host_step_log
  case hf =>
    refine ite_log _ _ _ _ _ (fun _ => ?_) (fun _ => ?_)
    · exact local_log_of _ _ _
        [Event.host (HostCall.lseek _ _ _), Event.host (HostCall.lseek _ _ _)]
        (List.append_assoc _ _ _) (pair_fits _ _ _ (by trivial) (by trivial))
    · exact local_log_of _ _ _
        [Event.host (HostCall.lseek _ _ _), Event.host (HostCall.lseek _ _ _)]
        (List.append_assoc _ _ _) (pair_fits _ _ _ (by trivial) (by trivial))
  case hp => trivial

theorem sys_remove_log {σ : Type} (H : Host σ) (w : World σ) (r1 : Nat) :
    local_log 0x0e w (sys_remove H w r1) := by
  unfold sys_remove
  refine try_read_log _ _ _ _ _ _ (by decide) (fun _ _ => ?_)
  refine ite_log _ _ _ _ _ (fun hl => ?_) (fun _ => brk_errno_log _ _ _ _)
  exact try_read_log _ _ _ _ _ _ hl
    (fun fn hfn => brk_host_errno_log _ _ _ _ _ _ (terminated_length fn _ hfn hl))

theorem sys_rename_log {σ : Type} (H : Host σ) (w : World σ) (r1 : Nat) :
    local_log 0x0f w (sys_rename H w r1) := by
  unfold sys_rename
  refine try_read_log _ _ _ _ _ _ (by decide) (fun _ _ => ?_)
  refine ite_log _ _ _ _ _ (fun hl => ?_) (fun _ => brk_errno_log _ _ _ _)
  refine try_read_log _ _ _ _ _ _ hl.1 (fun fn1 hfn1 => ?_)
  exact try_read_log _ _ _ _ _ _ hl.2
    (fun fn2 hfn2 => brk_host_errno_log _ _ _ _ _ _
      ⟨terminated_length fn1 _ hfn1 hl.1, terminated_length fn2 _ hfn2 hl.2⟩)

theorem sys_time_log {σ : Type} (H : Host σ) (w : World σ) :
    local_log 0x11 w (sys_time H w) :=
  brk_host_log _ _ _ HostCall.time _ (by trivial)

theorem sys_errno_log {σ : Type} (w : World σ) :
    local_log 0x13 w (sys_errno w) :=
  brk_self_log _ _ _

theorem sys_get_cmdline_log {σ : Type} (w : World σ) (r1 : Nat) :
    local_log 0x15 w (sys_get_cmdline w r1) := by
  unfold sys_get_cmdline
  refine try_read_log _ _ _ _ _ _ (by decide) (fun _ _ => ?_)
  refine ite_log _ _ _ _ _ (fun _ => brk_self_log _ _ _) (fun _ => ?_)
  exact try_write_log _ _ (Event.write_buffer _ _ _ _) _ _ rfl (by trivial)
    (brk_self_log _ _ _)

theorem sys_heapinfo_log {σ : Type} (w : World σ) (r1 : Nat) :
    local_log 0x16 w (sys_heapinfo w r1) := by
  unfold sys_heapinfo
  refine try_read_log _ _ _ _ _ _ (by decide) (fun _ _ => ?_)
  exact try_write_log _ _ (Event.write_memory _ 4 4 _ _) _ _ rfl
    (by show 4 * 4 ≤ 16; decide) (brk_self_log _ _ _)

theorem report_exception_log {σ : Type} (H : Host σ) (w : World σ) (r1 : Nat) :
    local_log 0x18 w (report_exception H w r1) := by
  unfold report_exception
  exact local_log_of _ _ _ [Event.host (HostCall.fprintf_stderr _), Event.halted_event _ _]
    (List.append_assoc _ _ _) (pair_fits _ _ _ (by trivial) (by trivial))

theorem unsupported_call_log {σ : Type} (H : Host σ) (w : World σ) (r0 : Nat) :
    local_log r0 w (unsupported_call H w r0) :=
  brk_host_errno_log _ _ _ _ (HostCall.fprintf_stderr _) _ (by trivial)

theorem do_semihosting_switch_log {σ : Type} (H : Host σ) (fuel : Nat) (w : World σ)
    (r0 r1 : Nat) (out : Outcome σ)
    (h : do_semihosting_switch H fuel w r0 r1 = some out) : local_log r0 w out := by
  unfold do_semihosting_switch at h
  by_cases h0x01 : r0 = 0x01
  · rw [if_pos h0x01, Option.some.injEq] at h; subst h; subst h0x01
    exact sys_open_log H w r1
  rw [if_neg h0x01] at h
  by_cases h0x02 : r0 = 0x02
  · rw [if_pos h0x02, Option.some.injEq] at h; subst h; subst h0x02
    exact sys_close_log H w r1
  rw [if_neg h0x02] at h
  by_cases h0x03 : r0 = 0x03
  · rw [if_pos h0x03, Option.some.injEq] at h; subst h; subst h0x03
    exact sys_writec_log H w r1
  rw [if_neg h0x03] at h
  by_cases h0x04 : r0 = 0x04
  · rw [if_pos h0x04] at h; subst h0x04; exact sys_write0_log H fuel w r1 out h
  rw [if_neg h0x04] at h
  by_cases h0x05 : r0 = 0x05
  · rw [if_pos h0x05, Option.some.injEq] at h; subst h; subst h0x05
    exact sys_write_log H w r1
  rw [if_neg h0x05] at h
  by_cases h0x06 : r0 = 0x06
  · rw [if_pos h0x06, Option.some.injEq] at h; subst h; subst h0x06
    exact sys_read_log H w r1
  rw [if_neg h0x06] at h
  by_cases h0x07 : r0 = 0x07
  · rw [if_pos h0x07, Option.some.injEq] at h; subst h; subst h0x07
    exact sys_readc_log H w
  rw [if_neg h0x07] at h
  by_cases h0x08 : r0 = 0x08
  · rw [if_pos h0x08, Option.some.injEq] at h; subst h; subst h0x08
    exact sys_iserror_log w r1
  rw [if_neg h0x08] at h
  by_cases h0x09 : r0 = 0x09
  · rw [if_pos h0x09, Option.some.injEq] at h; subst h; subst h0x09
    exact sys_istty_log H w r1
  rw [if_neg h0x09] at h
  by_cases h0x0a : r0 = 0x0a
  · rw [if_pos h0x0a, Option.some.injEq] at h; subst h; subst h0x0a
    exact sys_seek_log H w r1
  rw [if_neg h0x0a] at h
  by_cases h0x0c : r0 = 0x0c
  · rw [if_pos h0x0c, Option.some.injEq] at h; subst h; subst h0x0c
    exact sys_flen_log H w r1
  rw [if_neg h0x0c] at h
  by_cases h0x0e : r0 = 0x0e
  · rw [if_pos h0x0e, Option.some.injEq] at h; subst h; subst h0x0e
    exact sys_remove_log H w r1
  rw [if_neg h0x0e] at h
  by_cases h0x0f : r0 = 0x0f
  · rw [if_pos h0x0f, Option.some.injEq] at h; subst h; subst h0x0f
    exact sys_rename_log H w r1
  rw [if_neg h0x0f] at h
  by_cases h0x11 : r0 = 0x11
  · rw [if_pos h0x11, Option.some.injEq] at h; subst h; subst h0x11
    exact sys_time_log H w
  rw [if_neg h0x11] at h
  by_cases h0x13 : r0 = 0x13
  · rw [if_pos h0x13, Option.some.injEq] at h; subst h; subst h0x13
    exact sys_errno_log w
  rw [if_neg h0x13] at h
  by_cases h0x15 : r0 = 0x15
  · rw [if_pos h0x15, Option.some.injEq] at h; subst h; subst h0x15
    exact sys_get_cmdline_log w r1
  rw [if_neg h0x15] at h
  by_cases h0x16 : r0 = 0x16
  · rw [if_pos h0x16, Option.some.injEq] at h; subst h; subst h0x16
    exact sys_heapinfo_log w r1
  rw [if_neg h0x16] at h
  by_cases h0x18 : r0 = 0x18
  · rw [if_pos h0x18, Option.some.injEq] at h; subst h; subst h0x18
    exact report_exception_log H w r1
  rw [if_neg h0x18] at h
  rw [Option.some.injEq] at h; subst h; exact unsupported_call_log H w r0

theorem do_semihosting_log {σ : Type} (H : Host σ) (fuel : Nat) (w : World σ) (rv : Int)
    (w' : World σ) (h : do_semihosting H fuel w = some (rv, w')) :
    ∃ new, w'.trace = w.trace ++ new ∧
      ∀ ev ∈ new, ev.fits_local_buffer (buf_get_u32 w.arm.r0.value) := by
  cases hsw : do_semihosting_switch H fuel w (buf_get_u32 w.arm.r0.value)
      (buf_get_u32 w.arm.r1.value) with
  | none =>
    unfold do_semihosting at h
    simp only [hsw] at h
    exact nomatch h
  | some out =>
    obtain ⟨new, h1, h2⟩ := do_semihosting_switch_log H fuel w _ _ out hsw
    cases out with
    | ret rv1 w1 =>
      rw [do_semihosting_of_ret H fuel w w1 rv1 hsw] at h
      have hw : w1 = w' := congrArg Prod.snd (Option.some.inj h)
      subst hw
      exact ⟨new, h1, h2⟩
    | brk v w1 =>
      rw [do_semihosting_of_brk H fuel w w1 v hsw] at h
      have hw : (commit w1 (buf_get_u32 w.arm.lr_svc.value) (buf_get_u32 w.arm.spsr.value) v).2
          = w' := congrArg Prod.snd (Option.some.inj h)
      refine ⟨new ++ [Event.resume w'.arm (w1.status w1.tick)], ?_, ?_⟩
      · rw [← List.append_assoc, ← (h1 : w1.trace = w.trace ++ new), ← hw]
        exact commit_trace w1 _ _ v
      · intro ev hev
        rcases List.mem_append.mp hev with hev | hev
        · exact h2 ev hev
        · rw [List.mem_singleton.mp hev]; trivial

/-! ### Local buffers: the words taken out of `params` -/

theorem byte_at_append (buf g : List Nat) (i : Nat) (h : i < buf.length) :
    byte_at (buf ++ g) i = byte_at buf i := by
  unfold byte_at
  rw [List.getD_append _ _ _ _ h]

theorem target_buffer_get_u32_append {σ : Type} (w : World σ) (buf g : List Nat) (off : Nat)
    (h : off + 4 ≤ buf.length) :
    target_buffer_get_u32 w (buf ++ g) off = target_buffer_get_u32 w buf off := by
  unfold target_buffer_get_u32
  rw [byte_at_append buf g off (by omega), byte_at_append buf g (off + 1) (by omega),
    byte_at_append buf g (off + 2) (by omega), byte_at_append buf g (off + 3) (by omega)]

theorem sys_open_params_append {σ : Type} (H : Host σ) (buf g : List Nat) (w1 : World σ)
    (hlen : buf.length = 4 * 3) :
    sys_open_params H (buf ++ g) w1 = sys_open_params H buf w1 := by
  unfold sys_open_params
  rw [target_buffer_get_u32_append w1 buf g 0 (by omega), target_buffer_get_u32_append w1 buf g 4 (by omega), target_buffer_get_u32_append w1 buf g 8 (by omega)]

theorem sys_close_params_append {σ : Type} (H : Host σ) (buf g : List Nat) (w1 : World σ)
    (hlen : buf.length = 4 * 1) :
    sys_close_params H (buf ++ g) w1 = sys_close_params H buf w1 := by
  unfold sys_close_params
  rw [target_buffer_get_u32_append w1 buf g 0 (by omega)]

theorem sys_write_params_append {σ : Type} (H : Host σ) (buf g : List Nat) (w1 : World σ)
    (hlen : buf.length = 4 * 3) :
    sys_write_params H (buf ++ g) w1 = sys_write_params H buf w1 := by
  unfold sys_write_params
  rw [target_buffer_get_u32_append w1 buf g 0 (by omega), target_buffer_get_u32_append w1 buf g 4 (by omega), target_buffer_get_u32_append w1 buf g 8 (by omega)]

theorem sys_read_params_append {σ : Type} (H : Host σ) (buf g : List Nat) (w1 : World σ)
    (hlen : buf.length = 4 * 3) :
    sys_read_params H (buf ++ g) w1 = sys_read_params H buf w1 := by
  unfold sys_read_params
  rw [target_buffer_get_u32_append w1 buf g 0 (by omega), target_buffer_get_u32_append w1 buf g 4 (by omega), target_buffer_get_u32_append w1 buf g 8 (by omega)]

theorem sys_iserror_params_append {σ : Type} (buf g : List Nat) (w1 : World σ)
    (hlen : buf.length = 4 * 1) :
    sys_iserror_params (buf ++ g) w1 = sys_iserror_params buf w1 := by
  unfold sys_iserror_params
  rw [target_buffer_get_u32_append w1 buf g 0 (by omega)]

theorem sys_istty_params_append {σ : Type} (H : Host σ) (buf g : List Nat) (w1 : World σ)
    (hlen : buf.length = 4 * 1) :
    sys_istty_params H (buf ++ g) w1 = sys_istty_params H buf w1 := by
  unfold sys_istty_params
  rw [target_buffer_get_u32_append w1 buf g 0 (by omega)]

theorem sys_seek_params_append {σ : Type} (H : Host σ) (buf g : List Nat) (w1 : World σ)
    (hlen : buf.length = 4 * 2) :
    sys_seek_params H (buf ++ g) w1 = sys_seek_params H buf w1 := by
  unfold sys_seek_params
  rw [target_buffer_get_u32_append w1 buf g 0 (by omega), target_buffer_get_u32_append w1 buf g 4 (by omega)]

theorem sys_flen_params_append {σ : Type} (H : Host σ) (buf g : List Nat) (w1 : World σ)
    (hlen : buf.length = 4 * 1) :
    sys_flen_params H (buf ++ g) w1 = sys_flen_params H buf w1 := by
  unfold sys_flen_params
  rw [target_buffer_get_u32_append w1 buf g 0 (by omega)]

theorem sys_remove_params_append {σ : Type} (H : Host σ) (buf g : List Nat) (w1 : World σ)
    (hlen : buf.length = 4 * 2) :
    sys_remove_params H (buf ++ g) w1 = sys_remove_params H buf w1 := by
  unfold sys_remove_params
  rw [target_buffer_get_u32_append w1 buf g 0 (by omega), target_buffer_get_u32_append w1 buf g 4 (by omega)]

theorem sys_rename_params_append {σ : Type} (H : Host σ) (buf g : List Nat) (w1 : World σ)
    (hlen : buf.length = 4 * 4) :
    sys_rename_params H (buf ++ g) w1 = sys_rename_params H buf w1 := by
  unfold sys_rename_params
  rw [target_buffer_get_u32_append w1 buf g 0 (by omega), target_buffer_get_u32_append w1 buf g 4 (by omega), target_buffer_get_u32_append w1 buf g 8 (by omega), target_buffer_get_u32_append w1 buf g 12 (by omega)]

theorem sys_get_cmdline_params_append {σ : Type} (buf g : List Nat) (w1 : World σ)
    (hlen : buf.length = 4 * 2) :
    sys_get_cmdline_params (buf ++ g) w1 = sys_get_cmdline_params buf w1 := by
  unfold sys_get_cmdline_params
  rw [target_buffer_get_u32_append w1 buf g 0 (by omega), target_buffer_get_u32_append w1 buf g 4 (by omega)]

theorem sys_heapinfo_params_append {σ : Type} (buf g : List Nat) (w1 : World σ)
    (hlen : buf.length = 4 * 1) :
    sys_heapinfo_params (buf ++ g) w1 = sys_heapinfo_params buf w1 := by
  unfold sys_heapinfo_params
  rw [target_buffer_get_u32_append w1 buf g 0 (by omega)]

theorem params_case_spec {σ : Type} (H : Host σ) (fuel : Nat) (w : World σ) (r0 r1 n : Nat)
    (k : List Nat → World σ → Outcome σ) (h : params_case H r0 = some (n, k)) :
    do_semihosting_switch H fuel w r0 r1
        = some (try_read (target_read_memory w r1 4 n) k) ∧
      n ≤ 4 ∧
      ∀ (buf g : List Nat) (w1 : World σ), buf.length = 4 * n → k (buf ++ g) w1 = k buf w1 := by
  unfold params_case at h
  by_cases h0x01 : r0 = 0x01
  · rw [if_pos h0x01] at h
    obtain ⟨rfl, rfl⟩ := Prod.mk.inj (Option.some.inj h)
    subst h0x01
    exact ⟨rfl, by decide, sys_open_params_append H⟩
  rw [if_neg h0x01] at h
  by_cases h0x02 : r0 = 0x02
  · rw [if_pos h0x02] at h
    obtain ⟨rfl, rfl⟩ := Prod.mk.inj (Option.some.inj h)
    subst h0x02
    exact ⟨rfl, by decide, sys_close_params_append H⟩
  rw [if_neg h0x02] at h
  by_cases h0x05 : r0 = 0x05
  · rw [if_pos h0x05] at h
    obtain ⟨rfl, rfl⟩ := Prod.mk.inj (Option.some.inj h)
    subst h0x05
    exact ⟨rfl, by decide, sys_write_params_append H⟩
  rw [if_neg h0x05] at h
  by_cases h0x06 : r0 = 0x06
  · rw [if_pos h0x06] at h
    obtain ⟨rfl, rfl⟩ := Prod.mk.inj (Option.some.inj h)
    subst h0x06
    exact ⟨rfl, by decide, sys_read_params_append H⟩
  rw [if_neg h0x06] at h
  by_cases h0x08 : r0 = 0x08
  · rw [if_pos h0x08] at h
    obtain ⟨rfl, rfl⟩ := Prod.mk.inj (Option.some.inj h)
    subst h0x08
    exact ⟨rfl, by decide, sys_iserror_params_append⟩
  rw [if_neg h0x08] at h
  by_cases h0x09 : r0 = 0x09
  · rw [if_pos h0x09] at h
    obtain ⟨rfl, rfl⟩ := Prod.mk.inj (Option.some.inj h)
    subst h0x09
    exact ⟨rfl, by decide, sys_istty_params_append H⟩
  rw [if_neg h0x09] at h
  by_cases h0x0a : r0 = 0x0a
  · rw [if_pos h0x0a] at h
    obtain ⟨rfl, rfl⟩ := Prod.mk.inj (Option.some.inj h)
    subst h0x0a
    exact ⟨rfl, by decide, sys_seek_params_append H⟩
  rw [if_neg h0x0a] at h
  by_cases h0x0c : r0 = 0x0c
  · rw [if_pos h0x0c] at h
    obtain ⟨rfl, rfl⟩ := Prod.mk.inj (Option.some.inj h)
    subst h0x0c
    exact ⟨rfl, by decide, sys_flen_params_append H⟩
  rw [if_neg h0x0c] at h
  by_cases h0x0e : r0 = 0x0e
  · rw [if_pos h0x0e] at h
    obtain ⟨rfl, rfl⟩ := Prod.mk.inj (Option.some.inj h)
    subst h0x0e
    exact ⟨rfl, by decide, sys_remove_params_append H⟩
  rw [if_neg h0x0e] at h
  by_cases h0x0f : r0 = 0x0f
  · rw [if_pos h0x0f] at h
    obtain ⟨rfl, rfl⟩ := Prod.mk.inj (Option.some.inj h)
    subst h0x0f
    exact ⟨rfl, by decide, sys_rename_params_append H⟩
  rw [if_neg h0x0f] at h
  by_cases h0x15 : r0 = 0x15
  · rw [if_pos h0x15] at h
    obtain ⟨rfl, rfl⟩ := Prod.mk.inj (Option.some.inj h)
    subst h0x15
    exact ⟨rfl, by decide, sys_get_cmdline_params_append⟩
  rw [if_neg h0x15] at h
  by_cases h0x16 : r0 = 0x16
  · rw [if_pos h0x16] at h
    obtain ⟨rfl, rfl⟩ := Prod.mk.inj (Option.some.inj h)
    subst h0x16
    exact ⟨rfl, by decide, sys_heapinfo_params_append⟩
  rw [if_neg h0x16] at h
  exact nomatch h

/-- C20: in every call of `do_semihosting` that returns, each logged access stays within
the local buffer it uses: a read of words stores at most 4 of them (16 bytes, the size of
`params`), a read of bytes stores at most 255 (one in cases 0x03 and 0x04, into `c`), the
write from `params` takes 16 bytes, and a file name handed to the host is, with the
terminator stored after the bytes read, at most 256 bytes long, the size of `fn`.
Moreover every case that uses `params` is a read of `n ≤ 4` words at r1 followed by code
whose outcome does not depend on what `params` holds beyond the `4 * n` bytes just read:
every word it takes out of `params` lies within them. -/
theorem local_buffers_in_bounds {σ : Type} (H : Host σ) (fuel : Nat) (w : World σ) (rv : Int)
    (w' : World σ) (h : do_semihosting H fuel w = some (rv, w')) :
    (∃ new, w'.trace = w.trace ++ new ∧
      ∀ ev ∈ new, ev.fits_local_buffer (buf_get_u32 w.arm.r0.value)) ∧
    ∀ (n : Nat) (k : List Nat → World σ → Outcome σ),
      params_case H (buf_get_u32 w.arm.r0.value) = some (n, k) →
      do_semihosting_switch H fuel w (buf_get_u32 w.arm.r0.value)
          (buf_get_u32 w.arm.r1.value)
        = some (try_read (target_read_memory w (buf_get_u32 w.arm.r1.value) 4 n) k) ∧
      n ≤ 4 ∧
      ∀ (buf g : List Nat) (w1 : World σ), buf.length = 4 * n →
        k (buf ++ g) w1 = k buf w1 :=
  ⟨do_semihosting_log H fuel w rv w' h,
    fun n k hk => params_case_spec H fuel w _ _ n k hk⟩

theorem local_buffers_in_bounds_witness :
    ∃ w1, do_semihosting (const_host 5 0) 0
        (demo_world (demo_core 0x01 0x1000 0x8004 0x10) mem_open_out (fun _ => 0))
        = some (0, w1) ∧
      w1.trace =
        [Event.read_memory 0x1000 4 3 0, Event.read_memory 0x2000 1 7 0,
         Event.host (HostCall.open_ [111, 117, 116, 46, 116, 120, 116, 0]
           (O_WRONLY ||| O_CREAT ||| O_TRUNC)),
         Event.resume w1.arm 0] ∧
      (∃ new, w1.trace = [] ++ new ∧ ∀ ev ∈ new, ev.fits_local_buffer 0x01) ∧
      ∃ k, params_case (const_host 5 0) 0x01 = some (3, k) ∧
        ∀ (buf g : List Nat) (w2 : World Int), buf.length = 4 * 3 →
          k (buf ++ g) w2 = k buf w2 :=
  ⟨_, rfl, rfl,
    (local_buffers_in_bounds (const_host 5 0) 0
      (demo_world (demo_core 0x01 0x1000 0x8004 0x10) mem_open_out (fun _ => 0)) 0 _ rfl).1,
    sys_open_params (const_host 5 0), rfl,
    ((local_buffers_in_bounds (const_host 5 0) 0
      (demo_world (demo_core 0x01 0x1000 0x8004 0x10) mem_open_out (fun _ => 0)) 0 _ rfl).2
      3 (sys_open_params (const_host 5 0)) rfl).2.2⟩

end ArmSemihosting
